import Mathlib

/-!
# systemd-wrapper-lib (`sdw.cpp`): a shallow embedding

Strings are byte lists (`List Nat`, one element per `char`, values below 256).
A list stands for the memory found at a `char *`: the C string it denotes is
the part before the first NUL byte (`cstr`), the end of the list acting as a
terminator.

The local `unit_t unit` of the public functions is never initialised by the
source, so the model passes its indeterminate initial bytes in explicitly
(`unit_t`), together with the bytes that follow the struct in memory
(`beyond`), which a read of an unterminated buffer runs into.
-/

namespace Sdw

set_option maxRecDepth 8000

/-! ## Constants of `sdw.h` and `sdw.cpp` -/

def SDW_EINIT : Int := -1
def SDW_EVERSION : Int := -2
def SDW_EINVAL : Int := -3
def SDW_ENOTIFYSOCK : Int := -4
def SDW_ETIMEOUT : Int := -5

def MAX_UNIT_NAME_LEN : Nat := 64
def MAX_RESPONSE_LEN : Nat := 256

/-- Bytes of an ASCII string literal. -/
def str (s : String) : List Nat := s.toList.map Char.toNat

/-- The constant `sdbus_prefix`, "/test". -/
def sdbus_prefix : List Nat := [47, 116, 101, 115, 116]

/-! ## libc string functions on memory images -/

/-- C string denoted by the memory at a pointer: the bytes before the first NUL. -/
def cstr (mem : List Nat) : List Nat := mem.takeWhile (fun b => b != 0)

def strlen (mem : List Nat) : Nat := (cstr mem).length

/-- Function `strnlen(s, n)`: length of the string, looking at no more than `n` bytes. -/
def strnlen (mem : List Nat) (n : Nat) : Nat := (cstr (mem.take n)).length

/-- Function `strncpy(dst, src, n)`: the new content of the buffer `dst`. At most `n`
bytes of the string at `src` are copied, the rest of the first `n` bytes is
filled with NUL, and the bytes of `dst` from index `n` on are left as they were.
No terminator is written when the source string has `n` bytes or more. -/
def strncpy (dst src : List Nat) (n : Nat) : List Nat :=
  let s := cstr (src.take n)
  s ++ List.replicate (n - s.length) 0 ++ dst.drop n

/-- Function `strndup(s, n)`: a copy of at most `n` bytes of the string at `s`. -/
def strndup (mem : List Nat) (n : Nat) : List Nat := cstr (mem.take n)

/-- Function `strdup(s)`. -/
def strdup (mem : List Nat) : List Nat := cstr mem

/-- Function `strcmp`: zero exactly when both pointers denote the same string. -/
def strcmp (a b : List Nat) : Int :=
  if cstr a = cstr b then 0 else if cstr a < cstr b then -1 else 1

/-! ## libsystemd: object-path escaping (`sd_bus_path_encode`, `sd_bus_path_decode`)

The transport functions the codec calls, after sd_bus_path_encode(3) and the
label escaping of libsystemd. Allocation failure is not modelled. -/

def ascii_isalpha (c : Nat) : Bool := (97 ≤ c && c ≤ 122) || (65 ≤ c && c ≤ 90)

def ascii_isdigit (c : Nat) : Bool := 48 ≤ c && c ≤ 57

/-- Lower-case hex digit of the low nibble of `x`. -/
def hexchar (x : Nat) : Nat :=
  if x % 16 < 10 then 48 + x % 16 else 87 + x % 16

def unhexchar (c : Nat) : Option Nat :=
  if 48 ≤ c ∧ c ≤ 57 then some (c - 48)
  else if 97 ≤ c ∧ c ≤ 102 then some (c - 97 + 10)
  else if 65 ≤ c ∧ c ≤ 70 then some (c - 65 + 10)
  else none

/-- Loop of `bus_label_escape`; `first` tells whether the byte is the first of the label.
Letters and non-leading digits are kept, any other byte becomes `_` and two hex digits. -/
def bus_label_escape_loop : Bool → List Nat → List Nat
  | _, [] => []
  | first, c :: cs =>
    (if ascii_isalpha c || (!first && ascii_isdigit c) then [c]
     else [95, hexchar (c / 16), hexchar c]) ++ bus_label_escape_loop false cs

/-- The empty label is escaped as "_". -/
def bus_label_escape (s : List Nat) : List Nat :=
  if s = [] then [95] else bus_label_escape_loop true s

/-- Loop of `bus_label_unescape_n`: `_` followed by two hex digits is one byte, an
underscore that starts no valid escape is taken literally. `skip` counts the bytes
of an escape still to be passed over (the source's `i += 2`). -/
def bus_label_unescape_loop : Nat → List Nat → List Nat
  | _, [] => []
  | skip + 1, _ :: tl => bus_label_unescape_loop skip tl
  | 0, c :: tl =>
    if c = 95 then
      match tl with
      | a :: b :: _ =>
        match unhexchar a, unhexchar b with
        | some x, some y => (x * 16 + y) :: bus_label_unescape_loop 2 tl
        | _, _ => 95 :: bus_label_unescape_loop 0 tl
      | _ => 95 :: bus_label_unescape_loop 0 tl
    else c :: bus_label_unescape_loop 0 tl

/-- The label "_" stands for the empty string. -/
def bus_label_unescape (f : List Nat) : List Nat :=
  if f = [95] then [] else bus_label_unescape_loop 0 f

/-- Loop of `object_path_is_valid` behind the leading slash; `slash` tells whether the
previous byte was a slash. -/
def object_path_loop : Bool → List Nat → Bool
  | slash, [] => !slash
  | slash, c :: cs =>
    if c = 47 then (if slash then false else object_path_loop true cs)
    else if ascii_isalpha c || ascii_isdigit c || c = 95 then object_path_loop false cs
    else false

def BUS_PATH_SIZE_MAX : Nat := 64 * 1024

def object_path_is_valid (p : List Nat) : Bool :=
  match p with
  | [] => false
  | c :: cs =>
    if c != 47 then false
    else if cs = [] then true
    else object_path_loop true cs && decide (p.length ≤ BUS_PATH_SIZE_MAX)

/-- Rest of the path `a` behind the prefix `b` and a slash; `none` when `b` is no path
prefix of `a`. -/
def object_path_startswith (a b : List Nat) : Option (List Nat) :=
  if !object_path_is_valid a || !object_path_is_valid b then none
  else if b = [47] then some (a.drop 1)
  else if b.isPrefixOf a then
    match a.drop b.length with
    | [] => some []
    | c :: rest => if c = 47 then some rest else none
  else none

/-- Function `sd_bus_path_encode(prefix, external_id, &ret_path)`: return code and path. -/
def sd_bus_path_encode ( pfx external_id : List Nat) : Int × Option (List Nat) :=
  if !object_path_is_valid pfx then (-22, none)
  else (0, some (pfx ++ [47] ++ bus_label_escape external_id))

/-- Function `sd_bus_path_decode(path, prefix, &ret_external_id)`: `-EINVAL` for an
invalid path, 0 without a result when the prefix does not match, else 1 and the
unescaped label. -/
def sd_bus_path_decode (path pfx : List Nat) : Int × Option (List Nat) :=
  if !object_path_is_valid path || !object_path_is_valid pfx then (-22, none)
  else match object_path_startswith path pfx with
    | none => (0, none)
    | some e => (1, some (bus_label_unescape e))

/-! ## Library state and transport

The globals of `sdw.cpp` form the state `World`, together with three ghost fields:
`trace`, the transport calls made so far, `tick`, the number of questions put
to the environment so far, and `undefined`, which records that a log call had
undefined behaviour. The environment (`Env`: the bus, the manager behind it,
the clock) is a parameter; a property stated for every `Env` holds for every
behaviour of the transport. -/

/-- The anonymous enum of `lib_stat`. -/
inductive lib_stat_t
  | INITIAL | CHECK_VERSION | LOADED | FAILED | INVALID_VERSION
deriving DecidableEq, Repr

/-- One argument of a method call; a string argument may be a null pointer. -/
inductive Arg
  | s (v : Option (List Nat))
  | u (v : Nat)
  | b (v : Bool)
deriving DecidableEq, Repr

/-- A call into libsystemd that talks to the bus or to the supervisor. Destination
and object path of a method call are always `org.freedesktop.systemd1` and
`/org/freedesktop/systemd1` and are left out. -/
inductive BusCall
  | open_system
  | get_property (path : List Nat) (interface member type : String)
  | call_method (member types : String) (args : List Arg)
  | add_match
  | slot_unref
  | wait (timeout_usec : Nat)
  | process
  | notify (state : List Nat)
deriving DecidableEq, Repr

/-- What a bus call and the parsing of its reply message give: the return code of the
call, the return codes of the successive parsing calls on the reply
(`sd_bus_message_read`, `..._enter_container`, `..._exit_container`), and the string
and the number a read stores. -/
structure Reply where
  rc : Int
  parse : Nat → Int
  s : Option (List Nat)
  u : Nat

/-- A `JobRemoved` message handed to the match callback: the return code of reading
its body "uoss" and the four fields. -/
structure Signal where
  read_rc : Int
  id : Nat
  path : List Nat
  unit : List Nat
  result : List Nat
deriving DecidableEq, Repr

/-- The environment. `dlsym` is `none` for a build without `SDW_DLSYM`, and `some ok`
for a build with it, `ok` telling whether `dlopen` and every `dlsym` succeed. The
first argument of the other fields is the tick at which the question is put. -/
structure Env where
  dlsym : Option Bool
  open_system : Int
  get_property : Nat → List Nat → String → String → String → Reply
  call_method : Nat → String → String → List Arg → Reply
  add_match : Nat → Int
  wait : Nat → Nat → Int
  process : Nat → Int × Option Signal
  notify : Nat → List Nat → Int
  time : Nat → Int
  getpid : Nat

/-- The globals `bus`, `last_error_msg` (the C string it holds), `trc_level`, `lib_stat`,
and the ghost fields. `undefined` is set by the first `fprintf(stderr, last_error_msg)`
whose behaviour is undefined and is never cleared; once it is set, what the model
computes says nothing about the program. -/
structure World where
  bus : Option Nat
  last_error_msg : List Nat
  trc_level : Int
  lib_stat : lib_stat_t
  tick : Nat
  trace : List BusCall
  undefined : Bool
deriving DecidableEq, Repr

/-- State of the globals when the process starts. -/
def World.init : World := ⟨none, [], 0, lib_stat_t.INITIAL, 0, [], false⟩

/-- Size of the array `last_error_msg`. -/
def LAST_ERROR_MSG_SIZE : Nat := 512

/-- A piece of a log message that libsystemd or libc writes (`error.message`, `strerror`,
`dlerror`) or a number printed through `%d` or `%u`. Its content is outside the source:
the model prints it as "?". A number holds no '%'; the library texts are taken to hold
none. -/
def lib_text : List Nat := str "?"

/-- What `fprintf(stderr, msg)` needs of `msg`, which it reads as a format while no
argument is passed: every '%' (byte 37) is the first of a pair "%%". Any other '%'
starts a conversion that has no argument, or an invalid one, and the behaviour is
undefined. -/
def printf_defined : List Nat → Bool
  | [] => true
  | c :: rest =>
    if c = 37 then
      match rest with
      | [] => false
      | d :: rest2 => d = 37 && printf_defined rest2
    else printf_defined rest

/-- Macro `LOG_ERROR(fmt, ...)` used in the function `fn`: `snprintf` writes `"%s: " fmt`
with the function name and the arguments into `last_error_msg`, cut to the size of the
array, and `fprintf(stderr, last_error_msg)` then reads that message as a format.
`text` is `fmt` with its arguments filled in; a string argument is filled in by the
caller as the C string it denotes, a null one as "(null)" (what glibc prints). -/
def LOG_ERROR (fn : String) (text : List Nat) (w : World) : World :=
  { w with
    last_error_msg := (str fn ++ str ": " ++ text).take (LAST_ERROR_MSG_SIZE - 1)
    undefined := w.undefined ||
      !printf_defined ((str fn ++ str ": " ++ text).take (LAST_ERROR_MSG_SIZE - 1)) }

/-- Records a transport call and advances the tick. -/
def World.call (w : World) (c : BusCall) : World :=
  { w with tick := w.tick + 1, trace := w.trace ++ [c] }

def sdbus_object_path : List Nat := str "/org/freedesktop/systemd1"
def sdbus_interface_mgr : String := "org.freedesktop.systemd1.Manager"
def sdbus_interface_srv : String := "org.freedesktop.systemd1.Service"
def sdbus_interface_unit : String := "org.freedesktop.systemd1.Unit"

/-- The constant `sdbus_match`, the match rule of the `JobRemoved` signal. -/
def sdbus_match : List Nat :=
  str ("type='signal',sender='org.freedesktop.systemd1'," ++
    "interface='org.freedesktop.systemd1.Manager',member='JobRemoved'," ++
    "path='/org/freedesktop/systemd1'")

def sd_bus_open_system (env : Env) (w : World) : Int × World :=
  let r := env.open_system
  (r, { w.call BusCall.open_system with bus := if r < 0 then w.bus else some 1 })

def sd_bus_get_property (env : Env) (w : World) (path : List Nat)
    (interface member type : String) : Reply × World :=
  (env.get_property w.tick path interface member type,
   w.call (BusCall.get_property path interface member type))

def sd_bus_call_method (env : Env) (w : World) (member types : String)
    (args : List Arg) : Reply × World :=
  (env.call_method w.tick member types args, w.call (BusCall.call_method member types args))

/-- Function `sd_bus_add_match`: return code and the slot stored, NULL on failure. -/
def sd_bus_add_match (env : Env) (w : World) : (Int × Option Nat) × World :=
  let r := env.add_match w.tick
  ((r, if r < 0 then none else some 1), w.call BusCall.add_match)

def sd_bus_slot_unref (w : World) : World := w.call BusCall.slot_unref

def sd_bus_wait (env : Env) (w : World) (timeout_usec : Nat) : Int × World :=
  (env.wait w.tick timeout_usec, w.call (BusCall.wait timeout_usec))

def sd_bus_process (env : Env) (w : World) : (Int × Option Signal) × World :=
  (env.process w.tick, w.call BusCall.process)

def sd_notify (env : Env) (w : World) (state : List Nat) : Int × World :=
  (env.notify w.tick state, w.call (BusCall.notify state))

/-- Function `time(NULL)`. -/
def time (env : Env) (w : World) : Int × World :=
  (env.time w.tick, { w with tick := w.tick + 1 })

/-- The union `response_t`; only the member selected by the format of the read is
meaningful. -/
structure response_t where
  s : Option (List Nat)
  u : Nat
deriving DecidableEq, Repr

/-- Function `sdwi_get_property`: return code, response, state afterwards. -/
def sdwi_get_property (env : Env) (w : World) (path : List Nat)
    (interface property response_format : String) : Int × response_t × World :=
  match sd_bus_get_property env w path interface property response_format with
  | (reply, w1) =>
    if reply.rc < 0 then
      (SDW_EINVAL, ⟨none, 0⟩,
        LOG_ERROR "sdwi_get_property"
          (str "failed to issue method call: " ++ lib_text ++ str "\n") w1)
    else if reply.parse 0 < 0 then
      (SDW_EINVAL, ⟨none, 0⟩,
        LOG_ERROR "sdwi_get_property"
          (str "failed to parse response message: " ++ lib_text ++ str "\n") w1)
    else if response_format = "s" then (0, ⟨reply.s.map strdup, 0⟩, w1)
    else (0, ⟨none, reply.u⟩, w1)

/-! ## Version gate -/

/-- What group 1 of the pattern `^[^0-9]*([0-9]+)` matches: the first maximal run of
decimal digits of the string, empty when the string holds no digit. -/
def first_number (s : List Nat) : List Nat :=
  ((cstr s).dropWhile (fun c => !ascii_isdigit c)).takeWhile ascii_isdigit

/-- Function `sdwi_regex_match(str, "^[^0-9]*([0-9]+)", want)`, the only pattern the
source uses: `none` (NULL) when `want` is out of range or the string holds no digit,
else the text of group `want`; the groups behind the first are unset and read as the
empty string. -/
def sdwi_regex_match (s : List Nat) (want : Nat) (w : World) : Option (List Nat) × World :=
  if want < 1 ∨ want ≥ 16 then
    (none,
      LOG_ERROR "sdwi_regex_match" (str "want " ++ lib_text ++ str " - invalid value\n") w)
  else if first_number s = [] then
    (none,
      LOG_ERROR "sdwi_regex_match" (str "regexec() failed - " ++ lib_text ++ str "\n") w)
  else if want = 1 then (some (first_number s), w)
  else (some [], w)

/-- Value of a string of decimal digits. -/
def decimal (digits : List Nat) : Nat := digits.foldl (fun acc c => 10 * acc + (c - 48)) 0

/-- Largest `unsigned long` (64 bits). -/
def ULONG_MAX : Nat := 2 ^ 64 - 1

/-- Function `strtoul(match, &end, 10)` on a string of digits: the value, or `ULONG_MAX`
when it does not fit (64-bit `unsigned long`). -/
def strtoul (digits : List Nat) : Nat := min (decimal digits) ULONG_MAX

/-- Function `sdwi_check_version`. The result of `strtoul` is stored in an `unsigned`
(32 bits) before it is compared with 234. -/
def sdwi_check_version (version : Option (List Nat)) (w : World) : Int × World :=
  match version with
  | none => (SDW_EINVAL, w)
  | some v =>
    match sdwi_regex_match v 1 w with
    | (none, w1) => (SDW_EVERSION, w1)
    | (some m, w1) =>
      let num := strtoul m % 2 ^ 32
      if m ≠ [] ∧ num ≥ 234 then (0, w1) else (SDW_EVERSION, w1)

/-- Function `sdwi_load_lib`, the constructor that runs once when the library is loaded.
When `dlopen` or a `dlsym` fails, the first message names the library or the function
that is missing; the model prints the library name, and `cleanup` overwrites the message
at once. -/
def sdwi_load_lib (env : Env) (w : World) : World :=
  let w0 := { w with last_error_msg := [] }
  let cleanup := LOG_ERROR "sdwi_load_lib" (str "dlerror: " ++ lib_text ++ str "\n")
  let connect (w1 : World) : World :=
    match (if w1.bus = none then sd_bus_open_system env w1 else (0, w1)) with
    | (r, w2) =>
      if r < 0 then
        cleanup (LOG_ERROR "sdwi_load_lib"
          (str "failed to connect to systemd D-Bus: " ++ lib_text ++ str "\n") w2)
      else
        let w3 := { w2 with lib_stat := lib_stat_t.INVALID_VERSION }
        match sdwi_get_property env w3 sdbus_object_path sdbus_interface_mgr "Version" "s" with
        | (rc, response, w4) =>
          if rc = 0 ∧ response.s ≠ none then
            match sdwi_check_version response.s w4 with
            | (rc2, w5) =>
              if rc2 = 0 then { w5 with lib_stat := lib_stat_t.LOADED } else w5
          else cleanup w4
  match env.dlsym with
  | none => connect w0
  | some ok =>
    let w1 := { w0 with lib_stat := lib_stat_t.FAILED }
    if ok then connect w1
    else cleanup (LOG_ERROR "sdwi_load_lib" (str "can't load libsystemd.so.0\n") w1)

/-- Function `sdw_is_supported`. -/
def sdw_is_supported (w : World) : Int × World :=
  if w.lib_stat = lib_stat_t.LOADED then (0, w)
  else if w.lib_stat = lib_stat_t.INVALID_VERSION then (SDW_EVERSION, w)
  else (SDW_EINIT, w)

/-! ## Unit name codec -/

/-- The struct `unit_t`: two buffers of `MAX_UNIT_NAME_LEN` bytes each. -/
structure unit_t where
  name : List Nat
  encoded : List Nat
deriving DecidableEq, Repr

/-- A local `unit_t` whose bytes all happen to be NUL. -/
def zero_unit : unit_t := ⟨List.replicate 64 0, List.replicate 64 0⟩

/-- Function `sdwi_set_unit_name`: return code, the unit afterwards, the state afterwards. -/
def sdwi_set_unit_name (w : World) (unit : unit_t) (unit_name : Option (List Nat)) :
    Int × unit_t × World :=
  match unit_name with
  | none =>
    (SDW_EINVAL, unit, LOG_ERROR "sdwi_set_unit_name" (str "invalid unit name 'NULL'\n") w)
  | some s =>
    if strnlen s (MAX_UNIT_NAME_LEN + 2) ≥ MAX_UNIT_NAME_LEN then
      (SDW_EINVAL, unit,
        LOG_ERROR "sdwi_set_unit_name" (str "invalid unit name '" ++ cstr s ++ str "'\n") w)
    else (0, { unit with name := strncpy unit.name s (MAX_UNIT_NAME_LEN - 1) }, w)

/-- Function `sdwi_encode`. The name is read as a C string from `unit->name`; when that
buffer holds no NUL the read runs on into `unit->encoded` and `beyond`. -/
def sdwi_encode (w : World) (unit : unit_t) (beyond : List Nat) : Int × unit_t × World :=
  match sd_bus_path_encode sdbus_prefix (cstr (unit.name ++ unit.encoded ++ beyond)) with
  | (_, none) =>
    (SDW_EINVAL, unit,
      LOG_ERROR "sdwi_encode"
        (str "failed to encode '" ++ cstr (unit.name ++ unit.encoded ++ beyond) ++ str "'\n") w)
  | (l, some buf) =>
    if l < 0 then
      (SDW_EINVAL, unit,
        LOG_ERROR "sdwi_encode"
          (str "failed to encode '" ++ cstr (unit.name ++ unit.encoded ++ beyond) ++ str "'\n")
          w)
    else if strlen buf ≤ strlen sdbus_prefix + 1 then
      (SDW_EINVAL, unit,
        LOG_ERROR "sdwi_encode" (str "invalid length of '" ++ cstr buf ++ str "'\n") w)
    else
      (0, { unit with
              encoded := strncpy unit.encoded (buf.drop (strlen sdbus_prefix + 1))
                (MAX_UNIT_NAME_LEN - 1) }, w)

/-- Function `sdwi_decode`. The path is built from the C string in `unit->encoded`. -/
def sdwi_decode (w : World) (unit : unit_t) (beyond : List Nat) : Int × unit_t × World :=
  let path := sdbus_prefix ++ [47] ++ cstr (unit.encoded ++ beyond)
  match sd_bus_path_decode path sdbus_prefix with
  | (_, none) =>
    (SDW_EINVAL, unit,
      LOG_ERROR "sdwi_decode"
        (str "failed to decode '" ++ cstr (unit.encoded ++ beyond) ++ str "'\n") w)
  | (rc, some buf) =>
    if rc ≤ 0 then
      (SDW_EINVAL, unit,
        LOG_ERROR "sdwi_decode"
          (str "failed to decode '" ++ cstr (unit.encoded ++ beyond) ++ str "'\n") w)
    else if strnlen buf MAX_UNIT_NAME_LEN < MAX_UNIT_NAME_LEN then
      (0, { unit with name := strncpy unit.name buf (MAX_UNIT_NAME_LEN - 1) }, w)
    else (rc, unit, w)

/-- Function `sdw_encode(unit_name, ret_encoded)`. `ret_encoded` tells whether the
output pointer is non-null; the second component is the string stored through it,
`none` when nothing is stored. `unit` holds the initial bytes of the local. -/
def sdw_encode (w : World) (unit : unit_t) (beyond : List Nat) (unit_name : Option (List Nat))
    (ret_encoded : Bool) : Int × Option (List Nat) × World :=
  if !ret_encoded then (SDW_EINVAL, none, w)
  else
    match sdwi_set_unit_name w unit unit_name with
    | (rc, unit1, w1) =>
      if rc ≠ 0 then (rc, none, w1)
      else
        match sdwi_encode w1 unit1 beyond with
        | (rc2, unit2, w2) =>
          if rc2 = 0 then (rc2, some (strdup (unit2.encoded ++ beyond)), w2)
          else (rc2, none, w2)

/-- Function `sdw_decode(unit_name, ret_decoded)`. -/
def sdw_decode (w : World) (unit : unit_t) (beyond : List Nat) (unit_name : Option (List Nat))
    (ret_decoded : Bool) : Int × Option (List Nat) × World :=
  match unit_name with
  | none => (SDW_EINVAL, none, w)
  | some s =>
    if !ret_decoded then (SDW_EINVAL, none, w)
    else if strlen s ≥ MAX_UNIT_NAME_LEN then
      (SDW_EINVAL, none,
        LOG_ERROR "sdw_decode" (str "invalid unit name '" ++ cstr s ++ str "'\n") w)
    else
      match sdwi_set_unit_name w unit unit_name with
      | (rc, unit1, w1) =>
        if rc ≠ 0 then (rc, none, w1)
        else
          match sdwi_decode w1
              { unit1 with encoded := strncpy unit1.encoded unit1.name MAX_UNIT_NAME_LEN }
              beyond with
          | (rc2, unit3, w2) =>
            if rc2 = 0 then (rc2, some (strndup unit3.name MAX_UNIT_NAME_LEN), w2)
            else (rc2, none, w2)

/-! ## Jobs -/

inductive sdbus_cmd_t
  | SDBUS_START_UNIT | SDBUS_RESTART_UNIT | SDBUS_STOP_UNIT
deriving DecidableEq, Repr

inductive job_status_t
  | JOB_UNKNOWN | JOB_DONE | JOB_FAILED
deriving DecidableEq, Repr

/-- The struct `job_info_t`; a pointer member is `none` when it is NULL. -/
structure job_info_t where
  cmd : sdbus_cmd_t
  status : job_status_t
  ts_end : Int
  wait_sec : Nat
  slot : Option Nat
  path : Option (List Nat)
  result : Option (List Nat)
deriving DecidableEq, Repr

/-- The table `cmd_str` of `sdwi_sdbus_cmd`. -/
def cmd_str : sdbus_cmd_t → String
  | sdbus_cmd_t.SDBUS_START_UNIT => "StartUnit"
  | sdbus_cmd_t.SDBUS_RESTART_UNIT => "RestartUnit"
  | sdbus_cmd_t.SDBUS_STOP_UNIT => "StopUnit"

/-- Function `sdwi_sdbus_cmd(unit_name, response, cmd)`. `response` tells whether the
caller passed a pointer; the second component is the string stored through it. A null
name is printed as "(null)" into the log message. -/
def sdwi_sdbus_cmd (env : Env) (w : World) (unit_name : Option (List Nat)) (response : Bool)
    (cmd : sdbus_cmd_t) : Int × Option (List Nat) × World :=
  match sd_bus_call_method env w (cmd_str cmd) "ss"
      [Arg.s unit_name, Arg.s (some (str "replace"))] with
  | (reply, w1) =>
    if reply.rc < 0 then
      (SDW_EINVAL, none,
        LOG_ERROR "sdwi_sdbus_cmd"
          (str (cmd_str cmd) ++ str " '" ++ cstr (unit_name.getD (str "(null)")) ++
            str "' - failed: " ++ lib_text ++ str "\n") w1)
    else if reply.parse 0 < 0 ∨ reply.s = none then
      (if reply.parse 0 ≥ 0 then 0 else SDW_EINVAL, none,
        LOG_ERROR "sdwi_sdbus_cmd"
          (str "failed to parse response message: " ++ lib_text ++ str "\n") w1)
    else (0, if response then reply.s.map strdup else none, w1)

/-- Function `sdwi_job_prepare`. -/
def sdwi_job_prepare (env : Env) (w : World) (job : job_info_t) : Int × job_info_t × World :=
  match time env w with
  | (now, w1) =>
    match sd_bus_add_match env w1 with
    | ((rc, slot), w2) =>
      let job1 : job_info_t :=
        { job with status := job_status_t.JOB_UNKNOWN, ts_end := now + job.wait_sec,
                   slot := slot, path := none, result := none }
      if rc < 0 then
        (SDW_EINVAL, job1,
          LOG_ERROR "sdwi_job_prepare"
            (str "sd_bus_add_match(,," ++ sdbus_match ++ str ",,) failed, (rc=" ++ lib_text ++
              str "," ++ lib_text ++ str ")\n") w2)
      else (0, job1, w2)

/-- Function `sdwi_msg_handler(msg, userdata, error)`: the callback of the match. The job
is `none` when `userdata` is NULL. The return code is always 0. In the branch that sets
`JOB_FAILED` the source logs path and result of the event before it writes the status. -/
def sdwi_msg_handler (w : World) (msg : Signal) (userdata : Option job_info_t) :
    Int × Option job_info_t × World :=
  match userdata with
  | none => (0, none, LOG_ERROR "sdwi_msg_handler" (str "invalid job (NULL)\n") w)
  | some job =>
    match job.path with
    | none =>
      (0, some job, LOG_ERROR "sdwi_msg_handler" (str "invalid job->path (NULL)\n") w)
    | some jpath =>
      if msg.read_rc < 0 then
        (0, some job, LOG_ERROR "sdwi_msg_handler" (lib_text ++ str "\n") w)
      else if strcmp jpath msg.path ≠ 0 then (0, some job, w)
      else
        let job1 := { job with result := some (strdup msg.result) }
        if strcmp msg.result (str "done") = 0 then
          (0, some { job1 with status := job_status_t.JOB_DONE }, w)
        else if strcmp msg.result (str "skipped") ≠ 0 then
          (0, some { job1 with status := job_status_t.JOB_FAILED },
            LOG_ERROR "sdwi_msg_handler"
              (str "job '" ++ cstr msg.path ++ str "' canceled with '" ++ cstr msg.result ++
                str "'\n") w)
        else (0, some job1, w)

/-- One round of `sd_bus_process(bus, NULL)` while the match of `job` is installed: a
`JobRemoved` message of this round is handed to `sdwi_msg_handler`. -/
def process_round (env : Env) (w : World) (job : job_info_t) : Int × job_info_t × World :=
  match sd_bus_process env w with
  | ((rc, none), w1) => (rc, job, w1)
  | ((rc, some msg), w1) =>
    match sdwi_msg_handler w1 msg (some job) with
    | (_, some job1, w2) => (rc, job1, w2)
    | (_, none, w2) => (rc, job, w2)

/-- Function `sdwi_job_wait`. The loop runs at most `fuel` times; `none` is returned when
the loop has not ended by then. -/
def sdwi_job_wait (env : Env) : Nat → World → job_info_t → Option Int × job_info_t × World
  | 0, w, job =>
    if job.status = job_status_t.JOB_UNKNOWN then (none, job, w)
    else if job.status = job_status_t.JOB_DONE then (some 0, job, w)
    else (some SDW_EINVAL, job, w)
  | fuel + 1, w, job =>
    if job.status = job_status_t.JOB_UNKNOWN then
      match time env w with
      | (ts_now, w1) =>
        if job.ts_end > ts_now then
          let wait_usec := ((1000 * 1000 * (job.ts_end - ts_now)) % 2 ^ 64).toNat
          match sd_bus_wait env w1 wait_usec with
          | (rc, w2) =>
            if rc < 0 then
              (some SDW_EINVAL, job,
                LOG_ERROR "sdwi_job_wait" (str "sd_bus_wait failed " ++ lib_text ++ str "\n") w2)
            else
              match process_round env w2 job with
              | (rc2, job1, w3) =>
                if rc2 < 0 then
                  (some SDW_EINVAL, job1,
                    LOG_ERROR "sdwi_job_wait"
                      (str "sd_bus_process failed " ++ lib_text ++ str "\n") w3)
                else sdwi_job_wait env fuel w3 job1
        else (some SDW_ETIMEOUT, job, w1)
    else if job.status = job_status_t.JOB_DONE then (some 0, job, w)
    else (some SDW_EINVAL, job, w)

/-- Function `sdwi_job_remove`. -/
def sdwi_job_remove (w : World) (job : job_info_t) : World :=
  if job.slot ≠ none then sd_bus_slot_unref w else w

/-- Common body of `sdw_start`, `sdw_restart` and `sdw_stop`, which differ in the
command only. -/
def sdw_job_cmd (env : Env) (fuel : Nat) (w : World) (cmd : sdbus_cmd_t)
    (unit_name : Option (List Nat)) (wait_sec : Nat) : Option Int × World :=
  if wait_sec = 0 then
    match sdwi_sdbus_cmd env w unit_name false cmd with
    | (rc, _, w1) => (some rc, w1)
  else
    let job0 : job_info_t :=
      ⟨cmd, job_status_t.JOB_UNKNOWN, 0, wait_sec, none, none, none⟩
    match sdwi_job_prepare env w job0 with
    | (rc, job1, w1) =>
      if rc ≠ 0 then (some rc, sdwi_job_remove w1 job1)
      else
        match sdwi_sdbus_cmd env w1 unit_name true cmd with
        | (rc2, response, w2) =>
          let job2 := { job1 with path := response }
          if rc2 ≠ 0 then (some rc2, sdwi_job_remove w2 job2)
          else
            match sdwi_job_wait env fuel w2 job2 with
            | (rc3, job3, w3) => (rc3, sdwi_job_remove w3 job3)

def sdw_start (env : Env) (fuel : Nat) (w : World) (unit_name : Option (List Nat))
    (wait_sec : Nat) : Option Int × World :=
  sdw_job_cmd env fuel w sdbus_cmd_t.SDBUS_START_UNIT unit_name wait_sec

def sdw_restart (env : Env) (fuel : Nat) (w : World) (unit_name : Option (List Nat))
    (wait_sec : Nat) : Option Int × World :=
  sdw_job_cmd env fuel w sdbus_cmd_t.SDBUS_RESTART_UNIT unit_name wait_sec

def sdw_stop (env : Env) (fuel : Nat) (w : World) (unit_name : Option (List Nat))
    (wait_sec : Nat) : Option Int × World :=
  sdw_job_cmd env fuel w sdbus_cmd_t.SDBUS_STOP_UNIT unit_name wait_sec

/-! ## Queries, commands and notifications -/

/-- Function `strstr(haystack, needle) != NULL`. -/
def strstr (haystack needle : List Nat) : Bool :=
  (cstr haystack).tails.any (fun t => (cstr needle).isPrefixOf t)

/-- The path `"%s/unit/%s"` of a unit below `sdbus_object_path`. -/
def unit_path (unit_name_encoded : List Nat) : List Nat :=
  sdbus_object_path ++ str "/unit/" ++ cstr unit_name_encoded

/-- Function `sdwi_get_unit_by_pid`: return code and the unit path stored. -/
def sdwi_get_unit_by_pid (env : Env) (w : World) (pid : Nat) :
    Int × Option (List Nat) × World :=
  match sd_bus_call_method env w "GetUnitByPID" "u" [Arg.u pid] with
  | (reply, w1) =>
    if reply.rc < 0 then
      (SDW_EINVAL, none,
        LOG_ERROR "sdwi_get_unit_by_pid"
          (str "GetUnitByPID '" ++ str (Nat.repr pid) ++ str "' - failed: " ++ lib_text ++
            str "\n") w1)
    else if 0 > reply.parse 0 then (SDW_EINVAL, none, w1)
    else
      match reply.s with
      | some unit_name => (0, some (strdup unit_name), w1)
      | none => (SDW_EINVAL, none, w1)

/-- Function `sdwi_enable`. -/
def sdwi_enable (env : Env) (w : World) (unit_name : Option (List Nat))
    (runtime force : Bool) : Int × World :=
  match sd_bus_call_method env w "EnableUnitFiles" "asbb"
      [Arg.s unit_name, Arg.b runtime, Arg.b force] with
  | (reply, w1) =>
    if reply.rc < 0 then
      (SDW_EINVAL,
        LOG_ERROR "sdwi_enable" (str "failed to issue method call: " ++ lib_text ++ str "\n") w1)
    else if reply.parse 0 < 0 ∨ reply.parse 1 < 0 ∨ reply.parse 2 < 0 ∨ reply.parse 3 < 0 then
      (SDW_EINVAL,
        LOG_ERROR "sdwi_enable"
          (str "failed to parse response message: " ++ lib_text ++ str "\n") w1)
    else (0, w1)

/-- Function `sdwi_disable`. -/
def sdwi_disable (env : Env) (w : World) (unit_name : Option (List Nat))
    (runtime : Bool) : Int × World :=
  match sd_bus_call_method env w "DisableUnitFiles" "asb" [Arg.s unit_name, Arg.b runtime] with
  | (reply, w1) =>
    if reply.rc < 0 then
      (SDW_EINVAL,
        LOG_ERROR "sdwi_disable" (str "failed to issue method call: " ++ lib_text ++ str "\n") w1)
    else if reply.parse 0 < 0 ∨ reply.parse 1 < 0 ∨ reply.parse 2 < 0 then
      (SDW_EINVAL,
        LOG_ERROR "sdwi_disable"
          (str "failed to parse response message: " ++ lib_text ++ str "\n") w1)
    else (0, w1)

/-- Function `sdwi_get_srv_property`. -/
def sdwi_get_srv_property (env : Env) (w : World) (unit_name_encoded : List Nat)
    (property response_format : String) : Int × response_t × World :=
  sdwi_get_property env w (unit_path unit_name_encoded) sdbus_interface_srv property
    response_format

/-- Function `sdwi_get_unit_property`; the service is always `sdbus_service_contact`. -/
def sdwi_get_unit_property (env : Env) (w : World) (unit_name_encoded : List Nat)
    (interface property response_format : String) : Int × response_t × World :=
  sdwi_get_property env w (unit_path unit_name_encoded) interface property response_format

/-- Function `sdwi_notify(0, msg)`. -/
def sdwi_notify (env : Env) (w : World) (msg : List Nat) : Int × World :=
  match sd_notify env w msg with
  | (rc, w1) =>
    if 0 = rc then
      (SDW_ENOTIFYSOCK,
        LOG_ERROR "sdwi_notify" (str "message could not be sent, NOTIFY_SOCKET not set\n") w1)
    else if 0 > rc then
      (SDW_EINVAL, LOG_ERROR "sdwi_notify" (str "message could not be sent " ++ lib_text) w1)
    else (0, w1)

def SDW_UNIT_FILE_STAT_ENABLED : Int := 11
def SDW_UNIT_FILE_STAT_DISABLED : Int := 12
def SDW_UNIT_ACTIVE_STAT_UNKNOWN : Int := 20
def SDW_UNIT_ACTIVE_STAT_ACTIVATING : Int := 21
def SDW_UNIT_ACTIVE_STAT_ACTIVE : Int := 22
def SDW_UNIT_ACTIVE_STAT_RELOADING : Int := 23
def SDW_UNIT_ACTIVE_STAT_DEACTIVATING : Int := 24
def SDW_UNIT_ACTIVE_STAT_INACTIVE : Int := 25
def SDW_UNIT_ACTIVE_STAT_FAILED : Int := 26
def SDW_UNIT_SUB_STAT_UNKNOWN : Int := 30
def SDW_UNIT_SUB_STAT_START : Int := 31
def SDW_UNIT_SUB_STAT_RUNNING : Int := 32
def SDW_UNIT_SUB_STAT_STOP_SIGTERM : Int := 33
def SDW_UNIT_SUB_STAT_DEAD : Int := 34
def SDW_UNIT_SUB_STAT_FAILED : Int := 35

/-- Function `sdwi_get_unitfilestate(unit_name, ret_state)`. A read that succeeds stores a
string; a missing one is read as the empty string. A null name is printed as "(null)"
into the log message. -/
def sdwi_get_unitfilestate (env : Env) (w : World) (unit_name : Option (List Nat))
    (ret_state : Bool) : Int × Option (List Nat) × World :=
  match sd_bus_call_method env w "GetUnitFileState" "s" [Arg.s unit_name] with
  | (reply, w1) =>
    if reply.rc < 0 then
      (SDW_EINVAL, none,
        LOG_ERROR "sdwi_get_unitfilestate"
          (str "GetUnitFileState '" ++ cstr (unit_name.getD (str "(null)")) ++
            str "' - failed: " ++ lib_text ++ str "\n") w1)
    else if reply.parse 0 < 0 then
      (SDW_EINVAL, none,
        LOG_ERROR "sdwi_get_unitfilestate"
          (str "failed to parse response message: " ++ lib_text ++ str "\n") w1)
    else
      let response := reply.s.getD []
      let out := if ret_state ∧ strlen response ≤ MAX_RESPONSE_LEN then some (strdup response)
                 else none
      let rc := if strcmp response (str "enabled") = 0 then SDW_UNIT_FILE_STAT_ENABLED
                else if strcmp response (str "disabled") = 0 then SDW_UNIT_FILE_STAT_DISABLED
                else reply.parse 0
      (rc, out, w1)

/-- The chain of comparisons of `sdwi_get_activestate`. -/
def activestate_code (s : List Nat) : Int :=
  let rc := if strcmp (str "activating") s = 0 then SDW_UNIT_ACTIVE_STAT_ACTIVATING
            else SDW_UNIT_ACTIVE_STAT_UNKNOWN
  if strcmp (str "active") s = 0 then SDW_UNIT_ACTIVE_STAT_ACTIVE
  else if strcmp (str "reloading") s = 0 then SDW_UNIT_ACTIVE_STAT_RELOADING
  else if strcmp (str "deactivating") s = 0 then SDW_UNIT_ACTIVE_STAT_DEACTIVATING
  else if strcmp (str "inactive") s = 0 then SDW_UNIT_ACTIVE_STAT_INACTIVE
  else if strcmp (str "failed") s = 0 then SDW_UNIT_ACTIVE_STAT_FAILED
  else rc

/-- Function `sdwi_get_activestate(unit_name_encoded, ret_state)`. -/
def sdwi_get_activestate (env : Env) (w : World) (unit_name_encoded : List Nat)
    (ret_state : Bool) : Int × Option (List Nat) × World :=
  match sdwi_get_unit_property env w unit_name_encoded sdbus_interface_unit "ActiveState" "s" with
  | (rc, response, w1) =>
    if 0 = rc then
      match response.s with
      | some s =>
        (activestate_code s,
          if ret_state ∧ strlen s ≤ MAX_RESPONSE_LEN then some (strdup s) else none, w1)
      | none => (SDW_UNIT_ACTIVE_STAT_UNKNOWN, none, w1)
    else (rc, none, w1)

/-- The chain of comparisons of `sdwi_get_substate`. -/
def substate_code (s : List Nat) : Int :=
  if strcmp (str "start") s = 0 then SDW_UNIT_SUB_STAT_START
  else if strcmp (str "running") s = 0 then SDW_UNIT_SUB_STAT_RUNNING
  else if strcmp (str "stop-sigterm") s = 0 then SDW_UNIT_SUB_STAT_STOP_SIGTERM
  else if strcmp (str "dead") s = 0 then SDW_UNIT_SUB_STAT_DEAD
  else SDW_UNIT_SUB_STAT_UNKNOWN

/-- Function `sdwi_get_substate(unit_name_encoded, ret_state)`. -/
def sdwi_get_substate (env : Env) (w : World) (unit_name_encoded : List Nat)
    (ret_state : Bool) : Int × Option (List Nat) × World :=
  match sdwi_get_unit_property env w unit_name_encoded sdbus_interface_unit "SubState" "s" with
  | (rc, response, w1) =>
    if 0 = rc then
      match response.s with
      | some s =>
        (substate_code s,
          if ret_state ∧ strlen s ≤ MAX_RESPONSE_LEN then some (strdup s) else none, w1)
      | none => (SDW_UNIT_SUB_STAT_UNKNOWN, none, w1)
    else (rc, none, w1)

/-- Function `sdw_get_version(ret_version)`. -/
def sdw_get_version (env : Env) (w : World) (ret_version : Bool) :
    Int × Option (List Nat) × World :=
  if !ret_version then (SDW_EINVAL, none, w)
  else
    match sdwi_get_property env w sdbus_object_path sdbus_interface_mgr "Version" "s" with
    | (rc, response, w1) =>
      match response.s with
      | some s =>
        (rc, if 0 = rc ∧ strnlen s MAX_RESPONSE_LEN < MAX_RESPONSE_LEN - 1 then some (strdup s)
             else none, w1)
      | none => (rc, none, w1)

def sdw_get_unitfilestate (env : Env) (w : World) (unit_name : Option (List Nat))
    (ret_state : Bool) : Int × Option (List Nat) × World :=
  sdwi_get_unitfilestate env w unit_name ret_state

/-- Function `sdw_check_pid(unit_name, pid)`. -/
def sdw_check_pid (env : Env) (w : World) (unit : unit_t) (beyond : List Nat)
    (unit_name : Option (List Nat)) (pid : Nat) : Int × World :=
  match sdwi_set_unit_name w unit unit_name with
  | (rc, unit1, w1) =>
    if rc ≠ 0 then (rc, w1)
    else
      match sdwi_encode w1 unit1 beyond with
      | (rc2, unit2, w2) =>
        if rc2 ≠ 0 then (rc2, w2)
        else
          match sdwi_get_unit_by_pid env w2 (if 0 = pid then env.getpid else pid) with
          | (rc3, response, w3) =>
            match response with
            | none => (SDW_EINVAL, w3)
            | some r =>
              if 0 ≠ rc3 then (SDW_EINVAL, w3)
              else if strstr r (unit2.encoded ++ beyond) then (rc3, w3)
              else (SDW_EINVAL, w3)

/-- Function `sdw_check_controlpid(unit_name, pid)`. -/
def sdw_check_controlpid (env : Env) (w : World) (unit : unit_t) (beyond : List Nat)
    (unit_name : Option (List Nat)) (pid : Nat) : Int × World :=
  match sdwi_set_unit_name w unit unit_name with
  | (rc, unit1, w1) =>
    if rc ≠ 0 then (rc, w1)
    else
      match sdwi_encode w1 unit1 beyond with
      | (rc2, unit2, w2) =>
        if rc2 ≠ 0 then (rc2, w2)
        else
          match sdwi_get_unit_property env w2 (unit2.encoded ++ beyond) sdbus_interface_srv
              "ControlPID" "u" with
          | (rc3, response, w3) =>
            if rc3 ≠ 0 then (rc3, w3)
            else if response.u ≠ pid then (SDW_EINVAL, w3)
            else (0, w3)

/-- Function `sdw_get_mainpid(unit_name, pid)`: return code and the value stored in
`*pid`; `pid` tells whether the pointer is non-null. -/
def sdw_get_mainpid (env : Env) (w : World) (unit : unit_t) (beyond : List Nat)
    (unit_name : Option (List Nat)) (pid : Bool) : Int × Option Nat × World :=
  match sdwi_set_unit_name w unit unit_name with
  | (rc, unit1, w1) =>
    if rc ≠ 0 then (rc, none, w1)
    else
      match sdwi_encode w1 unit1 beyond with
      | (rc2, unit2, w2) =>
        if rc2 ≠ 0 then (rc2, none, w2)
        else if !pid then (SDW_EINVAL, none, w2)
        else
          match sdwi_get_srv_property env w2 (unit2.encoded ++ beyond) "MainPID" "u" with
          | (rc3, response, w3) => (rc3, some response.u, w3)

/-- Function `sdw_get_controlpid(unit_name, pid)`; the name is used as given, a null one
is printed as "(null)" into the path. -/
def sdw_get_controlpid (env : Env) (w : World) (unit_name : Option (List Nat)) (pid : Bool) :
    Int × Option Nat × World :=
  if !pid then (SDW_EINVAL, none, w)
  else
    match sdwi_get_unit_property env w (unit_name.getD (str "(null)")) sdbus_interface_srv
        "ControlPID" "u" with
    | (rc, response, w1) => (rc, some response.u, w1)

def sdw_notify_ready (env : Env) (w : World) : Int × World :=
  sdwi_notify env w (str "READY=1")

def sdw_notify_stopping (env : Env) (w : World) : Int × World :=
  sdwi_notify env w (str "STOPPING=1")

/-- Function `sdw_notify_mainpid(pid)`: the message is `"MAINPID=%u"`. -/
def sdw_notify_mainpid (env : Env) (w : World) (pid : Nat) : Int × World :=
  sdwi_notify env w (str "MAINPID=" ++ str (Nat.repr pid))

def sdw_get_error_message (w : World) : List Nat × World := (w.last_error_msg, w)

/-- Function `sdw_get_unit_by_pid(pid, unit_name)`. -/
def sdw_get_unit_by_pid (env : Env) (w : World) (pid : Nat) : Int × Option (List Nat) × World :=
  match sdwi_get_unit_by_pid env w pid with
  | (rc, response, w1) =>
    match response with
    | some r => (rc, if 0 = rc ∧ strlen r ≤ MAX_RESPONSE_LEN then some (strdup r) else none, w1)
    | none => (rc, none, w1)

/-- Function `sdw_get_activestate(unit_name, ret_state)`. -/
def sdw_get_activestate (env : Env) (w : World) (unit : unit_t) (beyond : List Nat)
    (unit_name : Option (List Nat)) (ret_state : Bool) : Int × Option (List Nat) × World :=
  match sdwi_set_unit_name w unit unit_name with
  | (rc, unit1, w1) =>
    if rc ≠ 0 then (rc, none, w1)
    else
      match sdwi_encode w1 unit1 beyond with
      | (rc2, unit2, w2) =>
        if rc2 ≠ 0 then (rc2, none, w2)
        else sdwi_get_activestate env w2 (unit2.encoded ++ beyond) ret_state

/-- Function `sdw_get_substate(unit_name, ret_state)`. -/
def sdw_get_substate (env : Env) (w : World) (unit : unit_t) (beyond : List Nat)
    (unit_name : Option (List Nat)) (ret_state : Bool) : Int × Option (List Nat) × World :=
  match sdwi_set_unit_name w unit unit_name with
  | (rc, unit1, w1) =>
    if rc ≠ 0 then (rc, none, w1)
    else
      match sdwi_encode w1 unit1 beyond with
      | (rc2, unit2, w2) =>
        if rc2 ≠ 0 then (rc2, none, w2)
        else sdwi_get_substate env w2 (unit2.encoded ++ beyond) ret_state

/-- Function `sdw_reload`. -/
def sdw_reload (env : Env) (w : World) : Int × World :=
  match sd_bus_call_method env w "Reload" "" [] with
  | (reply, w1) =>
    if reply.rc < 0 then
      (SDW_EINVAL,
        LOG_ERROR "sdw_reload" (str "failed to issue method call: " ++ lib_text ++ str "\n") w1)
    else (0, w1)

/-- Function `sdw_enable(unit_name)`. -/
def sdw_enable (env : Env) (w : World) (unit_name : Option (List Nat)) : Int × World :=
  match sdwi_enable env w unit_name false true with
  | (rc, w1) => if rc ≠ 0 then (rc, w1) else sdw_reload env w1

/-- Function `sdw_disable(unit_name)`. -/
def sdw_disable (env : Env) (w : World) (unit_name : Option (List Nat)) : Int × World :=
  match sdwi_disable env w unit_name false with
  | (rc, w1) => if rc ≠ 0 then (rc, w1) else sdw_reload env w1

/-- Function `sdw_set_tracelevel`. -/
def sdw_set_tracelevel (w : World) (trace_level : Int) : World :=
  if trace_level ≥ 0 ∧ trace_level ≤ 2 then { w with trc_level := trace_level } else w

/-- A call of a public function of the library, with its arguments. An output pointer is
given by a flag that tells whether it is non-null. -/
inductive PublicCall
  | check_pid (unit_name : Option (List Nat)) (pid : Nat)
  | check_controlpid (unit_name : Option (List Nat)) (pid : Nat)
  | get_mainpid (unit_name : Option (List Nat)) (pid : Bool)
  | get_controlpid (unit_name : Option (List Nat)) (pid : Bool)
  | start (unit_name : Option (List Nat)) (wait_sec : Nat)
  | stop (unit_name : Option (List Nat)) (wait_sec : Nat)
  | restart (unit_name : Option (List Nat)) (wait_sec : Nat)
  | enable (unit_name : Option (List Nat))
  | disable (unit_name : Option (List Nat))
  | reload
  | get_version (ret_version : Bool)
  | notify_ready
  | notify_stopping
  | notify_mainpid (pid : Nat)
  | get_error_message
  | is_supported
  | encode (unit_name : Option (List Nat)) (ret_encoded : Bool)
  | decode (unit_name : Option (List Nat)) (ret_decoded : Bool)
  | get_unit_by_pid (pid : Nat)
  | get_activestate (unit_name : Option (List Nat)) (ret_state : Bool)
  | get_substate (unit_name : Option (List Nat)) (ret_state : Bool)
  | get_unitfilestate (unit_name : Option (List Nat)) (ret_state : Bool)
  | set_tracelevel (trace_level : Int)
deriving DecidableEq, Repr

/-- State of the globals after a public call; `unit` and `beyond` are the bytes the local
`unit_t` of the callee starts with and the memory behind it, `fuel` bounds the rounds
of a synchronous wait. -/
def PublicCall.run (env : Env) (fuel : Nat) (unit : unit_t) (beyond : List Nat) (w : World) :
    PublicCall → World
  | check_pid n p => (sdw_check_pid env w unit beyond n p).2
  | check_controlpid n p => (sdw_check_controlpid env w unit beyond n p).2
  | get_mainpid n p => (sdw_get_mainpid env w unit beyond n p).2.2
  | get_controlpid n p => (sdw_get_controlpid env w n p).2.2
  | start n s => (sdw_start env fuel w n s).2
  | stop n s => (sdw_stop env fuel w n s).2
  | restart n s => (sdw_restart env fuel w n s).2
  | enable n => (sdw_enable env w n).2
  | disable n => (sdw_disable env w n).2
  | reload => (sdw_reload env w).2
  | get_version r => (sdw_get_version env w r).2.2
  | notify_ready => (sdw_notify_ready env w).2
  | notify_stopping => (sdw_notify_stopping env w).2
  | notify_mainpid p => (sdw_notify_mainpid env w p).2
  | get_error_message => (sdw_get_error_message w).2
  | is_supported => (sdw_is_supported w).2
  | encode n r => (sdw_encode w unit beyond n r).2.2
  | decode n r => (sdw_decode w unit beyond n r).2.2
  | get_unit_by_pid p => (sdw_get_unit_by_pid env w p).2.2
  | get_activestate n r => (sdw_get_activestate env w unit beyond n r).2.2
  | get_substate n r => (sdw_get_substate env w unit beyond n r).2.2
  | get_unitfilestate n r => (sdw_get_unitfilestate env w n r).2.2
  | set_tracelevel l => sdw_set_tracelevel w l

/-- Calls `sdw_is_supported` `n` times in a row: the values returned and the state at
the end. -/
def is_supported_times : Nat → World → List Int × World
  | 0, w => ([], w)
  | n + 1, w =>
    match sdw_is_supported w with
    | (rc, w1) =>
      match is_supported_times n w1 with
      | (rcs, w2) => (rc :: rcs, w2)

/-! ## Sample environments -/

/-- An environment in which every call succeeds: the bus opens, the manager reports the
version `version` for every string property, queues every job under the path
"/org/freedesktop/systemd1/job/1", and no signal arrives. -/
def Env.manager (version : List Nat) : Env where
  dlsym := none
  open_system := 0
  get_property := fun _ _ _ _ _ => ⟨0, fun _ => 1, some version, 0⟩
  call_method := fun _ _ _ _ => ⟨0, fun _ => 1, some (str "/org/freedesktop/systemd1/job/1"), 0⟩
  add_match := fun _ => 0
  wait := fun _ _ => 1
  process := fun _ => (0, none)
  notify := fun _ _ => 1
  time := fun t => t
  getpid := 4242

/-- An environment without a system bus: opening fails with `-ENOENT` and every bus call
with `-ENOTCONN`. -/
def Env.no_bus : Env where
  dlsym := none
  open_system := -2
  get_property := fun _ _ _ _ _ => ⟨-107, fun _ => -107, none, 0⟩
  call_method := fun _ _ _ _ => ⟨-107, fun _ => -107, none, 0⟩
  add_match := fun _ => -107
  wait := fun _ _ => -107
  process := fun _ => (-107, none)
  notify := fun _ _ => 0
  time := fun t => t
  getpid := 4242

/-! ## Auxiliary definitions for the wait loop -/

/-- The `sd_bus_wait` call of one iteration of the loop of `sdwi_job_wait`, made right
after the clock read: its return code and the state after it. -/
def wait_call (env : Env) (w : World) (job : job_info_t) : Int × World :=
  sd_bus_wait env (time env w).2 ((1000 * 1000 * (job.ts_end - env.time w.tick)) % 2 ^ 64).toNat

/-- The job of a restart of "app.service" queued as job 8, waiting until time 5. -/
def job8 : job_info_t :=
  ⟨sdbus_cmd_t.SDBUS_RESTART_UNIT, job_status_t.JOB_UNKNOWN, 5, 5, some 1,
    some (str "/org/freedesktop/systemd1/job/8"), none⟩

/-- An environment whose every processing round hands over the completion event of job 8
with the result "done" and then reports the failure `-EIO`. -/
def Env.done_then_fail : Env :=
  { Env.manager (str "249") with
    process := fun _ =>
      (-5, some ⟨1, 8, str "/org/freedesktop/systemd1/job/8", str "app.service", str "done"⟩) }


/-- An environment for a restart queued as job 8 at time 0: the first processing round of
the wait loop hands over the completion event of job 7 with the result "failed", the clock
then reads 2, and the second round hands over the completion event of job 8 with the
result "done". -/
def Env.two_events : Env :=
  { Env.manager (str "249") with
    call_method := fun _ _ _ _ =>
      ⟨0, fun _ => 1, some (str "/org/freedesktop/systemd1/job/8"), 0⟩
    time := fun t => if t < 6 then 0 else 2
    process := fun t =>
      if t = 5 then
        (1, some ⟨1, 7, str "/org/freedesktop/systemd1/job/7", str "other.service",
          str "failed"⟩)
      else if t = 8 then
        (1, some ⟨1, 8, str "/org/freedesktop/systemd1/job/8", str "app.service",
          str "done"⟩)
      else (0, none) }

/-- An environment whose manager answers every method call with the reply `r`; the rest
is as in `Env.manager`. -/
def Env.replying (r : Reply) : Env :=
  { Env.manager (str "249") with call_method := fun _ _ _ _ => r }

/-- An environment in which one object has the property `ControlPID`: the read of a
property at `path` succeeds and stores the number `pid`, every other read fails with
`-ENOENT`. -/
def Env.control_pid_at (path : List Nat) (pid : Nat) : Env :=
  { Env.manager (str "249") with
    get_property := fun _ p _ _ _ =>
      if p = path then ⟨0, fun _ => 1, none, pid⟩ else ⟨-2, fun _ => -2, none, 0⟩ }
/-! ## Lemmas on strings and the codec -/

theorem cstr_nonzero (mem : List Nat) : ∀ b ∈ cstr mem, b ≠ 0 := by
  intro b hb
  have := List.mem_takeWhile_imp hb
  simpa using this

theorem cstr_eq_self {s : List Nat} (h : ∀ b ∈ s, b ≠ 0) : cstr s = s := by
  unfold cstr
  rw [List.takeWhile_eq_self_iff]
  intro b hb
  simpa using h b hb

theorem cstr_append_zero {s : List Nat} (h : ∀ b ∈ s, b ≠ 0) (r : List Nat) :
    cstr (s ++ 0 :: r) = s := by
  induction s with
  | nil => simp [cstr]
  | cons a t ih =>
    have ha : a ≠ 0 := h a (List.mem_cons_self _ _)
    have ht : ∀ b ∈ t, b ≠ 0 := fun b hb => h b (List.mem_cons_of_mem _ hb)
    have := ih ht
    simp only [cstr] at this ⊢
    simp [List.takeWhile_cons, ha, this]

theorem cstr_append_left {s : List Nat} (h : ∀ b ∈ s, b ≠ 0) (r : List Nat) :
    cstr (s ++ r) = s ++ cstr r := by
  induction s with
  | nil => simp
  | cons a t ih =>
    have ha : a ≠ 0 := h a (List.mem_cons_self _ _)
    have ht : ∀ b ∈ t, b ≠ 0 := fun b hb => h b (List.mem_cons_of_mem _ hb)
    have := ih ht
    simp only [cstr] at this ⊢
    simp [List.takeWhile_cons, ha, this]

theorem cstr_idem (m : List Nat) : cstr (cstr m) = cstr m :=
  cstr_eq_self (cstr_nonzero m)

theorem cstr_take (n : Nat) (m : List Nat) : cstr (m.take n) = (cstr m).take n := by
  induction m generalizing n with
  | nil => simp [cstr]
  | cons a t ih =>
    cases n with
    | zero => simp [cstr]
    | succ k =>
      have := ih k
      simp only [cstr] at this ⊢
      by_cases ha : a = 0
      · simp [List.takeWhile_cons, ha]
      · simp [List.takeWhile_cons, ha, this]

theorem strnlen_eq (m : List Nat) (n : Nat) : strnlen m n = min n (strlen m) := by
  simp [strnlen, strlen, cstr_take, List.length_take]

/-- The buffer after `strncpy` of a string shorter than `n`. -/
theorem strncpy_short (dst s : List Nat) (n : Nat) (h : strlen s < n) :
    strncpy dst s n = cstr s ++ 0 :: (List.replicate (n - strlen s - 1) 0 ++ dst.drop n) := by
  have h1 : cstr (s.take n) = cstr s := by
    rw [cstr_take]; exact List.take_of_length_le (by unfold strlen at h; omega)
  unfold strncpy
  simp only [h1]
  have : n - (cstr s).length = (n - strlen s - 1) + 1 := by unfold strlen at h ⊢; omega
  rw [this, List.replicate_succ]
  simp

theorem cstr_strncpy_short (dst s rest : List Nat) (n : Nat) (h : strlen s < n) :
    cstr (strncpy dst s n ++ rest) = cstr s := by
  rw [strncpy_short dst s n h, List.append_assoc, List.cons_append]
  exact cstr_append_zero (cstr_nonzero s) _

theorem hexchar_ne_zero (x : Nat) : hexchar x ≠ 0 := by
  unfold hexchar; split <;> omega

theorem bus_label_escape_loop_nonzero (first : Bool) (s : List Nat) :
    ∀ b ∈ bus_label_escape_loop first s, b ≠ 0 := by
  induction s generalizing first with
  | nil => simp [bus_label_escape_loop]
  | cons c cs ih =>
    intro b hb
    simp only [bus_label_escape_loop, List.mem_append] at hb
    rcases hb with hb | hb
    · split at hb
      · rename_i hc
        simp only [List.mem_singleton] at hb
        subst hb
        intro h0
        subst h0
        simp [ascii_isalpha, ascii_isdigit] at hc
      · simp only [List.mem_cons, List.mem_singleton, List.not_mem_nil, or_false] at hb
        rcases hb with rfl | rfl | rfl
        · decide
        · exact hexchar_ne_zero _
        · exact hexchar_ne_zero _
    · exact ih false b hb

theorem bus_label_escape_nonzero (s : List Nat) : ∀ b ∈ bus_label_escape s, b ≠ 0 := by
  unfold bus_label_escape
  split
  · simp
  · exact bus_label_escape_loop_nonzero true s

theorem bus_label_escape_ne_nil (s : List Nat) : bus_label_escape s ≠ [] := by
  unfold bus_label_escape
  split
  · simp
  · rename_i h
    cases s with
    | nil => exact absurd rfl h
    | cons c cs =>
      simp only [bus_label_escape_loop]
      split <;> simp

theorem sdbus_prefix_valid : object_path_is_valid sdbus_prefix = true := by decide

theorem sd_bus_path_encode_test (x : List Nat) :
    sd_bus_path_encode sdbus_prefix x = (0, some ( sdbus_prefix ++ [47] ++ bus_label_escape x)) := by
  simp [sd_bus_path_encode, sdbus_prefix_valid]

/-- Function `sdwi_encode` always succeeds and stores the first 63 bytes of the escaped
name. -/
theorem sdwi_encode_eq (w : World) (unit : unit_t) (beyond : List Nat) :
    sdwi_encode w unit beyond =
      (0, ⟨unit.name, strncpy unit.encoded
              (bus_label_escape (cstr (unit.name ++ unit.encoded ++ beyond))) 63⟩, w) := by
  unfold sdwi_encode
  rw [sd_bus_path_encode_test]
  have hnz : ∀ b ∈ sdbus_prefix ++ [47] ++
      bus_label_escape (cstr (unit.name ++ unit.encoded ++ beyond)), b ≠ 0 := by
    intro b hb
    simp only [List.mem_append, List.mem_singleton] at hb
    rcases hb with (hb | hb) | hb
    · revert b; decide
    · omega
    · exact bus_label_escape_nonzero _ b hb
  have hlen : strlen ( sdbus_prefix ++ [47] ++
      bus_label_escape (cstr (unit.name ++ unit.encoded ++ beyond))) =
      6 + (bus_label_escape (cstr (unit.name ++ unit.encoded ++ beyond))).length := by
    unfold strlen
    rw [cstr_eq_self hnz]
    simp [ sdbus_prefix]
    omega
  have hpos : 0 < (bus_label_escape (cstr (unit.name ++ unit.encoded ++ beyond))).length :=
    List.length_pos.mpr (bus_label_escape_ne_nil _)
  have hp : strlen sdbus_prefix = 5 := by decide
  have hd : ( sdbus_prefix ++ [47] ++
      bus_label_escape (cstr (unit.name ++ unit.encoded ++ beyond))).drop (5 + 1) =
      bus_label_escape (cstr (unit.name ++ unit.encoded ++ beyond)) := by
    simp [ sdbus_prefix]
  have hle : ¬ (6 + (bus_label_escape (cstr (unit.name ++ unit.encoded ++ beyond))).length
      ≤ 5 + 1) := by omega
  dsimp only
  rw [hlen, hp, hd, if_neg (by decide), if_neg hle]
  rfl

theorem sdwi_set_unit_name_some (w : World) (unit : unit_t) (s : List Nat) :
    sdwi_set_unit_name w unit (some s) =
      if 64 ≤ strlen s then
        (SDW_EINVAL, unit,
          LOG_ERROR "sdwi_set_unit_name" (str "invalid unit name '" ++ cstr s ++ str "'\n") w)
      else (0, ⟨strncpy unit.name s 63, unit.encoded⟩, w) := by
  simp only [sdwi_set_unit_name, strnlen_eq, MAX_UNIT_NAME_LEN]
  by_cases h : 64 ≤ strlen s
  · have : 64 ≤ min (64 + 2) (strlen s) := by omega
    simp [h, this]
  · have : ¬ 64 ≤ min (64 + 2) (strlen s) := by omega
    simp [h, this]

theorem sdw_encode_some (w : World) (unit : unit_t) (beyond s : List Nat) :
    sdw_encode w unit beyond (some s) true =
      if 64 ≤ strlen s then
        (SDW_EINVAL, none,
          LOG_ERROR "sdwi_set_unit_name" (str "invalid unit name '" ++ cstr s ++ str "'\n") w)
      else (0, some (cstr (strncpy unit.encoded (bus_label_escape
              (cstr (strncpy unit.name s 63 ++ unit.encoded ++ beyond))) 63 ++ beyond)), w) := by
  unfold sdw_encode
  rw [sdwi_set_unit_name_some]
  by_cases h : 64 ≤ strlen s
  · simp [h, SDW_EINVAL]
  · simp [h, sdwi_encode_eq, strdup]

/-- Encoding a name of fewer than 63 bytes whose escaped form has fewer than 63 bytes
yields the escaped form, whatever the local buffers held before. -/
theorem sdw_encode_short (w : World) (unit : unit_t) (beyond s : List Nat) (h : strlen s < 63)
    (he : (bus_label_escape (cstr s)).length < 63) :
    sdw_encode w unit beyond (some s) true = (0, some (bus_label_escape (cstr s)), w) := by
  rw [sdw_encode_some, if_neg (by omega)]
  have h1 : cstr (strncpy unit.name s 63 ++ unit.encoded ++ beyond) = cstr s := by
    rw [List.append_assoc]; exact cstr_strncpy_short _ _ _ _ h
  rw [h1]
  have h2 : strlen (bus_label_escape (cstr s)) < 63 := by
    unfold strlen; rw [cstr_eq_self (bus_label_escape_nonzero _)]; exact he
  rw [cstr_strncpy_short _ _ _ _ h2, cstr_eq_self (bus_label_escape_nonzero _)]

theorem bus_label_unescape_loop_length (skip : Nat) (l : List Nat) :
    (bus_label_unescape_loop skip l).length ≤ l.length := by
  induction l generalizing skip with
  | nil => cases skip <;> simp [bus_label_unescape_loop]
  | cons c tl ih =>
    cases skip with
    | succ k =>
      simp only [bus_label_unescape_loop, List.length_cons]
      have := ih k; omega
    | zero =>
      have h0 := ih 0
      have h2 := ih 2
      simp only [bus_label_unescape_loop]
      split
      · split
        · split <;> simp only [List.length_cons] at * <;> omega
        · simp only [List.length_cons] at *; omega
      · simp only [List.length_cons]; omega

theorem bus_label_unescape_length (l : List Nat) :
    (bus_label_unescape l).length ≤ l.length := by
  unfold bus_label_unescape
  split
  · simp
  · exact bus_label_unescape_loop_length 0 l

theorem strlen_le_length (m : List Nat) : strlen m ≤ m.length := by
  unfold strlen cstr
  exact (List.takeWhile_sublist _).length_le

theorem sd_bus_path_decode_test (x : List Nat) :
    sd_bus_path_decode ( sdbus_prefix ++ 47 :: x) sdbus_prefix =
      if object_path_is_valid ( sdbus_prefix ++ 47 :: x) then (1, some (bus_label_unescape x))
      else (-22, none) := by
  by_cases hv : object_path_is_valid ( sdbus_prefix ++ 47 :: x) = true
  · have hs : object_path_startswith ( sdbus_prefix ++ 47 :: x) sdbus_prefix = some x := by
      unfold object_path_startswith
      rw [hv, sdbus_prefix_valid]
      simp [ sdbus_prefix]
    simp [sd_bus_path_decode, hv, sdbus_prefix_valid, hs]
  · simp [sd_bus_path_decode, hv]

/-- Decoding an input of fewer than 63 bytes: the result only depends on the input,
whatever the local buffers held before. -/
theorem sdw_decode_short (w : World) (unit : unit_t) (beyond e : List Nat)
    (h : strlen e < 63) :
    sdw_decode w unit beyond (some e) true =
      if object_path_is_valid ( sdbus_prefix ++ 47 :: cstr e)
      then (0, some (cstr (bus_label_unescape (cstr e))), w)
      else (SDW_EINVAL, none,
        LOG_ERROR "sdwi_decode" (str "failed to decode '" ++ cstr e ++ str "'\n") w) := by
  unfold sdw_decode
  rw [sdwi_set_unit_name_some]
  have hc : cstr (strncpy unit.encoded (strncpy unit.name e 63) 64 ++ beyond) = cstr e := by
    have h1 := cstr_strncpy_short unit.name e [] 63 h
    rw [List.append_nil] at h1
    have hn : strlen (strncpy unit.name e 63) < 64 := by
      unfold strlen; rw [h1]; unfold strlen at h; omega
    rw [cstr_strncpy_short _ _ _ _ hn, h1]
  have h64 : ¬ (strlen e ≥ MAX_UNIT_NAME_LEN) := by unfold MAX_UNIT_NAME_LEN; omega
  have h64b : ¬ (64 ≤ strlen e) := by omega
  simp only [Bool.not_true, Bool.false_eq_true, if_false, h64, h64b, MAX_UNIT_NAME_LEN]
  simp only [sdwi_decode, hc, List.append_assoc, List.singleton_append,
    sd_bus_path_decode_test, MAX_UNIT_NAME_LEN]
  by_cases hv : object_path_is_valid ( sdbus_prefix ++ 47 :: cstr e) = true
  · have hb : strlen (bus_label_unescape (cstr e)) < 63 := by
      have h1 := strlen_le_length (bus_label_unescape (cstr e))
      have h2 := bus_label_unescape_length (cstr e)
      unfold strlen at h; omega
    have hs : strnlen (bus_label_unescape (cstr e)) 64 < 64 := by
      rw [strnlen_eq]; omega
    have hr : strndup (strncpy (strncpy unit.name e 63) (bus_label_unescape (cstr e)) (64 - 1)) 64
        = cstr (bus_label_unescape (cstr e)) := by
      unfold strndup
      rw [cstr_take]
      have := cstr_strncpy_short (strncpy unit.name e 63) (bus_label_unescape (cstr e)) [] 63 hb
      rw [List.append_nil] at this
      rw [this]
      exact List.take_of_length_le (by unfold strlen at hb; omega)
    simp [hv, hs, hr]
  · simp [hv, SDW_EINVAL]

/-! ## The escaping of libsystemd is reversible -/

theorem unhexchar_hexchar (x : Nat) : unhexchar (hexchar x) = some (x % 16) := by
  have h16 : x % 16 < 16 := Nat.mod_lt _ (by decide)
  unfold hexchar
  by_cases h : x % 16 < 10
  · rw [if_pos h]
    unfold unhexchar
    rw [if_pos (by omega)]
    congr 1
    omega
  · rw [if_neg h]
    unfold unhexchar
    rw [if_neg (by omega), if_pos (by omega)]
    congr 1
    omega

theorem bus_label_unescape_loop_two (a b : Nat) (l : List Nat) :
    bus_label_unescape_loop 2 (a :: b :: l) = bus_label_unescape_loop 0 l := by
  simp [bus_label_unescape_loop]

theorem bus_label_unescape_loop_plain (c : Nat) (h : c ≠ 95) (l : List Nat) :
    bus_label_unescape_loop 0 (c :: l) = c :: bus_label_unescape_loop 0 l := by
  simp [bus_label_unescape_loop, h]

theorem bus_label_unescape_loop_escaped (c : Nat) (hc : c < 256) (l : List Nat) :
    bus_label_unescape_loop 0 (95 :: hexchar (c / 16) :: hexchar c :: l) =
      c :: bus_label_unescape_loop 0 l := by
  simp only [bus_label_unescape_loop, if_true, unhexchar_hexchar, List.cons.injEq, and_true]
  omega

theorem bus_label_unescape_escape_loop (first : Bool) (s : List Nat)
    (hb : ∀ b ∈ s, b < 256) :
    bus_label_unescape_loop 0 (bus_label_escape_loop first s) = s := by
  induction s generalizing first with
  | nil => simp [bus_label_escape_loop, bus_label_unescape_loop]
  | cons c cs ih =>
    have hc : c < 256 := hb c (List.mem_cons_self _ _)
    have ih' := ih false (fun b h => hb b (List.mem_cons_of_mem _ h))
    simp only [bus_label_escape_loop]
    split
    · rename_i hk
      have h95 : c ≠ 95 := by
        intro h; subst h
        simp [ascii_isalpha, ascii_isdigit] at hk
      rw [List.singleton_append, bus_label_unescape_loop_plain c h95, ih']
    · rw [List.cons_append, List.cons_append, List.cons_append, List.nil_append,
        bus_label_unescape_loop_escaped c hc, ih']

theorem bus_label_escape_loop_ne_underscore (first : Bool) (c : Nat) (cs : List Nat) :
    bus_label_escape_loop first (c :: cs) ≠ [95] := by
  simp only [bus_label_escape_loop]
  split
  · rename_i hk
    intro h
    simp only [List.singleton_append, List.cons.injEq] at h
    rcases h with ⟨h, _⟩
    subst h
    simp [ascii_isalpha, ascii_isdigit] at hk
  · simp

/-- Unescaping the escaped form of a byte string gives the string back. -/
theorem bus_label_unescape_escape (s : List Nat) (hb : ∀ b ∈ s, b < 256) :
    bus_label_unescape (bus_label_escape s) = s := by
  cases s with
  | nil => simp [bus_label_escape, bus_label_unescape]
  | cons c cs =>
    have h1 : bus_label_escape (c :: cs) = bus_label_escape_loop true (c :: cs) := by
      simp [bus_label_escape]
    rw [h1]
    unfold bus_label_unescape
    rw [if_neg (bus_label_escape_loop_ne_underscore true c cs)]
    exact bus_label_unescape_escape_loop true (c :: cs) hb

/-- A byte that may stand in an object path segment. -/
def path_char (c : Nat) : Bool := ascii_isalpha c || ascii_isdigit c || c = 95

theorem hexchar_path_char (x : Nat) : path_char (hexchar x) = true := by
  have h16 : x % 16 < 16 := Nat.mod_lt _ (by decide)
  unfold hexchar
  split
  · have : ascii_isdigit (48 + x % 16) = true := by
      simp only [ascii_isdigit, Bool.and_eq_true, decide_eq_true_eq]; omega
    simp [path_char, this]
  · have : ascii_isalpha (87 + x % 16) = true := by
      simp only [ascii_isalpha, Bool.or_eq_true, Bool.and_eq_true, decide_eq_true_eq]; omega
    simp [path_char, this]

theorem bus_label_escape_loop_path_char (first : Bool) (s : List Nat) :
    ∀ b ∈ bus_label_escape_loop first s, path_char b = true := by
  induction s generalizing first with
  | nil => simp [bus_label_escape_loop]
  | cons c cs ih =>
    intro b hb
    simp only [bus_label_escape_loop, List.mem_append] at hb
    rcases hb with hb | hb
    · split at hb
      · rename_i hk
        simp only [List.mem_singleton] at hb
        subst hb
        simp only [Bool.or_eq_true, Bool.and_eq_true] at hk
        rcases hk with hk | ⟨_, hk⟩ <;> simp [path_char, hk]
      · simp only [List.mem_cons, List.mem_singleton, List.not_mem_nil, or_false] at hb
        rcases hb with rfl | rfl | rfl
        · decide
        · exact hexchar_path_char _
        · exact hexchar_path_char _
    · exact ih false b hb

theorem bus_label_escape_path_char (s : List Nat) :
    ∀ b ∈ bus_label_escape s, path_char b = true := by
  unfold bus_label_escape
  split
  · intro b hb
    simp only [List.mem_singleton] at hb
    subst hb
    decide
  · exact bus_label_escape_loop_path_char true s

theorem object_path_loop_segment (slash : Bool) (e : List Nat) (hne : e ≠ [])
    (hc : ∀ b ∈ e, path_char b = true) : object_path_loop slash e = true := by
  induction e generalizing slash with
  | nil => exact absurd rfl hne
  | cons c cs ih =>
    have hcc : path_char c = true := hc c (List.mem_cons_self _ _)
    have h47 : c ≠ 47 := by
      intro h; subst h; revert hcc; decide
    have hgood : (ascii_isalpha c || ascii_isdigit c || decide (c = 95)) = true := hcc
    simp only [object_path_loop, if_neg h47, hgood, if_true]
    cases cs with
    | nil => simp [object_path_loop]
    | cons d ds =>
      exact ih false (by simp) (fun b h => hc b (List.mem_cons_of_mem _ h))

theorem object_path_is_valid_segment (e : List Nat) (hne : e ≠ [])
    (hc : ∀ b ∈ e, path_char b = true) (hl : e.length < 64) :
    object_path_is_valid ( sdbus_prefix ++ 47 :: e) = true := by
  have h := object_path_loop_segment true e hne hc
  simp only [ sdbus_prefix, object_path_is_valid, List.cons_append, List.nil_append,
    object_path_loop, BUS_PATH_SIZE_MAX, List.length_cons]
  simp [h, ascii_isalpha, ascii_isdigit]
  omega

/-- Round trip through `sdw_encode` and `sdw_decode` for a name of fewer than 63 bytes
whose escaped form has fewer than 63 bytes, whatever the local buffers of the two
calls held before. -/
theorem sdw_roundtrip_short (w w' : World) (unit unit' : unit_t) (beyond beyond' s : List Nat)
    (hb : ∀ b ∈ s, b ≠ 0 ∧ b < 256) (hl : s.length < 63)
    (he : (bus_label_escape s).length < 63) :
    sdw_encode w unit beyond (some s) true = (0, some (bus_label_escape s), w) ∧
    sdw_decode w' unit' beyond' (some (bus_label_escape s)) true = (0, some s, w') := by
  have hs : cstr s = s := cstr_eq_self (fun b h => (hb b h).1)
  have hce : cstr (bus_label_escape s) = bus_label_escape s :=
    cstr_eq_self (bus_label_escape_nonzero s)
  constructor
  · have := sdw_encode_short w unit beyond s (by unfold strlen; rw [hs]; exact hl)
      (by rw [hs]; exact he)
    rw [hs] at this
    exact this
  · rw [sdw_decode_short _ _ _ _ (by unfold strlen; rw [hce]; exact he), hce,
      if_pos (object_path_is_valid_segment _ (bus_label_escape_ne_nil s)
        (bus_label_escape_path_char s) (by omega)),
      bus_label_unescape_escape s (fun b h => (hb b h).2), hs]

/-! ## The version check on numbers that fit 32 bits -/

/-- When the first number of the version string is below 2^32, `sdwi_check_version`
returns 0 exactly when there is such a number and it is at least 234. -/
theorem sdwi_check_version_small (v : List Nat) (w : World)
    (h : decimal (first_number v) < 2 ^ 32) :
    (sdwi_check_version (some v) w).1 =
      if first_number v ≠ [] ∧ 234 ≤ decimal (first_number v) then 0 else SDW_EVERSION := by
  have hs : strtoul (first_number v) % 2 ^ 32 = decimal (first_number v) := by
    unfold strtoul ULONG_MAX
    rw [Nat.min_eq_left (by omega), Nat.mod_eq_of_lt h]
  unfold sdwi_check_version sdwi_regex_match
  by_cases hn : first_number v = []
  · simp [hn]
  · simp only [hn, if_false]
    simp only [show ¬ ((1 : Nat) < 1 ∨ 1 ≥ 16) by omega, if_false, if_true, hs]
    split_ifs <;> simp_all

/-! ## The init status is written by `sdwi_load_lib` only -/

@[simp] theorem LOG_ERROR_lib_stat (fn : String) (text : List Nat) (w : World) :
    (LOG_ERROR fn text w).lib_stat = w.lib_stat := rfl

@[simp] theorem call_lib_stat (w : World) (c : BusCall) : (w.call c).lib_stat = w.lib_stat := rfl

@[simp] theorem time_lib_stat (env : Env) (w : World) : (time env w).2.lib_stat = w.lib_stat := rfl

@[simp] theorem sd_bus_call_method_lib_stat (env : Env) (w : World) (m t : String)
    (a : List Arg) : (sd_bus_call_method env w m t a).2.lib_stat = w.lib_stat := rfl

@[simp] theorem sd_bus_wait_lib_stat (env : Env) (w : World) (t : Nat) :
    (sd_bus_wait env w t).2.lib_stat = w.lib_stat := rfl

@[simp] theorem sd_bus_process_lib_stat (env : Env) (w : World) :
    (sd_bus_process env w).2.lib_stat = w.lib_stat := rfl

@[simp] theorem sdwi_get_property_lib_stat (env : Env) (w : World) (path : List Nat)
    (i p f : String) : (sdwi_get_property env w path i p f).2.2.lib_stat = w.lib_stat := by
  unfold sdwi_get_property sd_bus_get_property
  dsimp only
  split_ifs <;> simp

@[simp] theorem sdwi_set_unit_name_lib_stat (w : World) (unit : unit_t) (n : Option (List Nat)) :
    (sdwi_set_unit_name w unit n).2.2.lib_stat = w.lib_stat := by
  unfold sdwi_set_unit_name
  split
  · simp
  · split_ifs <;> simp

@[simp] theorem sdwi_encode_lib_stat (w : World) (unit : unit_t) (beyond : List Nat) :
    (sdwi_encode w unit beyond).2.2.lib_stat = w.lib_stat := by
  rw [sdwi_encode_eq]

@[simp] theorem sdwi_decode_lib_stat (w : World) (unit : unit_t) (beyond : List Nat) :
    (sdwi_decode w unit beyond).2.2.lib_stat = w.lib_stat := by
  unfold sdwi_decode
  dsimp only
  split
  · simp
  · split_ifs <;> simp

@[simp] theorem sdw_encode_lib_stat (w : World) (unit : unit_t) (beyond : List Nat)
    (n : Option (List Nat)) (r : Bool) :
    (sdw_encode w unit beyond n r).2.2.lib_stat = w.lib_stat := by
  unfold sdw_encode
  dsimp only
  split_ifs <;> simp

@[simp] theorem sdw_decode_lib_stat (w : World) (unit : unit_t) (beyond : List Nat)
    (n : Option (List Nat)) (r : Bool) :
    (sdw_decode w unit beyond n r).2.2.lib_stat = w.lib_stat := by
  unfold sdw_decode
  cases n with
  | none => simp
  | some s =>
    dsimp only
    split_ifs <;> simp

@[simp] theorem sdwi_sdbus_cmd_lib_stat (env : Env) (w : World) (n : Option (List Nat))
    (r : Bool) (cmd : sdbus_cmd_t) :
    (sdwi_sdbus_cmd env w n r cmd).2.2.lib_stat = w.lib_stat := by
  unfold sdwi_sdbus_cmd
  dsimp only
  split_ifs <;> simp

@[simp] theorem sdwi_job_prepare_lib_stat (env : Env) (w : World) (job : job_info_t) :
    (sdwi_job_prepare env w job).2.2.lib_stat = w.lib_stat := by
  unfold sdwi_job_prepare sd_bus_add_match time
  dsimp only
  split_ifs <;> simp

@[simp] theorem sdwi_msg_handler_lib_stat (w : World) (msg : Signal) (u : Option job_info_t) :
    (sdwi_msg_handler w msg u).2.2.lib_stat = w.lib_stat := by
  unfold sdwi_msg_handler
  split
  · simp
  · split
    · simp
    · split_ifs <;> simp

@[simp] theorem process_round_lib_stat (env : Env) (w : World) (job : job_info_t) :
    (process_round env w job).2.2.lib_stat = w.lib_stat := by
  unfold process_round
  split
  · rename_i h
    have := sd_bus_process_lib_stat env w
    rw [h] at this
    simpa using this
  · rename_i rc msg w1 h
    have h1 := sd_bus_process_lib_stat env w
    rw [h] at h1
    have h2 := sdwi_msg_handler_lib_stat w1 msg (some job)
    split <;> rename_i h3 <;> rw [h3] at h2 <;> simp at h1 h2 ⊢ <;> rw [h2, h1]

@[simp] theorem sdwi_job_wait_lib_stat (env : Env) (fuel : Nat) (w : World) (job : job_info_t) :
    (sdwi_job_wait env fuel w job).2.2.lib_stat = w.lib_stat := by
  induction fuel generalizing w job with
  | zero =>
    unfold sdwi_job_wait
    split_ifs <;> rfl
  | succ k ih =>
    unfold sdwi_job_wait
    dsimp only
    split_ifs <;> simp [ih]

@[simp] theorem sdwi_job_remove_lib_stat (w : World) (job : job_info_t) :
    (sdwi_job_remove w job).lib_stat = w.lib_stat := by
  unfold sdwi_job_remove sd_bus_slot_unref
  split_ifs <;> simp

@[simp] theorem sdw_job_cmd_lib_stat (env : Env) (fuel : Nat) (w : World) (cmd : sdbus_cmd_t)
    (n : Option (List Nat)) (wait_sec : Nat) :
    (sdw_job_cmd env fuel w cmd n wait_sec).2.lib_stat = w.lib_stat := by
  unfold sdw_job_cmd
  dsimp only
  split_ifs <;> simp

@[simp] theorem sdwi_get_unit_by_pid_lib_stat (env : Env) (w : World) (pid : Nat) :
    (sdwi_get_unit_by_pid env w pid).2.2.lib_stat = w.lib_stat := by
  unfold sdwi_get_unit_by_pid
  dsimp only
  split_ifs
  · simp
  · simp
  · split <;> simp

@[simp] theorem sdw_reload_lib_stat (env : Env) (w : World) :
    (sdw_reload env w).2.lib_stat = w.lib_stat := by
  unfold sdw_reload
  dsimp only
  split_ifs <;> simp

@[simp] theorem sdwi_enable_lib_stat (env : Env) (w : World) (n : Option (List Nat))
    (r f : Bool) : (sdwi_enable env w n r f).2.lib_stat = w.lib_stat := by
  unfold sdwi_enable
  dsimp only
  split_ifs <;> simp

@[simp] theorem sdwi_disable_lib_stat (env : Env) (w : World) (n : Option (List Nat))
    (r : Bool) : (sdwi_disable env w n r).2.lib_stat = w.lib_stat := by
  unfold sdwi_disable
  dsimp only
  split_ifs <;> simp

@[simp] theorem sdwi_notify_lib_stat (env : Env) (w : World) (msg : List Nat) :
    (sdwi_notify env w msg).2.lib_stat = w.lib_stat := by
  unfold sdwi_notify sd_notify
  dsimp only
  split_ifs <;> simp

@[simp] theorem sdwi_get_unitfilestate_lib_stat (env : Env) (w : World)
    (n : Option (List Nat)) (r : Bool) :
    (sdwi_get_unitfilestate env w n r).2.2.lib_stat = w.lib_stat := by
  unfold sdwi_get_unitfilestate
  dsimp only
  split_ifs <;> simp

@[simp] theorem sdwi_get_activestate_lib_stat (env : Env) (w : World) (e : List Nat)
    (r : Bool) : (sdwi_get_activestate env w e r).2.2.lib_stat = w.lib_stat := by
  unfold sdwi_get_activestate sdwi_get_unit_property
  dsimp only
  split_ifs
  · split <;> simp
  · simp

@[simp] theorem sdwi_get_substate_lib_stat (env : Env) (w : World) (e : List Nat)
    (r : Bool) : (sdwi_get_substate env w e r).2.2.lib_stat = w.lib_stat := by
  unfold sdwi_get_substate sdwi_get_unit_property
  dsimp only
  split_ifs
  · split <;> simp
  · simp

theorem sdw_check_pid_lib_stat (env : Env) (w : World) (unit : unit_t) (beyond : List Nat)
    (n : Option (List Nat)) (pid : Nat) :
    (sdw_check_pid env w unit beyond n pid).2.lib_stat = w.lib_stat := by
  unfold sdw_check_pid
  dsimp only
  generalize (if 0 = pid then env.getpid else pid) = p
  split_ifs
  · simp
  · simp
  all_goals (split <;> (try split_ifs) <;> simp)

theorem sdw_check_controlpid_lib_stat (env : Env) (w : World) (unit : unit_t)
    (beyond : List Nat) (n : Option (List Nat)) (pid : Nat) :
    (sdw_check_controlpid env w unit beyond n pid).2.lib_stat = w.lib_stat := by
  unfold sdw_check_controlpid sdwi_get_unit_property
  dsimp only
  split_ifs <;> simp

theorem sdw_get_mainpid_lib_stat (env : Env) (w : World) (unit : unit_t)
    (beyond : List Nat) (n : Option (List Nat)) (pid : Bool) :
    (sdw_get_mainpid env w unit beyond n pid).2.2.lib_stat = w.lib_stat := by
  unfold sdw_get_mainpid sdwi_get_srv_property
  dsimp only
  split_ifs <;> simp

theorem sdw_get_controlpid_lib_stat (env : Env) (w : World) (n : Option (List Nat))
    (pid : Bool) : (sdw_get_controlpid env w n pid).2.2.lib_stat = w.lib_stat := by
  unfold sdw_get_controlpid sdwi_get_unit_property
  dsimp only
  split_ifs <;> simp

theorem sdw_get_version_lib_stat (env : Env) (w : World) (r : Bool) :
    (sdw_get_version env w r).2.2.lib_stat = w.lib_stat := by
  unfold sdw_get_version
  dsimp only
  split_ifs
  · rfl
  · split <;> simp

theorem sdw_get_unit_by_pid_lib_stat (env : Env) (w : World) (pid : Nat) :
    (sdw_get_unit_by_pid env w pid).2.2.lib_stat = w.lib_stat := by
  unfold sdw_get_unit_by_pid
  dsimp only
  split <;> simp

theorem sdw_get_activestate_lib_stat (env : Env) (w : World) (unit : unit_t)
    (beyond : List Nat) (n : Option (List Nat)) (r : Bool) :
    (sdw_get_activestate env w unit beyond n r).2.2.lib_stat = w.lib_stat := by
  unfold sdw_get_activestate
  dsimp only
  split_ifs <;> simp

theorem sdw_get_substate_lib_stat (env : Env) (w : World) (unit : unit_t)
    (beyond : List Nat) (n : Option (List Nat)) (r : Bool) :
    (sdw_get_substate env w unit beyond n r).2.2.lib_stat = w.lib_stat := by
  unfold sdw_get_substate
  dsimp only
  split_ifs <;> simp

theorem sdw_enable_lib_stat (env : Env) (w : World) (n : Option (List Nat)) :
    (sdw_enable env w n).2.lib_stat = w.lib_stat := by
  unfold sdw_enable
  dsimp only
  split_ifs <;> simp

theorem sdw_disable_lib_stat (env : Env) (w : World) (n : Option (List Nat)) :
    (sdw_disable env w n).2.lib_stat = w.lib_stat := by
  unfold sdw_disable
  dsimp only
  split_ifs <;> simp

theorem sdw_is_supported_world (w : World) : (sdw_is_supported w).2 = w := by
  unfold sdw_is_supported
  split_ifs <;> rfl

theorem sdw_set_tracelevel_lib_stat (w : World) (l : Int) :
    (sdw_set_tracelevel w l).lib_stat = w.lib_stat := by
  unfold sdw_set_tracelevel
  split_ifs <;> rfl

theorem is_supported_times_eq (n : Nat) (w : World) :
    is_supported_times n w = (List.replicate n (sdw_is_supported w).1, w) := by
  induction n with
  | zero => rfl
  | succ k ih =>
    have h := sdw_is_supported_world w
    unfold is_supported_times
    dsimp only
    rw [h, ih, List.replicate_succ]

/-! ## Lemmas on the signal handler and the wait loop -/

theorem strcmp_eq_zero_iff (a b : List Nat) : strcmp a b = 0 ↔ cstr a = cstr b := by
  unfold strcmp
  constructor
  · intro h
    by_contra hne
    rw [if_neg hne] at h
    split_ifs at h
    all_goals simp at h
  · intro h
    rw [if_pos h]

theorem cstr_str_done : cstr (str "done") = str "done" := by decide

theorem cstr_str_skipped : cstr (str "skipped") = str "skipped" := by decide

/-- What `sdwi_msg_handler` does to a job with a path when the message can be read: the
job is left alone when the paths differ, else the result is recorded and the status
follows the result string. -/
theorem sdwi_msg_handler_readable (w : World) (msg : Signal) (job : job_info_t) (p : List Nat)
    (hp : job.path = some p) (hr : 0 ≤ msg.read_rc) :
    (sdwi_msg_handler w msg (some job)).2.1 =
      if cstr p = cstr msg.path then
        some ⟨job.cmd,
          if cstr msg.result = str "done" then job_status_t.JOB_DONE
          else if cstr msg.result = str "skipped" then job.status
          else job_status_t.JOB_FAILED,
          job.ts_end, job.wait_sec, job.slot, job.path, some (cstr msg.result)⟩
      else some job := by
  have hnr : ¬ msg.read_rc < 0 := by omega
  unfold sdwi_msg_handler
  simp only [hp, hnr, if_false, strcmp_eq_zero_iff, cstr_str_done, cstr_str_skipped, ne_eq,
    strdup]
  by_cases h1 : cstr p = cstr msg.path
  · simp only [h1, not_true_eq_false, if_false, if_true]
    by_cases h2 : cstr msg.result = str "done"
    · simp [h2]
    · by_cases h3 : cstr msg.result = str "skipped"
      · have hsd : ¬ (str "skipped" = str "done") := by decide
        simp [h3, hsd]
      · simp [h2, h3]
  · simp [h1]

/-- The handler gives back a job and touches neither the tick nor the trace. -/
theorem sdwi_msg_handler_frame (w : World) (msg : Signal) (job : job_info_t) :
    ∃ job1 w1, sdwi_msg_handler w msg (some job) = (0, some job1, w1) ∧
      job1.cmd = job.cmd ∧ job1.ts_end = job.ts_end ∧ job1.wait_sec = job.wait_sec ∧
      job1.slot = job.slot ∧ job1.path = job.path ∧
      w1.tick = w.tick ∧ w1.trace = w.trace ∧ w1.bus = w.bus := by
  unfold sdwi_msg_handler
  dsimp only
  split
  · exact ⟨_, _, rfl, rfl, rfl, rfl, rfl, rfl, rfl, rfl, rfl⟩
  · split_ifs <;> exact ⟨_, _, rfl, rfl, rfl, rfl, rfl, rfl, rfl, rfl, rfl⟩

/-- A processing round asks the environment once, records one `process` call and leaves
deadline, slot and path of the job as they were. -/
theorem process_round_frame (env : Env) (w : World) (job : job_info_t) :
    (process_round env w job).1 = (env.process w.tick).1 ∧
    (process_round env w job).2.1.ts_end = job.ts_end ∧
    (process_round env w job).2.1.slot = job.slot ∧
    (process_round env w job).2.1.path = job.path ∧
    (process_round env w job).2.2.tick = w.tick + 1 ∧
    (process_round env w job).2.2.trace = w.trace ++ [BusCall.process] := by
  unfold process_round sd_bus_process
  rcases hp : env.process w.tick with ⟨rc, _ | msg⟩
  · simp [World.call]
  · obtain ⟨job1, w1, h, _, h2, _, h4, h5, h6, h7, _⟩ :=
      sdwi_msg_handler_frame (w.call BusCall.process) msg job
    simp only [h]
    refine ⟨trivial, h2, h4, h5, ?_, ?_⟩
    · rw [h6]; rfl
    · rw [h7]; rfl

/-- A processing round without a message leaves the job as it was. -/
theorem process_round_none (env : Env) (w : World) (job : job_info_t)
    (h : (env.process w.tick).2 = none) :
    process_round env w job = ((env.process w.tick).1, job, w.call BusCall.process) := by
  unfold process_round sd_bus_process
  rcases hp : env.process w.tick with ⟨rc, _ | msg⟩
  · rfl
  · rw [hp] at h; simp at h

/-- A job that is DONE or FAILED ends the wait at once: no clock read, no round. -/
theorem sdwi_job_wait_settled (env : Env) (fuel : Nat) (w : World) (job : job_info_t)
    (hs : job.status ≠ job_status_t.JOB_UNKNOWN) :
    sdwi_job_wait env fuel w job =
      (some (if job.status = job_status_t.JOB_DONE then 0 else SDW_EINVAL), job, w) := by
  cases fuel with
  | zero =>
    unfold sdwi_job_wait
    simp only [hs, if_false]
    split_ifs <;> rfl
  | succ k =>
    unfold sdwi_job_wait
    simp only [hs, if_false]
    split_ifs <;> rfl

/-- One iteration of the loop of `sdwi_job_wait` on a job whose status is UNKNOWN. -/
theorem sdwi_job_wait_step (env : Env) (fuel : Nat) (w : World) (job : job_info_t)
    (hs : job.status = job_status_t.JOB_UNKNOWN) :
    sdwi_job_wait env (fuel + 1) w job =
      if job.ts_end > env.time w.tick then
        if (wait_call env w job).1 < 0 then
          (some SDW_EINVAL, job,
            LOG_ERROR "sdwi_job_wait" (str "sd_bus_wait failed " ++ lib_text ++ str "\n")
              (wait_call env w job).2)
        else if (process_round env (wait_call env w job).2 job).1 < 0 then
          (some SDW_EINVAL, (process_round env (wait_call env w job).2 job).2.1,
            LOG_ERROR "sdwi_job_wait" (str "sd_bus_process failed " ++ lib_text ++ str "\n")
              (process_round env (wait_call env w job).2 job).2.2)
        else
          sdwi_job_wait env fuel (process_round env (wait_call env w job).2 job).2.2
            (process_round env (wait_call env w job).2 job).2.1
      else (some SDW_ETIMEOUT, job, (time env w).2) := by
  rw [sdwi_job_wait]
  simp only [hs, if_true]
  rfl

@[simp] theorem time_tick (env : Env) (w : World) : (time env w).2.tick = w.tick + 1 := rfl

@[simp] theorem time_trace (env : Env) (w : World) : (time env w).2.trace = w.trace := rfl

@[simp] theorem LOG_ERROR_tick (fn : String) (text : List Nat) (w : World) :
    (LOG_ERROR fn text w).tick = w.tick := rfl

@[simp] theorem LOG_ERROR_trace (fn : String) (text : List Nat) (w : World) :
    (LOG_ERROR fn text w).trace = w.trace := rfl

@[simp] theorem wait_call_tick (env : Env) (w : World) (job : job_info_t) :
    (wait_call env w job).2.tick = w.tick + 2 := rfl

theorem wait_call_fst (env : Env) (w : World) (job : job_info_t) :
    ∃ u, (wait_call env w job).1 = env.wait (w.tick + 1) u ∧
      (wait_call env w job).2.trace = w.trace ++ [BusCall.wait u] :=
  ⟨_, rfl, rfl⟩

/-- More fuel does not change a wait that has ended. -/
theorem sdwi_job_wait_fuel_mono (env : Env) (k k' : Nat) (w : World) (job : job_info_t)
    (hk : k ≤ k') (hr : (sdwi_job_wait env k w job).1 ≠ none) :
    sdwi_job_wait env k' w job = sdwi_job_wait env k w job := by
  induction k generalizing k' w job with
  | zero =>
    by_cases hs : job.status = job_status_t.JOB_UNKNOWN
    · exfalso
      apply hr
      unfold sdwi_job_wait
      simp [hs]
    · rw [sdwi_job_wait_settled env k' w job hs, sdwi_job_wait_settled env 0 w job hs]
  | succ n ih =>
    by_cases hs : job.status = job_status_t.JOB_UNKNOWN
    · obtain ⟨m, rfl⟩ : ∃ m, k' = m + 1 := ⟨k' - 1, by omega⟩
      rw [sdwi_job_wait_step env n w job hs] at hr ⊢
      rw [sdwi_job_wait_step env m w job hs]
      by_cases h1 : job.ts_end > env.time w.tick
      · rw [if_pos h1] at hr ⊢
        rw [if_pos h1]
        by_cases h2 : (wait_call env w job).1 < 0
        · rw [if_pos h2, if_pos h2]
        · rw [if_neg h2] at hr ⊢
          rw [if_neg h2]
          by_cases h3 : (process_round env (wait_call env w job).2 job).1 < 0
          · rw [if_pos h3, if_pos h3]
          · rw [if_neg h3] at hr ⊢
            rw [if_neg h3]
            exact ih m _ _ (by omega) hr
      · rw [if_neg h1, if_neg h1]
    · rw [sdwi_job_wait_settled env k' w job hs, sdwi_job_wait_settled env (n + 1) w job hs]

/-- A wait that runs out of fuel leaves the status UNKNOWN. -/
theorem sdwi_job_wait_none (env : Env) (fuel : Nat) (w : World) (job : job_info_t)
    (hr : (sdwi_job_wait env fuel w job).1 = none) :
    (sdwi_job_wait env fuel w job).2.1.status = job_status_t.JOB_UNKNOWN := by
  induction fuel generalizing w job with
  | zero =>
    by_cases hs : job.status = job_status_t.JOB_UNKNOWN
    · unfold sdwi_job_wait
      simp [hs]
    · rw [sdwi_job_wait_settled env 0 w job hs] at hr
      simp at hr
  | succ n ih =>
    by_cases hs : job.status = job_status_t.JOB_UNKNOWN
    · rw [sdwi_job_wait_step env n w job hs] at hr ⊢
      by_cases h1 : job.ts_end > env.time w.tick
      · rw [if_pos h1] at hr ⊢
        by_cases h2 : (wait_call env w job).1 < 0
        · rw [if_pos h2] at hr; simp at hr
        · rw [if_neg h2] at hr ⊢
          by_cases h3 : (process_round env (wait_call env w job).2 job).1 < 0
          · rw [if_pos h3] at hr; simp at hr
          · rw [if_neg h3] at hr ⊢
            exact ih _ _ hr
      · rw [if_neg h1] at hr; simp at hr
    · rw [sdwi_job_wait_settled env (n + 1) w job hs] at hr
      simp at hr

/-! ## Lemmas on commands and decoders -/

theorem sdwi_sdbus_cmd_eq (env : Env) (w : World) (n : Option (List Nat)) (r : Bool)
    (cmd : sdbus_cmd_t) :
    (sdwi_sdbus_cmd env w n r cmd).1 =
      (if 0 ≤ (env.call_method w.tick (cmd_str cmd) "ss"
            [Arg.s n, Arg.s (some (str "replace"))]).rc ∧
          0 ≤ (env.call_method w.tick (cmd_str cmd) "ss"
            [Arg.s n, Arg.s (some (str "replace"))]).parse 0 then 0 else SDW_EINVAL) ∧
    (sdwi_sdbus_cmd env w n r cmd).2.2.trace =
      w.trace ++ [BusCall.call_method (cmd_str cmd) "ss"
        [Arg.s n, Arg.s (some (str "replace"))]] ∧
    (sdwi_sdbus_cmd env w n r cmd).2.2.tick = w.tick + 1 := by
  unfold sdwi_sdbus_cmd sd_bus_call_method
  dsimp only
  generalize env.call_method w.tick (cmd_str cmd) "ss"
    [Arg.s n, Arg.s (some (str "replace"))] = reply
  by_cases h1 : reply.rc < 0
  · have : ¬ (0 ≤ reply.rc ∧ 0 ≤ reply.parse 0) := by omega
    simp [h1, this, World.call]
  · by_cases h2 : reply.parse 0 < 0
    · have : ¬ (0 ≤ reply.rc ∧ 0 ≤ reply.parse 0) := by omega
      have h2' : ¬ reply.parse 0 ≥ 0 := by omega
      simp [h1, h2, h2', this, World.call]
    · have : 0 ≤ reply.rc ∧ 0 ≤ reply.parse 0 := by omega
      have h2' : reply.parse 0 ≥ 0 := by omega
      by_cases h3 : reply.s = none
      · simp [h1, h2, h2', h3, this, World.call]
      · simp [h1, h2, h3, this, World.call]

theorem activestate_code_eq (s : List Nat) :
    activestate_code s =
      if cstr s = str "activating" then 21
      else if cstr s = str "active" then 22
      else if cstr s = str "reloading" then 23
      else if cstr s = str "deactivating" then 24
      else if cstr s = str "inactive" then 25
      else if cstr s = str "failed" then 26
      else 20 := by
  have e1 : cstr (str "activating") = str "activating" := by decide
  have e2 : cstr (str "active") = str "active" := by decide
  have e3 : cstr (str "reloading") = str "reloading" := by decide
  have e4 : cstr (str "deactivating") = str "deactivating" := by decide
  have e5 : cstr (str "inactive") = str "inactive" := by decide
  have e6 : cstr (str "failed") = str "failed" := by decide
  unfold activestate_code
  simp only [strcmp_eq_zero_iff, e1, e2, e3, e4, e5, e6, SDW_UNIT_ACTIVE_STAT_ACTIVATING,
    SDW_UNIT_ACTIVE_STAT_UNKNOWN, SDW_UNIT_ACTIVE_STAT_ACTIVE, SDW_UNIT_ACTIVE_STAT_RELOADING,
    SDW_UNIT_ACTIVE_STAT_DEACTIVATING, SDW_UNIT_ACTIVE_STAT_INACTIVE,
    SDW_UNIT_ACTIVE_STAT_FAILED, eq_comm (a := str _)]
  by_cases h1 : cstr s = str "activating"
  · have n2 : ¬ (str "activating" = str "active") := by decide
    have n3 : ¬ (str "activating" = str "reloading") := by decide
    have n4 : ¬ (str "activating" = str "deactivating") := by decide
    have n5 : ¬ (str "activating" = str "inactive") := by decide
    have n6 : ¬ (str "activating" = str "failed") := by decide
    simp [h1, n2, n3, n4, n5, n6]
  · simp [h1]

theorem sdwi_enable_eq (env : Env) (w : World) (n : Option (List Nat)) (r f : Bool) :
    ((sdwi_enable env w n r f).1 = 0 ∨ (sdwi_enable env w n r f).1 = SDW_EINVAL) ∧
    (sdwi_enable env w n r f).2.trace =
      w.trace ++ [BusCall.call_method "EnableUnitFiles" "asbb" [Arg.s n, Arg.b r, Arg.b f]] := by
  unfold sdwi_enable sd_bus_call_method
  dsimp only
  split_ifs <;> simp [World.call]

theorem sdwi_disable_eq (env : Env) (w : World) (n : Option (List Nat)) (r : Bool) :
    ((sdwi_disable env w n r).1 = 0 ∨ (sdwi_disable env w n r).1 = SDW_EINVAL) ∧
    (sdwi_disable env w n r).2.trace =
      w.trace ++ [BusCall.call_method "DisableUnitFiles" "asb" [Arg.s n, Arg.b r]] := by
  unfold sdwi_disable sd_bus_call_method
  dsimp only
  split_ifs <;> simp [World.call]

theorem sdw_reload_trace (env : Env) (w : World) :
    (sdw_reload env w).2.trace = w.trace ++ [BusCall.call_method "Reload" "" []] := by
  unfold sdw_reload sd_bus_call_method
  dsimp only
  split_ifs <;> simp [World.call]

/-! ## Lemmas on the synchronous path -/

/-- The handler leaves the job alone when the message cannot be read or carries another
path. -/
theorem sdwi_msg_handler_ignored (w : World) (msg : Signal) (job : job_info_t) (p : List Nat)
    (hp : job.path = some p) (h : msg.read_rc < 0 ∨ cstr p ≠ cstr msg.path) :
    (sdwi_msg_handler w msg (some job)).2.1 = some job := by
  by_cases hr : msg.read_rc < 0
  · unfold sdwi_msg_handler
    simp [hp, hr]
  · rcases h with h | h
    · exact absurd h hr
    · rw [sdwi_msg_handler_readable w msg job p hp (by omega), if_neg h]

/-- The job after a processing round, in terms of what the round handed over. -/
theorem process_round_job (env : Env) (w : World) (job : job_info_t) :
    (process_round env w job).2.1 =
      match (env.process w.tick).2 with
      | none => job
      | some msg => ((sdwi_msg_handler (w.call BusCall.process) msg (some job)).2.1).getD job := by
  unfold process_round sd_bus_process
  rcases hp : env.process w.tick with ⟨rc, _ | msg⟩
  · rfl
  · obtain ⟨job1, w1, h, _⟩ := sdwi_msg_handler_frame (w.call BusCall.process) msg job
    simp only [h]
    rfl

theorem sdwi_job_prepare_eq (env : Env) (w : World) (job : job_info_t) :
    (sdwi_job_prepare env w job).1 = (if env.add_match (w.tick + 1) < 0 then SDW_EINVAL else 0) ∧
    (sdwi_job_prepare env w job).2.1 =
      ⟨job.cmd, job_status_t.JOB_UNKNOWN, env.time w.tick + job.wait_sec, job.wait_sec,
        if env.add_match (w.tick + 1) < 0 then none else some 1, none, none⟩ ∧
    (sdwi_job_prepare env w job).2.2.trace = w.trace ++ [BusCall.add_match] ∧
    (sdwi_job_prepare env w job).2.2.tick = w.tick + 2 := by
  unfold sdwi_job_prepare sd_bus_add_match time
  dsimp only
  split_ifs <;> simp [World.call]

/-- The wait loop records `sd_bus_wait` and `sd_bus_process` calls only and leaves the
slot of the job as it was. -/
theorem sdwi_job_wait_trace (env : Env) (fuel : Nat) (w : World) (job : job_info_t) :
    (sdwi_job_wait env fuel w job).2.1.slot = job.slot ∧
    ∃ ext, (sdwi_job_wait env fuel w job).2.2.trace = w.trace ++ ext ∧
      ∀ c ∈ ext, c = BusCall.process ∨ ∃ u, c = BusCall.wait u := by
  induction fuel generalizing w job with
  | zero =>
    refine ⟨?_, [], ?_, by simp⟩
    · unfold sdwi_job_wait
      split_ifs <;> rfl
    · unfold sdwi_job_wait
      split_ifs <;> simp
  | succ n ih =>
    by_cases hs : job.status = job_status_t.JOB_UNKNOWN
    · rw [sdwi_job_wait_step env n w job hs]
      obtain ⟨u, _, hwt⟩ := wait_call_fst env w job
      obtain ⟨_, _, hp3, _, _, hp6⟩ := process_round_frame env (wait_call env w job).2 job
      by_cases h1 : job.ts_end > env.time w.tick
      · rw [if_pos h1]
        by_cases h2 : (wait_call env w job).1 < 0
        · rw [if_pos h2]
          refine ⟨rfl, [BusCall.wait u], ?_, ?_⟩
          · simp [hwt]
          · intro c hc
            simp only [List.mem_singleton] at hc
            exact Or.inr ⟨u, hc⟩
        · rw [if_neg h2]
          have hmem : ∀ c ∈ [BusCall.wait u, BusCall.process],
              c = BusCall.process ∨ ∃ u, c = BusCall.wait u := by
            intro c hc
            simp only [List.mem_cons, List.mem_singleton, List.not_mem_nil, or_false] at hc
            rcases hc with rfl | rfl
            · exact Or.inr ⟨u, rfl⟩
            · exact Or.inl rfl
          by_cases h3 : (process_round env (wait_call env w job).2 job).1 < 0
          · rw [if_pos h3]
            refine ⟨hp3, [BusCall.wait u, BusCall.process], ?_, hmem⟩
            simp [hp6, hwt]
          · rw [if_neg h3]
            obtain ⟨is, ext, he, hm⟩ :=
              ih (process_round env (wait_call env w job).2 job).2.2
                (process_round env (wait_call env w job).2 job).2.1
            refine ⟨by rw [is, hp3], [BusCall.wait u, BusCall.process] ++ ext, ?_, ?_⟩
            · rw [he, hp6, hwt]
              simp
            · intro c hc
              rcases List.mem_append.mp hc with hc | hc
              · exact hmem c hc
              · exact hm c hc
      · rw [if_neg h1]
        exact ⟨rfl, [], by simp, by simp⟩
    · rw [sdwi_job_wait_settled env (n + 1) w job hs]
      exact ⟨rfl, [], by simp, by simp⟩

/-- The synchronous path of `sdw_start`, `sdw_stop` and `sdw_restart` in one equation:
`w1` is the state after the failed registration, `w2` the state in which the wait loop
starts. -/
theorem sdw_job_cmd_sync (env : Env) (fuel : Nat) (w : World) (cmd : sdbus_cmd_t)
    (n : Option (List Nat)) (ws : Nat) (hws : ws ≠ 0) :
    ∃ w1 w2 : World,
      w1.trace = w.trace ++ [BusCall.add_match] ∧
      w2.trace = w.trace ++ [BusCall.add_match,
        BusCall.call_method (cmd_str cmd) "ss" [Arg.s n, Arg.s (some (str "replace"))]] ∧
      w2.tick = w.tick + 3 ∧
      sdw_job_cmd env fuel w cmd n ws =
        if env.add_match (w.tick + 1) < 0 then (some SDW_EINVAL, w1)
        else if (env.call_method (w.tick + 2) (cmd_str cmd) "ss"
              [Arg.s n, Arg.s (some (str "replace"))]).rc < 0 ∨
            (env.call_method (w.tick + 2) (cmd_str cmd) "ss"
              [Arg.s n, Arg.s (some (str "replace"))]).parse 0 < 0 then
          (some SDW_EINVAL, sd_bus_slot_unref w2)
        else
          ((sdwi_job_wait env fuel w2
              ⟨cmd, job_status_t.JOB_UNKNOWN, env.time w.tick + ws, ws, some 1,
                (env.call_method (w.tick + 2) (cmd_str cmd) "ss"
                  [Arg.s n, Arg.s (some (str "replace"))]).s.map strdup, none⟩).1,
            sd_bus_slot_unref (sdwi_job_wait env fuel w2
              ⟨cmd, job_status_t.JOB_UNKNOWN, env.time w.tick + ws, ws, some 1,
                (env.call_method (w.tick + 2) (cmd_str cmd) "ss"
                  [Arg.s n, Arg.s (some (str "replace"))]).s.map strdup, none⟩).2.2) := by
  obtain ⟨hp1, hp2, hp3, hp4⟩ := sdwi_job_prepare_eq env w
    ⟨cmd, job_status_t.JOB_UNKNOWN, 0, ws, none, none, none⟩
  refine ⟨(sdwi_job_prepare env w
      ⟨cmd, job_status_t.JOB_UNKNOWN, 0, ws, none, none, none⟩).2.2,
    (sdwi_sdbus_cmd env (sdwi_job_prepare env w
      ⟨cmd, job_status_t.JOB_UNKNOWN, 0, ws, none, none, none⟩).2.2 n true cmd).2.2,
    hp3, ?_, ?_, ?_⟩
  · unfold sdwi_sdbus_cmd sd_bus_call_method
    dsimp only
    split_ifs <;> simp [World.call, LOG_ERROR, hp3]
  · unfold sdwi_sdbus_cmd sd_bus_call_method
    dsimp only
    split_ifs <;> simp [World.call, LOG_ERROR, hp4]
  · unfold sdw_job_cmd
    rw [if_neg hws]
    dsimp only
    rw [hp1, hp2]
    by_cases ha : env.add_match (w.tick + 1) < 0
    · simp only [ha, if_true]
      rw [if_pos (by decide)]
      unfold sdwi_job_remove
      simp
    · simp only [ha, if_false]
      rw [if_neg (by simp)]
      unfold sdwi_sdbus_cmd sd_bus_call_method
      dsimp only
      rw [hp4]
      generalize env.call_method (w.tick + 2) (cmd_str cmd) "ss"
        [Arg.s n, Arg.s (some (str "replace"))] = reply
      by_cases h1 : reply.rc < 0
      · simp [h1, sdwi_job_remove, SDW_EINVAL]
      · by_cases h2 : reply.parse 0 < 0
        · simp [h1, h2, sdwi_job_remove, SDW_EINVAL]
        · have h2' : reply.parse 0 ≥ 0 := by omega
          by_cases h3 : reply.s = none
          · simp [h1, h2, h2', h3, sdwi_job_remove, (sdwi_job_wait_trace env fuel _ _).1]
          · simp [h1, h2, h3, sdwi_job_remove, (sdwi_job_wait_trace env fuel _ _).1]

/-- The wait loop started `k + 1` rounds before the completion event of the job: the clock
reads of these rounds are before the deadline, their wait and processing calls succeed,
the first `k` rounds hand over nothing, an unreadable message, or an event for another
path, and round `k` hands over the event of the job with the result "done". With fuel for
these rounds the loop returns 0 and the job is `JOB_DONE`. -/
theorem sdwi_job_wait_done_after_others (env : Env) (P : List Nat) (k : Nat) :
    ∀ (fuel : Nat) (w : World) (job : job_info_t),
      job.status = job_status_t.JOB_UNKNOWN → job.path = some P →
      (∀ i, i ≤ k → env.time (w.tick + 3 * i) < job.ts_end) →
      (∀ i u, i ≤ k → 0 ≤ env.wait (w.tick + 3 * i + 1) u) →
      (∀ i, i ≤ k → 0 ≤ (env.process (w.tick + 3 * i + 2)).1) →
      (∀ i msg, i < k → (env.process (w.tick + 3 * i + 2)).2 = some msg →
        msg.read_rc < 0 ∨ cstr P ≠ cstr msg.path) →
      (∃ msg, (env.process (w.tick + 3 * k + 2)).2 = some msg ∧ 0 ≤ msg.read_rc ∧
        cstr P = cstr msg.path ∧ cstr msg.result = str "done") →
      k < fuel →
      (sdwi_job_wait env fuel w job).1 = some 0 ∧
      (sdwi_job_wait env fuel w job).2.1.status = job_status_t.JOB_DONE := by
  induction k with
  | zero =>
    intro fuel w job hs hp hclock hwait hproc _ hdone hfuel
    obtain ⟨m, rfl⟩ : ∃ m, fuel = m + 1 := ⟨fuel - 1, by omega⟩
    obtain ⟨msg, hm, hr, hpath, hres⟩ := hdone
    obtain ⟨u, hw, _⟩ := wait_call_fst env w job
    obtain ⟨hp1, _⟩ := process_round_frame env (wait_call env w job).2 job
    have hj := process_round_job env (wait_call env w job).2 job
    rw [wait_call_tick] at hp1 hj
    have hc := hclock 0 (le_refl 0)
    have hw0 := hwait 0 u (le_refl 0)
    have hq := hproc 0 (le_refl 0)
    simp only [Nat.mul_zero, Nat.add_zero, Nat.zero_add] at hc hw0 hq hm
    rw [hm] at hj
    dsimp only at hj
    rw [sdwi_msg_handler_readable _ msg job P hp hr, if_pos hpath, if_pos hres] at hj
    rw [sdwi_job_wait_step env m w job hs, if_pos hc, if_neg (by rw [hw]; omega),
      if_neg (by rw [hp1]; omega)]
    have hst : (process_round env (wait_call env w job).2 job).2.1.status =
        job_status_t.JOB_DONE := by
      rw [hj]
      rfl
    rw [sdwi_job_wait_settled env m _ _ (by rw [hst]; decide)]
    exact ⟨by rw [hst]; rfl, hst⟩
  | succ k ih =>
    intro fuel w job hs hp hclock hwait hproc hothers hdone hfuel
    obtain ⟨m, rfl⟩ : ∃ m, fuel = m + 1 := ⟨fuel - 1, by omega⟩
    obtain ⟨u, hw, _⟩ := wait_call_fst env w job
    obtain ⟨hp1, _, _, _, hp5, _⟩ := process_round_frame env (wait_call env w job).2 job
    have hj := process_round_job env (wait_call env w job).2 job
    rw [wait_call_tick] at hp1 hj hp5
    have hc := hclock 0 (Nat.zero_le _)
    have hw0 := hwait 0 u (Nat.zero_le _)
    have hq := hproc 0 (Nat.zero_le _)
    have ho := fun msg => hothers 0 msg (Nat.succ_pos k)
    simp only [Nat.mul_zero, Nat.add_zero, Nat.zero_add] at hc hw0 hq ho
    have hjob : (process_round env (wait_call env w job).2 job).2.1 = job := by
      rw [hj]
      rcases hm : (env.process (w.tick + 2)).2 with _ | msg
      · rfl
      · dsimp only
        rw [sdwi_msg_handler_ignored _ msg job P hp (ho msg hm)]
        rfl
    rw [sdwi_job_wait_step env m w job hs, if_pos hc, if_neg (by rw [hw]; omega),
      if_neg (by rw [hp1]; omega), hjob]
    have e : ∀ i, (process_round env (wait_call env w job).2 job).2.2.tick + 3 * i =
        w.tick + 3 * (i + 1) := by
      intro i
      rw [hp5]
      ring
    apply ih m _ job hs hp
    · intro i hi
      rw [e]
      exact hclock (i + 1) (by omega)
    · intro i u hi
      rw [e]
      exact hwait (i + 1) u (by omega)
    · intro i hi
      rw [e]
      exact hproc (i + 1) (by omega)
    · intro i msg hi
      rw [e]
      exact hothers (i + 1) msg (by omega)
    · rw [e]
      exact hdone
    · omega

/-! ## Lemmas on the log calls -/

/-- A message without the byte '%' is a format without conversions. -/
theorem printf_defined_of_not_mem (l : List Nat) (h : 37 ∉ l) : printf_defined l = true := by
  induction l with
  | nil => rfl
  | cons c rest ih =>
    have hc : c ≠ 37 := fun e => h (by simp [e])
    have hr : 37 ∉ rest := fun e => h (List.mem_cons_of_mem _ e)
    unfold printf_defined
    rw [if_neg hc]
    exact ih hr

/-- A log call whose message holds no '%' leaves the flag `undefined` as it was. -/
theorem LOG_ERROR_clean (fn : String) (text : List Nat) (w : World)
    (hf : 37 ∉ str fn) (ht : 37 ∉ text) :
    (LOG_ERROR fn text w).undefined = w.undefined := by
  have hm : 37 ∉ (str fn ++ str ": " ++ text).take (LAST_ERROR_MSG_SIZE - 1) := by
    intro hin
    have h2 := List.mem_of_mem_take hin
    simp only [List.mem_append] at h2
    rcases h2 with (h2 | h2) | h2
    · exact hf h2
    · revert h2
      decide
    · exact ht h2
  have hd := printf_defined_of_not_mem _ hm
  unfold LOG_ERROR
  dsimp only
  rw [hd]
  simp

/-- A log call never clears the flag `undefined`. -/
theorem LOG_ERROR_undefined_mono (fn : String) (text : List Nat) (w : World)
    (h : w.undefined = true) : (LOG_ERROR fn text w).undefined = true := by
  unfold LOG_ERROR
  simp [h]

@[simp] theorem call_undefined (w : World) (c : BusCall) :
    (w.call c).undefined = w.undefined := rfl

@[simp] theorem time_undefined (env : Env) (w : World) :
    (time env w).2.undefined = w.undefined := rfl

/-- The handler never clears the flag `undefined`. -/
theorem sdwi_msg_handler_undefined_mono (w : World) (msg : Signal) (u : Option job_info_t)
    (h : w.undefined = true) : (sdwi_msg_handler w msg u).2.2.undefined = true := by
  unfold sdwi_msg_handler
  split
  · exact LOG_ERROR_undefined_mono _ _ _ h
  · split
    · exact LOG_ERROR_undefined_mono _ _ _ h
    · split_ifs
      · exact LOG_ERROR_undefined_mono _ _ _ h
      · exact h
      · exact h
      · exact LOG_ERROR_undefined_mono _ _ _ h
      · exact h

/-- A processing round never clears the flag `undefined`. -/
theorem process_round_undefined_mono (env : Env) (w : World) (job : job_info_t)
    (h : w.undefined = true) : (process_round env w job).2.2.undefined = true := by
  unfold process_round sd_bus_process
  rcases hp : env.process w.tick with ⟨rc, _ | msg⟩
  · exact h
  · have hm := sdwi_msg_handler_undefined_mono (w.call BusCall.process) msg (some job) h
    obtain ⟨job1, w1, he, _⟩ := sdwi_msg_handler_frame (w.call BusCall.process) msg job
    rw [he] at hm
    simp only [he]
    exact hm

/-- The wait loop never clears the flag `undefined`. -/
theorem sdwi_job_wait_undefined_mono (env : Env) (fuel : Nat) (w : World) (job : job_info_t)
    (h : w.undefined = true) : (sdwi_job_wait env fuel w job).2.2.undefined = true := by
  induction fuel generalizing w job with
  | zero =>
    unfold sdwi_job_wait
    split_ifs <;> exact h
  | succ n ih =>
    by_cases hs : job.status = job_status_t.JOB_UNKNOWN
    · have hw : (wait_call env w job).2.undefined = true := h
      have hp := process_round_undefined_mono env (wait_call env w job).2 job hw
      rw [sdwi_job_wait_step env n w job hs]
      split_ifs
      · exact LOG_ERROR_undefined_mono _ _ _ hw
      · exact LOG_ERROR_undefined_mono _ _ _ hp
      · exact ih _ _ hp
      · exact h
    · rw [sdwi_job_wait_settled env (n + 1) w job hs]
      exact h

/-- What a value returned by `sdwi_job_wait` tells: 0 only with the status DONE, and a
status DONE gives 0 unless the last `sd_bus_process` call failed; `SDW_ETIMEOUT` only
with the status still UNKNOWN and the last clock read at or past the deadline;
`SDW_EINVAL` only with the status FAILED or after a failing `sd_bus_wait` or
`sd_bus_process` call, and a status FAILED always gives `SDW_EINVAL`; no other value
is returned. When the clock is at or past the deadline from tick `T` on, the loop ends
within `T - tick + 1` iterations (`tick` being the tick at entry). -/
theorem sdwi_job_wait_converse (env : Env) (fuel : Nat) (w : World) (job : job_info_t) :
    ((sdwi_job_wait env fuel w job).1 = some 0 →
      (sdwi_job_wait env fuel w job).2.1.status = job_status_t.JOB_DONE) ∧
    ((sdwi_job_wait env fuel w job).2.1.status = job_status_t.JOB_DONE →
      (sdwi_job_wait env fuel w job).1 = some 0 ∨
      (env.process ((sdwi_job_wait env fuel w job).2.2.tick - 1)).1 < 0) ∧
    ((sdwi_job_wait env fuel w job).1 = some SDW_ETIMEOUT →
      (sdwi_job_wait env fuel w job).2.1.status = job_status_t.JOB_UNKNOWN ∧
      (sdwi_job_wait env fuel w job).2.1.ts_end ≤
        env.time ((sdwi_job_wait env fuel w job).2.2.tick - 1)) ∧
    ((sdwi_job_wait env fuel w job).1 = some SDW_EINVAL →
      (sdwi_job_wait env fuel w job).2.1.status = job_status_t.JOB_FAILED ∨
      (∃ u, env.wait ((sdwi_job_wait env fuel w job).2.2.tick - 1) u < 0) ∨
      (env.process ((sdwi_job_wait env fuel w job).2.2.tick - 1)).1 < 0) ∧
    ((sdwi_job_wait env fuel w job).2.1.status = job_status_t.JOB_FAILED →
      (sdwi_job_wait env fuel w job).1 = some SDW_EINVAL) ∧
    (∀ rc, (sdwi_job_wait env fuel w job).1 = some rc →
      rc = 0 ∨ rc = SDW_ETIMEOUT ∨ rc = SDW_EINVAL) ∧
    (∀ T : Nat, (∀ t, T ≤ t → job.ts_end ≤ env.time t) → T - w.tick < fuel →
      (sdwi_job_wait env fuel w job).1 ≠ none) := by
  induction fuel generalizing w job with
  | zero =>
    by_cases hs : job.status = job_status_t.JOB_UNKNOWN
    · have h0 : sdwi_job_wait env 0 w job = (none, job, w) := by
        unfold sdwi_job_wait
        simp [hs]
      rw [h0]
      refine ⟨by simp, by simp [hs], by simp, by simp, by simp [hs], by simp, ?_⟩
      intro T _ hlt
      omega
    · rw [sdwi_job_wait_settled env 0 w job hs]
      cases hst : job.status with
      | JOB_UNKNOWN => exact absurd hst hs
      | JOB_DONE => simp [SDW_EINVAL, SDW_ETIMEOUT]
      | JOB_FAILED => simp [SDW_EINVAL, SDW_ETIMEOUT]
  | succ n ih =>
    by_cases hs : job.status = job_status_t.JOB_UNKNOWN
    · rw [sdwi_job_wait_step env n w job hs]
      by_cases h1 : job.ts_end > env.time w.tick
      · rw [if_pos h1]
        by_cases h2 : (wait_call env w job).1 < 0
        · rw [if_pos h2]
          obtain ⟨u, hu, _⟩ := wait_call_fst env w job
          rw [hu] at h2
          refine ⟨by simp [SDW_EINVAL], by simp [hs], by simp [SDW_EINVAL, SDW_ETIMEOUT],
            ?_, by simp [hs], by simp, by simp⟩
          intro _
          exact Or.inr (Or.inl ⟨u, by simpa using h2⟩)
        · rw [if_neg h2]
          obtain ⟨hp1, hp2, _, _, hp5, _⟩ := process_round_frame env (wait_call env w job).2 job
          by_cases h3 : (process_round env (wait_call env w job).2 job).1 < 0
          · rw [if_pos h3]
            have hproc : (env.process (w.tick + 2)).1 < 0 := by
              rw [hp1] at h3; simpa using h3
            have htk : (process_round env (wait_call env w job).2 job).2.2.tick - 1
                = w.tick + 2 := by
              rw [hp5]; simp
            refine ⟨by simp [SDW_EINVAL], ?_, by simp [SDW_EINVAL, SDW_ETIMEOUT], ?_,
              by simp, by simp, by simp⟩
            · intro _
              right
              simpa [htk] using hproc
            · intro _
              right; right
              simpa [htk] using hproc
          · rw [if_neg h3]
            obtain ⟨i1, i2, i3, i4, i5, i6, i7⟩ :=
              ih (process_round env (wait_call env w job).2 job).2.2
                (process_round env (wait_call env w job).2 job).2.1
            refine ⟨i1, i2, i3, i4, i5, i6, ?_⟩
            intro T hT hlt
            apply i7 T
            · intro t ht
              rw [hp2]
              exact hT t ht
            · rw [hp5]
              have : ¬ T ≤ w.tick := fun hle => by
                have := hT w.tick hle
                omega
              simp
              omega
      · rw [if_neg h1]
        refine ⟨by simp [SDW_ETIMEOUT], by simp [hs], ?_, by simp [SDW_EINVAL, SDW_ETIMEOUT],
          by simp [hs], by simp, by simp⟩
        intro _
        refine ⟨hs, ?_⟩
        simp
        omega
    · rw [sdwi_job_wait_settled env (n + 1) w job hs]
      cases hst : job.status with
      | JOB_UNKNOWN => exact absurd hst hs
      | JOB_DONE => simp [SDW_EINVAL, SDW_ETIMEOUT]
      | JOB_FAILED => simp [SDW_EINVAL, SDW_ETIMEOUT]

/-! ## Lemmas on the state decoders and the checks -/

theorem substate_code_eq (s : List Nat) :
    substate_code s =
      if cstr s = str "start" then 31
      else if cstr s = str "running" then 32
      else if cstr s = str "stop-sigterm" then 33
      else if cstr s = str "dead" then 34
      else 30 := by
  have e1 : cstr (str "start") = str "start" := by decide
  have e2 : cstr (str "running") = str "running" := by decide
  have e3 : cstr (str "stop-sigterm") = str "stop-sigterm" := by decide
  have e4 : cstr (str "dead") = str "dead" := by decide
  unfold substate_code
  simp only [strcmp_eq_zero_iff, e1, e2, e3, e4, SDW_UNIT_SUB_STAT_START,
    SDW_UNIT_SUB_STAT_RUNNING, SDW_UNIT_SUB_STAT_STOP_SIGTERM, SDW_UNIT_SUB_STAT_DEAD,
    SDW_UNIT_SUB_STAT_UNKNOWN, eq_comm (a := str _)]

/-- A null name and a name of 64 bytes or more are refused by `sdwi_set_unit_name`. -/
theorem sdwi_set_unit_name_invalid (w : World) (unit : unit_t) (n : Option (List Nat))
    (hn : n = none ∨ ∃ s, n = some s ∧ 64 ≤ strlen s) :
    (sdwi_set_unit_name w unit n).1 = SDW_EINVAL ∧
    (sdwi_set_unit_name w unit n).2.2.trace = w.trace := by
  rcases hn with rfl | ⟨s, rfl, hs⟩
  · exact ⟨rfl, rfl⟩
  · rw [sdwi_set_unit_name_some, if_pos hs]
    exact ⟨rfl, rfl⟩

/-- The log call of `sdwi_set_unit_name` has defined behaviour when the name it refuses
holds no '%'. -/
theorem sdwi_set_unit_name_defined (w : World) (unit : unit_t) (n : Option (List Nat))
    (hn : ∀ s, n = some s → 64 ≤ strlen s → 37 ∉ cstr s) :
    (sdwi_set_unit_name w unit n).2.2.undefined = w.undefined := by
  rcases n with _ | s
  · exact LOG_ERROR_clean _ _ _ (by decide) (by decide)
  · rw [sdwi_set_unit_name_some]
    split_ifs with h
    · apply LOG_ERROR_clean _ _ _ (by decide)
      intro hin
      simp only [List.mem_append] at hin
      rcases hin with (hin | hin) | hin
      · revert hin
        decide
      · exact hn s rfl h hin
      · revert hin
        decide
    · rfl

/-- Function `sdwi_set_unit_name` returns 0 or `SDW_EINVAL` and calls no transport. -/
theorem sdwi_set_unit_name_rc (w : World) (unit : unit_t) (n : Option (List Nat)) :
    ((sdwi_set_unit_name w unit n).1 = 0 ∨ (sdwi_set_unit_name w unit n).1 = SDW_EINVAL) ∧
    (sdwi_set_unit_name w unit n).2.2.trace = w.trace := by
  rcases n with _ | s
  · exact ⟨Or.inr rfl, rfl⟩
  · rw [sdwi_set_unit_name_some]
    split_ifs
    · exact ⟨Or.inr rfl, rfl⟩
    · exact ⟨Or.inl rfl, rfl⟩

/-! ## Claims -/

/-- C1: the round trip fails on the printable 51-byte name
"dbus-org.freedesktop.network1@eth0-vlan-100.service". Its escaped form has 65
bytes; `sdw_encode` returns 0 with only the first 63 of them, and `sdw_decode` of that
string returns 0 with a name that lacks the last two bytes. -/
theorem sdw_roundtrip_truncated :
    sdw_encode World.init zero_unit []
        (some (str "dbus-org.freedesktop.network1@eth0-vlan-100.service")) true =
      (0, some (str "dbus_2dorg_2efreedesktop_2enetwork1_40eth0_2dvlan_2d100_2eservi"),
        World.init) ∧
    sdw_decode World.init zero_unit []
        (some (str "dbus_2dorg_2efreedesktop_2enetwork1_40eth0_2dvlan_2d100_2eservi")) true =
      (0, some (str "dbus-org.freedesktop.network1@eth0-vlan-100.servi"), World.init) := by
  decide

/-- C2: `sdw_encode` of "foo-bar@baz.service" succeeds with "foo_2dbar_40baz_2eservice",
and `sdw_decode` of that string succeeds and gives back "foo-bar@baz.service",
whatever the local buffers of the two calls held before. -/
theorem sdw_roundtrip_foo_bar (w w' : World) (unit unit' : unit_t) (beyond beyond' : List Nat) :
    sdw_encode w unit beyond (some (str "foo-bar@baz.service")) true =
        (0, some (str "foo_2dbar_40baz_2eservice"), w) ∧
    sdw_decode w' unit' beyond' (some (str "foo_2dbar_40baz_2eservice")) true =
        (0, some (str "foo-bar@baz.service"), w') := by
  constructor
  · have h : bus_label_escape (cstr (str "foo-bar@baz.service")) =
        str "foo_2dbar_40baz_2eservice" := by decide
    rw [sdw_encode_short _ _ _ _ (by decide) (by decide), h]
  · have hv : object_path_is_valid
        ( sdbus_prefix ++ 47 :: cstr (str "foo_2dbar_40baz_2eservice")) = true := by decide
    have h : cstr (bus_label_unescape (cstr (str "foo_2dbar_40baz_2eservice"))) =
        str "foo-bar@baz.service" := by decide
    rw [sdw_decode_short _ _ _ _ (by decide), if_pos hv, h]

/-- C3: the name made of 32 times "%s" has 64 bytes. `sdw_encode` of it logs the name
through `LOG_ERROR` in `sdwi_set_unit_name`: the message
"sdwi_set_unit_name: invalid unit name '%s%s...'" is handed to `fprintf` as the format,
with no arguments for its conversions, and the behaviour is undefined. A name of 64
letters without '%' is refused with `SDW_EINVAL` and defined behaviour. -/
theorem sdw_encode_format_string :
    strlen (str ("%s%s%s%s%s%s%s%s%s%s%s%s%s%s%s%s" ++ "%s%s%s%s%s%s%s%s%s%s%s%s%s%s%s%s")) = 64 ∧
    (sdw_encode World.init zero_unit []
      (some (str ("%s%s%s%s%s%s%s%s%s%s%s%s%s%s%s%s" ++ "%s%s%s%s%s%s%s%s%s%s%s%s%s%s%s%s")))
      true).2.2.undefined = true ∧
    (sdw_encode World.init zero_unit []
      (some (str ("%s%s%s%s%s%s%s%s%s%s%s%s%s%s%s%s" ++ "%s%s%s%s%s%s%s%s%s%s%s%s%s%s%s%s")))
      true).2.2.last_error_msg =
      str "sdwi_set_unit_name: invalid unit name '" ++
        str ("%s%s%s%s%s%s%s%s%s%s%s%s%s%s%s%s" ++ "%s%s%s%s%s%s%s%s%s%s%s%s%s%s%s%s") ++
        str "'\n" ∧
    (sdw_encode World.init zero_unit [] (some (List.replicate 64 97)) true).1 = SDW_EINVAL ∧
    (sdw_encode World.init zero_unit [] (some (List.replicate 64 97)) true).2.2.undefined =
      false := by
  decide

/-- C4: with the name "systemd-fsck@dev-disk-by-uuid-0a1b2c3d-4e5f.service", whose
escaped form has 67 bytes, and a local `unit_t` whose last byte of `encoded` holds
'.', `sdw_encode` returns 0 and a string of 64 bytes that ends in '.'. -/
theorem sdw_encode_unterminated :
    sdw_encode World.init ⟨List.replicate 64 0, List.replicate 63 0 ++ [46]⟩ []
        (some (str "systemd-fsck@dev-disk-by-uuid-0a1b2c3d-4e5f.service")) true =
      (0, some (str "systemd_2dfsck_40dev_2ddisk_2dby_2duuid_2d0a1b2c3d_2d4e5f_2eser."),
        World.init) ∧
    (str "systemd_2dfsck_40dev_2ddisk_2dby_2duuid_2d0a1b2c3d_2d4e5f_2eser.").length = 64 := by
  decide

/-- C5: with an input of 63 letters and a local `unit_t` whose last byte of `name` holds
'b', `sdw_decode` returns 1, the return code of `sd_bus_path_decode`, and stores
nothing. -/
theorem sdw_decode_returns_one :
    sdw_decode World.init ⟨List.replicate 63 0 ++ [98], List.replicate 64 0⟩ []
        (some (List.replicate 63 97)) true = (1, none, World.init) := by
  decide

/-- C6: the public operations are not gated by the init status. With a manager of
version 230 the status is INVALID_VERSION, `sdw_is_supported` returns `SDW_EVERSION`,
and `sdw_reload` still issues the Reload call and returns 0; without a bus
`sdw_is_supported` returns `SDW_EINIT`, and `sdw_reload` still calls the transport and
returns `SDW_EINVAL`, and `sdw_encode` returns 0. -/
theorem sdw_reload_not_gated :
    ((sdw_is_supported (sdwi_load_lib (Env.manager (str "230")) World.init)).1 = SDW_EVERSION ∧
      (sdw_reload (Env.manager (str "230"))
        (sdwi_load_lib (Env.manager (str "230")) World.init)).1 = 0 ∧
      (sdw_reload (Env.manager (str "230"))
        (sdwi_load_lib (Env.manager (str "230")) World.init)).2.trace =
        [BusCall.open_system,
         BusCall.get_property sdbus_object_path sdbus_interface_mgr "Version" "s",
         BusCall.call_method "Reload" "" []]) ∧
    ((sdw_is_supported (sdwi_load_lib Env.no_bus World.init)).1 = SDW_EINIT ∧
      (sdw_reload Env.no_bus (sdwi_load_lib Env.no_bus World.init)).1 = SDW_EINVAL ∧
      (sdw_reload Env.no_bus (sdwi_load_lib Env.no_bus World.init)).2.trace =
        [BusCall.open_system, BusCall.call_method "Reload" "" []] ∧
      (sdw_encode (sdwi_load_lib Env.no_bus World.init) zero_unit [] (some (str "foo")) true).1
        = 0) := by
  decide

/-- C7: with a bus that opens and a manager whose Version property reads "4294967296",
an integer not below 234, the init status becomes INVALID_VERSION and
`sdw_is_supported` returns `SDW_EVERSION`, not 0. -/
theorem sdw_is_supported_large_version :
    (sdwi_load_lib (Env.manager (str "4294967296")) World.init).lib_stat
      = lib_stat_t.INVALID_VERSION ∧
    (sdw_is_supported (sdwi_load_lib (Env.manager (str "4294967296")) World.init)).1
      = SDW_EVERSION ∧
    234 ≤ decimal (str "4294967296") := by
  decide

/-- C8: for the version string "4294967296", whose digits denote 2^32, an integer not
below 234, `sdwi_check_version` returns `SDW_EVERSION`: the number is cut to 32 bits
before the comparison. -/
theorem sdwi_check_version_wraps :
    (sdwi_check_version (some (str "4294967296")) World.init).1 = SDW_EVERSION ∧
    decimal (str "4294967296") = 2 ^ 32 ∧ 234 ≤ decimal (str "4294967296") := by
  decide

/-- C9: no public operation changes the init status, and `n` calls of `sdw_is_supported`
in a row all return the value of the first call and leave the whole state as it was,
the record of transport calls included. -/
theorem init_status_stable (env : Env) (fuel : Nat) (unit : unit_t) (beyond : List Nat)
    (w : World) (c : PublicCall) (n : Nat) :
    (PublicCall.run env fuel unit beyond w c).lib_stat = w.lib_stat ∧
    is_supported_times n w = (List.replicate n (sdw_is_supported w).1, w) := by
  refine ⟨?_, is_supported_times_eq n w⟩
  cases c <;> simp only [PublicCall.run]
  · exact sdw_check_pid_lib_stat ..
  · exact sdw_check_controlpid_lib_stat ..
  · exact sdw_get_mainpid_lib_stat ..
  · exact sdw_get_controlpid_lib_stat ..
  · exact sdw_job_cmd_lib_stat ..
  · exact sdw_job_cmd_lib_stat ..
  · exact sdw_job_cmd_lib_stat ..
  · exact sdw_enable_lib_stat ..
  · exact sdw_disable_lib_stat ..
  · exact sdw_reload_lib_stat ..
  · exact sdw_get_version_lib_stat ..
  · exact sdwi_notify_lib_stat ..
  · exact sdwi_notify_lib_stat ..
  · exact sdwi_notify_lib_stat ..
  · rfl
  · rw [sdw_is_supported_world]
  · exact sdw_encode_lib_stat ..
  · exact sdw_decode_lib_stat ..
  · exact sdw_get_unit_by_pid_lib_stat ..
  · exact sdw_get_activestate_lib_stat ..
  · exact sdw_get_substate_lib_stat ..
  · exact sdwi_get_unitfilestate_lib_stat ..
  · exact sdw_set_tracelevel_lib_stat ..

/-- C10: when the job has a correlation path and the path of the completion event
denotes a different string, `sdwi_msg_handler` returns 0 and leaves the job as it
was, status and recorded result included, whatever the result string of the event
is. -/
theorem sdwi_msg_handler_other_path (w : World) (msg : Signal) (job : job_info_t)
    (p : List Nat) (hp : job.path = some p) (hne : cstr p ≠ cstr msg.path) :
    (sdwi_msg_handler w msg (some job)).1 = 0 ∧
    (sdwi_msg_handler w msg (some job)).2.1 = some job := by
  have hs : strcmp p msg.path ≠ 0 := by
    unfold strcmp
    rw [if_neg hne]
    split_ifs <;> decide
  unfold sdwi_msg_handler
  simp only [hp]
  split_ifs <;> simp

theorem sdwi_msg_handler_other_path_witness :
    (sdwi_msg_handler World.init
        ⟨1, 7, str "/org/freedesktop/systemd1/job/7", str "other.service", str "done"⟩
        (some ⟨sdbus_cmd_t.SDBUS_RESTART_UNIT, job_status_t.JOB_UNKNOWN, 5, 5, some 1,
          some (str "/org/freedesktop/systemd1/job/8"), none⟩)).1 = 0 ∧
    (sdwi_msg_handler World.init
        ⟨1, 7, str "/org/freedesktop/systemd1/job/7", str "other.service", str "done"⟩
        (some ⟨sdbus_cmd_t.SDBUS_RESTART_UNIT, job_status_t.JOB_UNKNOWN, 5, 5, some 1,
          some (str "/org/freedesktop/systemd1/job/8"), none⟩)).2.1 =
      some ⟨sdbus_cmd_t.SDBUS_RESTART_UNIT, job_status_t.JOB_UNKNOWN, 5, 5, some 1,
          some (str "/org/freedesktop/systemd1/job/8"), none⟩ :=
  sdwi_msg_handler_other_path World.init
    ⟨1, 7, str "/org/freedesktop/systemd1/job/7", str "other.service", str "done"⟩
    ⟨sdbus_cmd_t.SDBUS_RESTART_UNIT, job_status_t.JOB_UNKNOWN, 5, 5, some 1,
      some (str "/org/freedesktop/systemd1/job/8"), none⟩
    (str "/org/freedesktop/systemd1/job/8") rfl (by decide)

/-- C11: a job in status UNKNOWN with the path "/org/freedesktop/systemd1/job/8" and
the completion event for that path with the result "%s". The handler takes the branch
for a failed job, where `LOG_ERROR` runs before the status is written: the message
"sdwi_msg_handler: job '/org/freedesktop/systemd1/job/8' canceled with '%s'" is handed
to `fprintf` as the format, with no argument for its conversion, and the behaviour is
undefined. With the result "failed" the behaviour is defined and the status becomes
FAILED. -/
theorem sdwi_msg_handler_format_string :
    (sdwi_msg_handler World.init
      ⟨1, 8, str "/org/freedesktop/systemd1/job/8", str "app.service", str "%s"⟩
      (some job8)).2.2.undefined = true ∧
    (sdwi_msg_handler World.init
      ⟨1, 8, str "/org/freedesktop/systemd1/job/8", str "app.service", str "%s"⟩
      (some job8)).2.2.last_error_msg =
      str "sdwi_msg_handler: job '/org/freedesktop/systemd1/job/8' canceled with '%s'\n" ∧
    job8.status = job_status_t.JOB_UNKNOWN ∧
    (sdwi_msg_handler World.init
      ⟨1, 8, str "/org/freedesktop/systemd1/job/8", str "app.service", str "failed"⟩
      (some job8)).2.2.undefined = false ∧
    ((sdwi_msg_handler World.init
      ⟨1, 8, str "/org/freedesktop/systemd1/job/8", str "app.service", str "failed"⟩
      (some job8)).2.1.map (fun j => j.status)) = some job_status_t.JOB_FAILED := by
  decide

/-- C12, as stated, fails: a job whose status is DONE and a readable event for its own
path with the result "failed" leave the handler with the status FAILED. -/
theorem sdwi_msg_handler_overwrites_done :
    (sdwi_msg_handler World.init
        ⟨1, 8, str "/org/freedesktop/systemd1/job/8", str "app.service", str "failed"⟩
        (some ⟨sdbus_cmd_t.SDBUS_RESTART_UNIT, job_status_t.JOB_DONE, 5, 5, some 1,
          some (str "/org/freedesktop/systemd1/job/8"), some (str "done")⟩)).2.1 =
      some ⟨sdbus_cmd_t.SDBUS_RESTART_UNIT, job_status_t.JOB_FAILED, 5, 5, some 1,
        some (str "/org/freedesktop/systemd1/job/8"), some (str "failed")⟩ := by
  decide

/-- C12, amended: for a job whose status is DONE or FAILED, `sdwi_msg_handler` leaves the
job as it was for every event whose path denotes another string, and
`sdwi_job_wait` returns at once without a clock read or a processing round, so the
handler is not run on it; and once a wait has led to a status other than UNKNOWN
within `k` rounds, any longer run ends with the very same job: during a wait the
status makes at most one transition, from UNKNOWN to DONE or FAILED. -/
theorem job_status_settles_once (env : Env) (w : World) (job : job_info_t)
    (hs : job.status ≠ job_status_t.JOB_UNKNOWN) :
    (∀ (msg : Signal) (p : List Nat), job.path = some p → cstr p ≠ cstr msg.path →
      (sdwi_msg_handler w msg (some job)).2.1 = some job) ∧
    (∀ fuel : Nat, sdwi_job_wait env fuel w job =
      (some (if job.status = job_status_t.JOB_DONE then 0 else SDW_EINVAL), job, w)) ∧
    (∀ (job0 : job_info_t) (w0 : World) (k k' : Nat), k ≤ k' →
      (sdwi_job_wait env k w0 job0).2.1.status ≠ job_status_t.JOB_UNKNOWN →
      sdwi_job_wait env k' w0 job0 = sdwi_job_wait env k w0 job0) := by
  refine ⟨?_, ?_, ?_⟩
  · intro msg p hp hne
    by_cases hr : msg.read_rc < 0
    · unfold sdwi_msg_handler
      simp [hp, hr]
    · rw [sdwi_msg_handler_readable w msg job p hp (by omega), if_neg hne]
  · intro fuel
    exact sdwi_job_wait_settled env fuel w job hs
  · intro job0 w0 k k' hk hst
    apply sdwi_job_wait_fuel_mono env k k' w0 job0 hk
    intro hnone
    exact hst (sdwi_job_wait_none env k w0 job0 hnone)

theorem job_status_settles_once_witness :
    (∀ (msg : Signal) (p : List Nat),
      (⟨sdbus_cmd_t.SDBUS_START_UNIT, job_status_t.JOB_DONE, 5, 5, some 1,
        some (str "/org/freedesktop/systemd1/job/8"), some (str "done")⟩ : job_info_t).path
        = some p → cstr p ≠ cstr msg.path →
      (sdwi_msg_handler World.init msg
        (some ⟨sdbus_cmd_t.SDBUS_START_UNIT, job_status_t.JOB_DONE, 5, 5, some 1,
          some (str "/org/freedesktop/systemd1/job/8"), some (str "done")⟩)).2.1 =
        some ⟨sdbus_cmd_t.SDBUS_START_UNIT, job_status_t.JOB_DONE, 5, 5, some 1,
          some (str "/org/freedesktop/systemd1/job/8"), some (str "done")⟩) ∧
    (∀ fuel : Nat, sdwi_job_wait (Env.manager (str "249")) fuel World.init
        ⟨sdbus_cmd_t.SDBUS_START_UNIT, job_status_t.JOB_DONE, 5, 5, some 1,
          some (str "/org/freedesktop/systemd1/job/8"), some (str "done")⟩ =
      (some (if (⟨sdbus_cmd_t.SDBUS_START_UNIT, job_status_t.JOB_DONE, 5, 5, some 1,
          some (str "/org/freedesktop/systemd1/job/8"), some (str "done")⟩ : job_info_t).status
            = job_status_t.JOB_DONE then 0 else SDW_EINVAL),
        ⟨sdbus_cmd_t.SDBUS_START_UNIT, job_status_t.JOB_DONE, 5, 5, some 1,
          some (str "/org/freedesktop/systemd1/job/8"), some (str "done")⟩, World.init)) ∧
    (∀ (job0 : job_info_t) (w0 : World) (k k' : Nat), k ≤ k' →
      (sdwi_job_wait (Env.manager (str "249")) k w0 job0).2.1.status
        ≠ job_status_t.JOB_UNKNOWN →
      sdwi_job_wait (Env.manager (str "249")) k' w0 job0 =
        sdwi_job_wait (Env.manager (str "249")) k w0 job0) :=
  job_status_settles_once (Env.manager (str "249")) World.init
    ⟨sdbus_cmd_t.SDBUS_START_UNIT, job_status_t.JOB_DONE, 5, 5, some 1,
      some (str "/org/freedesktop/systemd1/job/8"), some (str "done")⟩ (by decide)

/-- C13: when `sdwi_job_wait` is entered with a job in status UNKNOWN whose deadline is
not later than the clock, it returns `SDW_ETIMEOUT` with the job as it was; the only
step taken is the clock read: the record of transport calls is unchanged, so there
is no `sd_bus_wait` and no `sd_bus_process`. -/
theorem sdwi_job_wait_immediate_timeout (env : Env) (fuel : Nat) (w : World)
    (job : job_info_t) (hs : job.status = job_status_t.JOB_UNKNOWN)
    (hd : job.ts_end ≤ env.time w.tick) :
    sdwi_job_wait env (fuel + 1) w job =
      (some SDW_ETIMEOUT, job, { w with tick := w.tick + 1 }) ∧
    (sdwi_job_wait env (fuel + 1) w job).2.2.trace = w.trace := by
  have h : ¬ job.ts_end > env.time w.tick := by omega
  rw [sdwi_job_wait_step env fuel w job hs, if_neg h]
  exact ⟨rfl, rfl⟩

theorem sdwi_job_wait_immediate_timeout_witness :
    sdwi_job_wait (Env.manager (str "249")) (0 + 1) World.init
        ⟨sdbus_cmd_t.SDBUS_STOP_UNIT, job_status_t.JOB_UNKNOWN, -1, 5, some 1,
          some (str "/org/freedesktop/systemd1/job/8"), none⟩ =
      (some SDW_ETIMEOUT,
        ⟨sdbus_cmd_t.SDBUS_STOP_UNIT, job_status_t.JOB_UNKNOWN, -1, 5, some 1,
          some (str "/org/freedesktop/systemd1/job/8"), none⟩,
        { World.init with tick := World.init.tick + 1 }) ∧
    (sdwi_job_wait (Env.manager (str "249")) (0 + 1) World.init
        ⟨sdbus_cmd_t.SDBUS_STOP_UNIT, job_status_t.JOB_UNKNOWN, -1, 5, some 1,
          some (str "/org/freedesktop/systemd1/job/8"), none⟩).2.2.trace = World.init.trace :=
  sdwi_job_wait_immediate_timeout (Env.manager (str "249")) 0 World.init
    ⟨sdbus_cmd_t.SDBUS_STOP_UNIT, job_status_t.JOB_UNKNOWN, -1, 5, some 1,
      some (str "/org/freedesktop/systemd1/job/8"), none⟩ rfl (by decide)

/-- C14, as stated, fails: when the processing call that hands the matching "done" event
to the handler itself returns a negative value, the status has become DONE and
`sdwi_job_wait` returns `SDW_EINVAL`, not 0. -/
theorem sdwi_job_wait_done_but_einval :
    (sdwi_job_wait Env.done_then_fail 1 World.init job8).1 = some SDW_EINVAL ∧
    (sdwi_job_wait Env.done_then_fail 1 World.init job8).2.1.status = job_status_t.JOB_DONE := by
  decide

/-- C14, amended: for every job, clock and connection, in a run of `sdwi_job_wait` during
which no log call has undefined behaviour. Entered with the status DONE the function
returns 0 at once, entered with FAILED it returns `SDW_EINVAL` at once. An iteration
entered with UNKNOWN returns `SDW_ETIMEOUT` when the clock read is at or past the deadline;
else it returns `SDW_EINVAL` when `sd_bus_wait` fails, and `SDW_EINVAL` when
`sd_bus_process` fails, whatever status the handler has set in that round; else the
result is the one of the wait continued after that round. Conversely the function
returns only 0, `SDW_ETIMEOUT` or `SDW_EINVAL`: 0 only with the status DONE (a status
DONE gives 0 unless the last `sd_bus_process` call failed), `SDW_ETIMEOUT` only with the
status still UNKNOWN and the last clock read at or past the deadline, `SDW_EINVAL` only
with the status FAILED or after a failing `sd_bus_wait` or `sd_bus_process` call, and a
status FAILED always gives `SDW_EINVAL`. When the clock is at or past the deadline from
tick `T` on, the loop ends within `T - tick + 1` iterations. -/
theorem sdwi_job_wait_return_value (env : Env) (fuel : Nat) (w : World) (job : job_info_t)
    (hu : (sdwi_job_wait env fuel w job).2.2.undefined = false) :
    w.undefined = false ∧
    (job.status = job_status_t.JOB_DONE → sdwi_job_wait env fuel w job = (some 0, job, w)) ∧
    (job.status = job_status_t.JOB_FAILED →
      sdwi_job_wait env fuel w job = (some SDW_EINVAL, job, w)) ∧
    (job.status = job_status_t.JOB_UNKNOWN → 0 < fuel →
      (job.ts_end ≤ env.time w.tick →
        (sdwi_job_wait env fuel w job).1 = some SDW_ETIMEOUT ∧
        (sdwi_job_wait env fuel w job).2.1 = job) ∧
      (env.time w.tick < job.ts_end →
        (env.wait (w.tick + 1)
            ((1000 * 1000 * (job.ts_end - env.time w.tick)) % 2 ^ 64).toNat < 0 →
          (sdwi_job_wait env fuel w job).1 = some SDW_EINVAL ∧
          (sdwi_job_wait env fuel w job).2.1 = job) ∧
        (0 ≤ env.wait (w.tick + 1)
            ((1000 * 1000 * (job.ts_end - env.time w.tick)) % 2 ^ 64).toNat →
          ((env.process (w.tick + 2)).1 < 0 →
            (sdwi_job_wait env fuel w job).1 = some SDW_EINVAL) ∧
          (0 ≤ (env.process (w.tick + 2)).1 →
            sdwi_job_wait env fuel w job =
              sdwi_job_wait env (fuel - 1)
                (process_round env (wait_call env w job).2 job).2.2
                (process_round env (wait_call env w job).2 job).2.1)))) ∧
    ((sdwi_job_wait env fuel w job).1 = some 0 →
      (sdwi_job_wait env fuel w job).2.1.status = job_status_t.JOB_DONE) ∧
    ((sdwi_job_wait env fuel w job).2.1.status = job_status_t.JOB_DONE →
      (sdwi_job_wait env fuel w job).1 = some 0 ∨
      (env.process ((sdwi_job_wait env fuel w job).2.2.tick - 1)).1 < 0) ∧
    ((sdwi_job_wait env fuel w job).1 = some SDW_ETIMEOUT →
      (sdwi_job_wait env fuel w job).2.1.status = job_status_t.JOB_UNKNOWN ∧
      (sdwi_job_wait env fuel w job).2.1.ts_end ≤
        env.time ((sdwi_job_wait env fuel w job).2.2.tick - 1)) ∧
    ((sdwi_job_wait env fuel w job).1 = some SDW_EINVAL →
      (sdwi_job_wait env fuel w job).2.1.status = job_status_t.JOB_FAILED ∨
      (∃ u, env.wait ((sdwi_job_wait env fuel w job).2.2.tick - 1) u < 0) ∨
      (env.process ((sdwi_job_wait env fuel w job).2.2.tick - 1)).1 < 0) ∧
    ((sdwi_job_wait env fuel w job).2.1.status = job_status_t.JOB_FAILED →
      (sdwi_job_wait env fuel w job).1 = some SDW_EINVAL) ∧
    (∀ rc, (sdwi_job_wait env fuel w job).1 = some rc →
      rc = 0 ∨ rc = SDW_ETIMEOUT ∨ rc = SDW_EINVAL) ∧
    (∀ T : Nat, (∀ t, T ≤ t → job.ts_end ≤ env.time t) → T - w.tick < fuel →
      (sdwi_job_wait env fuel w job).1 ≠ none) := by
  have hw0 : w.undefined = false := by
    cases h : w.undefined with
    | false => rfl
    | true =>
      rw [sdwi_job_wait_undefined_mono env fuel w job h] at hu
      exact absurd hu (by decide)
  have hwait : (wait_call env w job).1 =
      env.wait (w.tick + 1)
        ((1000 * 1000 * (job.ts_end - env.time w.tick)) % 2 ^ 64).toNat := rfl
  have hproc : (process_round env (wait_call env w job).2 job).1 =
      (env.process (w.tick + 2)).1 := by
    rw [(process_round_frame env (wait_call env w job).2 job).1, wait_call_tick]
  refine ⟨hw0, ?_, ?_, ?_, sdwi_job_wait_converse env fuel w job⟩
  · intro hs
    rw [sdwi_job_wait_settled env fuel w job (by rw [hs]; decide), if_pos hs]
  · intro hs
    rw [sdwi_job_wait_settled env fuel w job (by rw [hs]; decide),
      if_neg (by rw [hs]; decide)]
  · intro hs hf
    obtain ⟨n, rfl⟩ : ∃ n, fuel = n + 1 := ⟨fuel - 1, by omega⟩
    rw [sdwi_job_wait_step env n w job hs]
    refine ⟨?_, ?_⟩
    · intro hd
      rw [if_neg (by omega)]
      exact ⟨rfl, rfl⟩
    · intro hd
      rw [if_pos (by omega), hwait, hproc]
      refine ⟨?_, ?_⟩
      · intro hf1
        rw [if_pos hf1]
        exact ⟨rfl, rfl⟩
      · intro hf1
        rw [if_neg (by omega)]
        refine ⟨?_, ?_⟩
        · intro hf2
          rw [if_pos hf2]
        · intro hf2
          rw [if_neg (by omega)]
          rfl

/-- Witness for C14: the restart queued as job 8 with the deadline 5 at the manager that
never sends an event; the wait ends by the timeout, with defined behaviour. -/
theorem sdwi_job_wait_return_value_witness :
    (sdwi_job_wait (Env.manager (str "249")) 9 World.init job8).2.2.undefined = false ∧
    ((sdwi_job_wait (Env.manager (str "249")) 9 World.init job8).1 = some SDW_ETIMEOUT →
      (sdwi_job_wait (Env.manager (str "249")) 9 World.init job8).2.1.status =
        job_status_t.JOB_UNKNOWN ∧
      (sdwi_job_wait (Env.manager (str "249")) 9 World.init job8).2.1.ts_end ≤
        (Env.manager (str "249")).time
          ((sdwi_job_wait (Env.manager (str "249")) 9 World.init job8).2.2.tick - 1)) :=
  ⟨by decide,
    (sdwi_job_wait_return_value (Env.manager (str "249")) 9 World.init job8
      (by decide)).2.2.2.2.2.2.1⟩

/-- C15: `sdw_start`, `sdw_stop` and `sdw_restart` called with `wait_sec = 0` and the
name "%s%s.service" while the command call fails. `sdwi_sdbus_cmd` logs the name through
`LOG_ERROR`: the message "sdwi_sdbus_cmd: StartUnit '%s%s.service' - failed: ..." is
handed to `fprintf` as the format, with no arguments for its conversions, and the
behaviour is undefined. The one transport call made before is the command. -/
theorem sdw_async_format_string :
    (sdw_start (Env.replying ⟨-2, fun _ => -2, none, 0⟩) 0 World.init
      (some (str "%s%s.service")) 0).2.undefined = true ∧
    (sdw_stop (Env.replying ⟨-2, fun _ => -2, none, 0⟩) 0 World.init
      (some (str "%s%s.service")) 0).2.undefined = true ∧
    (sdw_restart (Env.replying ⟨-2, fun _ => -2, none, 0⟩) 0 World.init
      (some (str "%s%s.service")) 0).2.undefined = true ∧
    (sdw_start (Env.replying ⟨-2, fun _ => -2, none, 0⟩) 0 World.init
      (some (str "%s%s.service")) 0).2.trace =
      [BusCall.call_method "StartUnit" "ss"
        [Arg.s (some (str "%s%s.service")), Arg.s (some (str "replace"))]] ∧
    (sdw_start (Env.replying ⟨-2, fun _ => -2, none, 0⟩) 0 World.init
      (some (str "app.service")) 0).2.undefined = false ∧
    (sdw_start (Env.replying ⟨-2, fun _ => -2, none, 0⟩) 0 World.init
      (some (str "app.service")) 0).1 = some SDW_EINVAL := by
  decide

/-- C16 (order of the synchronous path). For `sdw_start`, `sdw_stop` and `sdw_restart`
(which are `sdw_job_cmd` at their command) with `wait_sec > 0`: if the registration of the
match fails the call returns `SDW_EINVAL` and the only transport call made is the
registration, so the command is never issued. Otherwise the calls made begin with the
registration followed by the command, and when the command succeeds the wait loop starts
in a state `w2` whose record already holds both, on a job whose path is the string the
command returned. -/
theorem sdw_sync_order (env : Env) (fuel : Nat) (w : World) (cmd : sdbus_cmd_t)
    (n : Option (List Nat)) (ws : Nat) (hws : ws ≠ 0) :
    sdw_start env fuel w n ws = sdw_job_cmd env fuel w sdbus_cmd_t.SDBUS_START_UNIT n ws ∧
    sdw_stop env fuel w n ws = sdw_job_cmd env fuel w sdbus_cmd_t.SDBUS_STOP_UNIT n ws ∧
    sdw_restart env fuel w n ws = sdw_job_cmd env fuel w sdbus_cmd_t.SDBUS_RESTART_UNIT n ws ∧
    (env.add_match (w.tick + 1) < 0 →
      (sdw_job_cmd env fuel w cmd n ws).1 = some SDW_EINVAL ∧
      (sdw_job_cmd env fuel w cmd n ws).2.trace = w.trace ++ [BusCall.add_match]) ∧
    (0 ≤ env.add_match (w.tick + 1) →
      ∃ w2 : World,
        w2.trace = w.trace ++ [BusCall.add_match,
          BusCall.call_method (cmd_str cmd) "ss" [Arg.s n, Arg.s (some (str "replace"))]] ∧
        (∃ ext, (sdw_job_cmd env fuel w cmd n ws).2.trace = w2.trace ++ ext) ∧
        (0 ≤ (env.call_method (w.tick + 2) (cmd_str cmd) "ss"
              [Arg.s n, Arg.s (some (str "replace"))]).rc →
          0 ≤ (env.call_method (w.tick + 2) (cmd_str cmd) "ss"
              [Arg.s n, Arg.s (some (str "replace"))]).parse 0 →
          sdw_job_cmd env fuel w cmd n ws =
            ((sdwi_job_wait env fuel w2
                ⟨cmd, job_status_t.JOB_UNKNOWN, env.time w.tick + ws, ws, some 1,
                  (env.call_method (w.tick + 2) (cmd_str cmd) "ss"
                    [Arg.s n, Arg.s (some (str "replace"))]).s.map strdup, none⟩).1,
              sd_bus_slot_unref (sdwi_job_wait env fuel w2
                ⟨cmd, job_status_t.JOB_UNKNOWN, env.time w.tick + ws, ws, some 1,
                  (env.call_method (w.tick + 2) (cmd_str cmd) "ss"
                    [Arg.s n, Arg.s (some (str "replace"))]).s.map strdup, none⟩).2.2))) := by
  obtain ⟨w1, w2, h1, h2, _, heq⟩ := sdw_job_cmd_sync env fuel w cmd n ws hws
  refine ⟨rfl, rfl, rfl, ?_, ?_⟩
  · intro ha
    rw [heq, if_pos ha]
    exact ⟨rfl, h1⟩
  · intro ha
    have ha' : ¬ env.add_match (w.tick + 1) < 0 := by omega
    refine ⟨w2, h2, ?_, ?_⟩
    · rw [heq, if_neg ha']
      split_ifs
      · exact ⟨[BusCall.slot_unref], rfl⟩
      · obtain ⟨_, ext, he, _⟩ := sdwi_job_wait_trace env fuel w2
          ⟨cmd, job_status_t.JOB_UNKNOWN, env.time w.tick + ws, ws, some 1,
            (env.call_method (w.tick + 2) (cmd_str cmd) "ss"
              [Arg.s n, Arg.s (some (str "replace"))]).s.map strdup, none⟩
        refine ⟨ext ++ [BusCall.slot_unref], ?_⟩
        simp [sd_bus_slot_unref, World.call, he]
    · intro hr hq
      rw [heq, if_neg ha', if_neg (by omega)]

/-- Witness for C16: a synchronous restart of "app.service" at the manager that answers
every call. -/
theorem sdw_sync_order_witness :
    (sdw_job_cmd (Env.manager (str "249")) 9 World.init sdbus_cmd_t.SDBUS_RESTART_UNIT
        (some (str "app.service")) 5).2.trace.take 2 =
      [BusCall.add_match, BusCall.call_method "RestartUnit" "ss"
        [Arg.s (some (str "app.service")), Arg.s (some (str "replace"))]] := by
  obtain ⟨w2, h2, ⟨ext, he⟩, _⟩ :=
    (sdw_sync_order (Env.manager (str "249")) 9 World.init sdbus_cmd_t.SDBUS_RESTART_UNIT
      (some (str "app.service")) 5 (by decide)).2.2.2.2 (by decide)
  rw [he, h2]
  rfl

/-- C17: `sdw_restart("%s%s.service", 5)` when the registration of the match succeeds
and the command call fails. `sdwi_sdbus_cmd` logs the name through `LOG_ERROR`, whose
message is handed to `fprintf` as the format: when it returns to `sdw_restart` the
behaviour is already undefined, while the subscription is registered and not yet
released (the calls made so far are the registration and the command). With the name
"app.service" the behaviour is defined, the call returns `SDW_EINVAL` and the
subscription is released. -/
theorem sdw_sync_format_string :
    (sdwi_sdbus_cmd (Env.replying ⟨-2, fun _ => -2, none, 0⟩)
      (sdwi_job_prepare (Env.replying ⟨-2, fun _ => -2, none, 0⟩) World.init
        ⟨sdbus_cmd_t.SDBUS_RESTART_UNIT, job_status_t.JOB_UNKNOWN, 0, 5, none, none, none⟩).2.2
      (some (str "%s%s.service")) true sdbus_cmd_t.SDBUS_RESTART_UNIT).2.2.undefined = true ∧
    (sdwi_sdbus_cmd (Env.replying ⟨-2, fun _ => -2, none, 0⟩)
      (sdwi_job_prepare (Env.replying ⟨-2, fun _ => -2, none, 0⟩) World.init
        ⟨sdbus_cmd_t.SDBUS_RESTART_UNIT, job_status_t.JOB_UNKNOWN, 0, 5, none, none, none⟩).2.2
      (some (str "%s%s.service")) true sdbus_cmd_t.SDBUS_RESTART_UNIT).2.2.trace =
      [BusCall.add_match,
       BusCall.call_method "RestartUnit" "ss"
         [Arg.s (some (str "%s%s.service")), Arg.s (some (str "replace"))]] ∧
    (sdw_restart (Env.replying ⟨-2, fun _ => -2, none, 0⟩) 9 World.init
      (some (str "%s%s.service")) 5).2.undefined = true ∧
    (sdw_restart (Env.replying ⟨-2, fun _ => -2, none, 0⟩) 9 World.init
      (some (str "app.service")) 5).2.undefined = false ∧
    (sdw_restart (Env.replying ⟨-2, fun _ => -2, none, 0⟩) 9 World.init
      (some (str "app.service")) 5).1 = some SDW_EINVAL ∧
    (sdw_restart (Env.replying ⟨-2, fun _ => -2, none, 0⟩) 9 World.init
      (some (str "app.service")) 5).2.trace =
      [BusCall.add_match,
       BusCall.call_method "RestartUnit" "ss"
         [Arg.s (some (str "app.service")), Arg.s (some (str "replace"))],
       BusCall.slot_unref] := by
  decide

/-- C19 (end-to-end synchronous restart). A call `sdw_restart(n, ws)` with `ws > 0` whose
registration succeeds and whose command is answered with the job path `P`: if the clock
reads of the first `k + 1` rounds of the wait loop are before the deadline, their wait and
processing calls succeed, the first `k` rounds hand over nothing, an unreadable message or a
completion event for a path other than `P` (with any result), and round `k` hands over the
completion event for `P` with the result "done", then the call, given fuel for these
rounds, returns 0, which is not `SDW_ETIMEOUT`. -/
theorem sdw_restart_done_after_others (env : Env) (fuel : Nat) (w : World)
    (n : Option (List Nat)) (ws : Nat) (P : List Nat) (k : Nat)
    (hws : ws ≠ 0)
    (hadd : 0 ≤ env.add_match (w.tick + 1))
    (hrc : 0 ≤ (env.call_method (w.tick + 2) "RestartUnit" "ss"
      [Arg.s n, Arg.s (some (str "replace"))]).rc)
    (hparse : 0 ≤ (env.call_method (w.tick + 2) "RestartUnit" "ss"
      [Arg.s n, Arg.s (some (str "replace"))]).parse 0)
    (hpath : (env.call_method (w.tick + 2) "RestartUnit" "ss"
      [Arg.s n, Arg.s (some (str "replace"))]).s = some P)
    (hclock : ∀ i, i ≤ k → env.time (w.tick + 3 + 3 * i) < env.time w.tick + ws)
    (hwait : ∀ i u, i ≤ k → 0 ≤ env.wait (w.tick + 3 + 3 * i + 1) u)
    (hproc : ∀ i, i ≤ k → 0 ≤ (env.process (w.tick + 3 + 3 * i + 2)).1)
    (hothers : ∀ i msg, i < k → (env.process (w.tick + 3 + 3 * i + 2)).2 = some msg →
      msg.read_rc < 0 ∨ cstr P ≠ cstr msg.path)
    (hdone : ∃ msg, (env.process (w.tick + 3 + 3 * k + 2)).2 = some msg ∧ 0 ≤ msg.read_rc ∧
      cstr P = cstr msg.path ∧ cstr msg.result = str "done")
    (hfuel : k < fuel) :
    (sdw_restart env fuel w n ws).1 = some 0 ∧
    (sdw_restart env fuel w n ws).1 ≠ some SDW_ETIMEOUT := by
  obtain ⟨w1, w2, _, _, ht, heq⟩ :=
    sdw_job_cmd_sync env fuel w sdbus_cmd_t.SDBUS_RESTART_UNIT n ws hws
  have hcc : cstr (cstr P) = cstr P := cstr_idem P
  have h0 : (sdw_restart env fuel w n ws).1 = some 0 := by
    unfold sdw_restart
    rw [heq, if_neg (by omega), if_neg (by
      simp only [cmd_str]
      omega)]
    simp only [cmd_str, hpath, Option.map_some']
    refine (sdwi_job_wait_done_after_others env (strdup P) k fuel w2 _ rfl rfl ?_ ?_ ?_ ?_ ?_
      hfuel).1
    · intro i hi
      rw [ht]
      exact hclock i hi
    · intro i u hi
      rw [ht]
      exact hwait i u hi
    · intro i hi
      rw [ht]
      exact hproc i hi
    · intro i msg hi hm
      rw [ht] at hm
      unfold strdup
      rw [hcc]
      exact hothers i msg hi hm
    · rw [ht]
      unfold strdup
      rw [hcc]
      exact hdone
  refine ⟨h0, ?_⟩
  rw [h0]
  decide

/-- Witness for C19, the scenario of the claim: `sdw_restart("app.service", 5)` queued as
job 8; the event of job 7 arrives first, the event of job 8 with "done" at time 2. -/
theorem sdw_restart_done_after_others_witness :
    (sdw_restart Env.two_events 2 World.init (some (str "app.service")) 5).1 = some 0 :=
  (sdw_restart_done_after_others Env.two_events 2 World.init (some (str "app.service")) 5
    (str "/org/freedesktop/systemd1/job/8") 1 (by decide) (by decide) (by decide) (by decide)
    rfl (by decide) (fun _ _ _ => Int.zero_le_ofNat 1) (by decide)
    (fun i msg hi hm => by
      obtain rfl : i = 0 := by omega
      have hm' : msg = ⟨1, 7, str "/org/freedesktop/systemd1/job/7", str "other.service",
          str "failed"⟩ := (Option.some.inj hm).symm
      rw [hm']
      exact Or.inr (by decide))
    ⟨⟨1, 8, str "/org/freedesktop/systemd1/job/8", str "app.service", str "done"⟩, rfl,
      by decide, by decide, by decide⟩
    (by decide)).1

/-- C20: `sdwi_get_activestate` returns `SDW_EINVAL` when the property call or the read
of its reply fails; when the read succeeds with the string `s` it returns 21 for
"activating", 22 for "active", 23 for "reloading", 24 for "deactivating", 25 for
"inactive", 26 for "failed" and 20 for every other string (20 too when no string
came back). The result is thus `SDW_EINVAL` or one of 20, ..., 26. -/
theorem sdwi_get_activestate_codes (env : Env) (w : World) (e : List Nat) (r : Bool) :
    (sdwi_get_activestate env w e r).1 =
      (if (env.get_property w.tick (unit_path e) sdbus_interface_unit "ActiveState" "s").rc < 0 ∨
          (env.get_property w.tick (unit_path e) sdbus_interface_unit "ActiveState" "s").parse 0
            < 0 then SDW_EINVAL
       else
        match (env.get_property w.tick (unit_path e) sdbus_interface_unit "ActiveState" "s").s with
        | none => 20
        | some s =>
          if cstr s = str "activating" then 21
          else if cstr s = str "active" then 22
          else if cstr s = str "reloading" then 23
          else if cstr s = str "deactivating" then 24
          else if cstr s = str "inactive" then 25
          else if cstr s = str "failed" then 26
          else 20) ∧
    ((sdwi_get_activestate env w e r).1 = SDW_EINVAL ∨
      (20 ≤ (sdwi_get_activestate env w e r).1 ∧ (sdwi_get_activestate env w e r).1 ≤ 26)) := by
  have hmain : (sdwi_get_activestate env w e r).1 =
      (if (env.get_property w.tick (unit_path e) sdbus_interface_unit "ActiveState" "s").rc < 0 ∨
          (env.get_property w.tick (unit_path e) sdbus_interface_unit "ActiveState" "s").parse 0
            < 0 then SDW_EINVAL
       else
        match (env.get_property w.tick (unit_path e) sdbus_interface_unit "ActiveState" "s").s with
        | none => 20
        | some s =>
          if cstr s = str "activating" then 21
          else if cstr s = str "active" then 22
          else if cstr s = str "reloading" then 23
          else if cstr s = str "deactivating" then 24
          else if cstr s = str "inactive" then 25
          else if cstr s = str "failed" then 26
          else 20) := by
    unfold sdwi_get_activestate sdwi_get_unit_property sdwi_get_property sd_bus_get_property
    dsimp only
    generalize env.get_property w.tick (unit_path e) sdbus_interface_unit "ActiveState" "s"
      = reply
    by_cases h1 : reply.rc < 0
    · simp [h1, SDW_EINVAL]
    · by_cases h2 : reply.parse 0 < 0
      · simp [h1, h2, SDW_EINVAL]
      · rcases hs : reply.s with _ | s
        · simp [h1, h2, hs, SDW_UNIT_ACTIVE_STAT_UNKNOWN]
        · simp [h1, h2, hs, activestate_code_eq, strdup, cstr_idem]
  refine ⟨hmain, ?_⟩
  rw [hmain]
  split_ifs
  · left; rfl
  · right
    split
    · decide
    · split_ifs <;> decide

/-- C21: `sdwi_get_substate` returns `SDW_EINVAL` when the property call or the read of
its reply fails; when the read succeeds with the string `s` it returns 31 for "start",
32 for "running", 33 for "stop-sigterm", 34 for "dead" and 30 for every other string
(30 too when no string came back), in particular 30 for "failed". The code 35
(`SDW_UNIT_SUB_STAT_FAILED`) is never returned. -/
theorem sdwi_get_substate_codes (env : Env) (w : World) (e : List Nat) (r : Bool) :
    (sdwi_get_substate env w e r).1 =
      (if (env.get_property w.tick (unit_path e) sdbus_interface_unit "SubState" "s").rc < 0 ∨
          (env.get_property w.tick (unit_path e) sdbus_interface_unit "SubState" "s").parse 0
            < 0 then SDW_EINVAL
       else
        match (env.get_property w.tick (unit_path e) sdbus_interface_unit "SubState" "s").s with
        | none => 30
        | some s =>
          if cstr s = str "start" then 31
          else if cstr s = str "running" then 32
          else if cstr s = str "stop-sigterm" then 33
          else if cstr s = str "dead" then 34
          else 30) ∧
    (sdwi_get_substate env w e r).1 ≠ SDW_UNIT_SUB_STAT_FAILED ∧
    SDW_UNIT_SUB_STAT_FAILED = 35 ∧
    substate_code (str "failed") = 30 := by
  have hmain : (sdwi_get_substate env w e r).1 =
      (if (env.get_property w.tick (unit_path e) sdbus_interface_unit "SubState" "s").rc < 0 ∨
          (env.get_property w.tick (unit_path e) sdbus_interface_unit "SubState" "s").parse 0
            < 0 then SDW_EINVAL
       else
        match (env.get_property w.tick (unit_path e) sdbus_interface_unit "SubState" "s").s with
        | none => 30
        | some s =>
          if cstr s = str "start" then 31
          else if cstr s = str "running" then 32
          else if cstr s = str "stop-sigterm" then 33
          else if cstr s = str "dead" then 34
          else 30) := by
    unfold sdwi_get_substate sdwi_get_unit_property sdwi_get_property sd_bus_get_property
    dsimp only
    generalize env.get_property w.tick (unit_path e) sdbus_interface_unit "SubState" "s"
      = reply
    by_cases h1 : reply.rc < 0
    · simp [h1, SDW_EINVAL]
    · by_cases h2 : reply.parse 0 < 0
      · simp [h1, h2, SDW_EINVAL]
      · rcases hs : reply.s with _ | s
        · simp [h1, h2, hs, SDW_UNIT_SUB_STAT_UNKNOWN]
        · simp [h1, h2, hs, substate_code_eq, strdup, cstr_idem]
  refine ⟨hmain, ?_, rfl, by decide⟩
  rw [hmain]
  split_ifs
  · decide
  · split
    · decide
    · split_ifs <;> decide

/-- C22: with a `GetUnitFileState` call that succeeds and a read of its reply that
returns 1 and stores "static", `sdw_get_unitfilestate` returns 1, the return code of
the read, and not 0; the states "enabled" and "disabled" give 11 and 12. -/
theorem sdw_get_unitfilestate_returns_read_rc :
    (sdw_get_unitfilestate (Env.replying ⟨0, fun _ => 1, some (str "static"), 0⟩) World.init
      (some (str "app.service")) true).1 = 1 ∧
    (sdw_get_unitfilestate (Env.replying ⟨0, fun _ => 1, some (str "static"), 0⟩) World.init
      (some (str "app.service")) true).2.1 = some (str "static") ∧
    (sdw_get_unitfilestate (Env.replying ⟨0, fun _ => 1, some (str "enabled"), 0⟩) World.init
      (some (str "app.service")) true).1 = 11 ∧
    (sdw_get_unitfilestate (Env.replying ⟨0, fun _ => 1, some (str "disabled"), 0⟩) World.init
      (some (str "app.service")) true).1 = 12 := by
  decide

/-- C23: `sdw_notify_ready`, `sdw_notify_stopping` and `sdw_notify_mainpid` make one
`sd_notify` call, with the state "READY=1", "STOPPING=1" and "MAINPID=" followed by the
pid in decimal, and return 0 when that call returns a positive value, `SDW_ENOTIFYSOCK`
when it returns 0 and `SDW_EINVAL` when it returns a negative value. -/
theorem sdw_notify_normalised (env : Env) (w : World) (pid : Nat) :
    ((sdw_notify_ready env w).1 =
        (if 0 < env.notify w.tick (str "READY=1") then 0
         else if env.notify w.tick (str "READY=1") = 0 then SDW_ENOTIFYSOCK else SDW_EINVAL) ∧
      (sdw_notify_ready env w).2.trace = w.trace ++ [BusCall.notify (str "READY=1")]) ∧
    ((sdw_notify_stopping env w).1 =
        (if 0 < env.notify w.tick (str "STOPPING=1") then 0
         else if env.notify w.tick (str "STOPPING=1") = 0 then SDW_ENOTIFYSOCK
         else SDW_EINVAL) ∧
      (sdw_notify_stopping env w).2.trace = w.trace ++ [BusCall.notify (str "STOPPING=1")]) ∧
    ((sdw_notify_mainpid env w pid).1 =
        (if 0 < env.notify w.tick (str "MAINPID=" ++ str (Nat.repr pid)) then 0
         else if env.notify w.tick (str "MAINPID=" ++ str (Nat.repr pid)) = 0
           then SDW_ENOTIFYSOCK
         else SDW_EINVAL) ∧
      (sdw_notify_mainpid env w pid).2.trace =
        w.trace ++ [BusCall.notify (str "MAINPID=" ++ str (Nat.repr pid))]) ∧
    (sdw_notify_mainpid env w 4242).2.trace = w.trace ++ [BusCall.notify (str "MAINPID=4242")] ∧
    (sdw_notify_mainpid env w 0).2.trace = w.trace ++ [BusCall.notify (str "MAINPID=0")] ∧
    SDW_ENOTIFYSOCK = -4 ∧ SDW_EINVAL = -3 := by
  have key : ∀ msg : List Nat,
      (sdwi_notify env w msg).1 =
        (if 0 < env.notify w.tick msg then 0
         else if env.notify w.tick msg = 0 then SDW_ENOTIFYSOCK else SDW_EINVAL) ∧
      (sdwi_notify env w msg).2.trace = w.trace ++ [BusCall.notify msg] := by
    intro msg
    unfold sdwi_notify sd_notify
    dsimp only
    generalize env.notify w.tick msg = r
    by_cases h0 : (0 : Int) = r
    · subst h0
      simp [World.call, LOG_ERROR]
    · by_cases h1 : (0 : Int) > r
      · have h2 : ¬ (0 < r) := by omega
        have h3 : ¬ (r = 0) := by omega
        simp [h0, h1, h2, h3, World.call, LOG_ERROR]
      · have h2 : 0 < r := by omega
        simp [h0, h1, h2, World.call]
  refine ⟨key _, key _, key _, ?_, ?_, rfl, rfl⟩
  · have h : str "MAINPID=" ++ str (Nat.repr 4242) = str "MAINPID=4242" := by decide
    rw [← h]
    exact (key _).2
  · have h : str "MAINPID=" ++ str (Nat.repr 0) = str "MAINPID=0" := by decide
    rw [← h]
    exact (key _).2

/-- C24: the manager reports the unit path
"/org/freedesktop/systemd1/unit/openssh_2eservice" for pid 4242, the unit
"openssh.service". `sdw_check_pid("ssh.service", 4242)` returns 0 all the same: the
encoded name "ssh_2eservice" occurs inside the path (`strstr`), though the last segment
of the path is another string; so does `sdw_check_pid("h.s", 4242)`. -/
theorem sdw_check_pid_substring :
    (sdw_check_pid
      (Env.replying ⟨0, fun _ => 1,
        some (str "/org/freedesktop/systemd1/unit/openssh_2eservice"), 0⟩)
      World.init zero_unit [] (some (str "ssh.service")) 4242).1 = 0 ∧
    (sdw_check_pid
      (Env.replying ⟨0, fun _ => 1,
        some (str "/org/freedesktop/systemd1/unit/openssh_2eservice"), 0⟩)
      World.init zero_unit [] (some (str "ssh.service")) 4242).2.trace =
      [BusCall.call_method "GetUnitByPID" "u" [Arg.u 4242]] ∧
    (sdw_encode World.init zero_unit [] (some (str "ssh.service")) true).2.1 =
      some (str "ssh_2eservice") ∧
    str "openssh_2eservice" ≠ str "ssh_2eservice" ∧
    (sdw_check_pid
      (Env.replying ⟨0, fun _ => 1,
        some (str "/org/freedesktop/systemd1/unit/openssh_2eservice"), 0⟩)
      World.init zero_unit [] (some (str "h.s")) 4242).1 = 0 := by
  decide

/-- C25, as stated, fails: `sdw_start` with the name of 72 bytes made of 64 letters 'a'
and ".service" hands the name to the manager in a `StartUnit` call and returns what
the call gives, here 0. -/
theorem sdw_start_long_name :
    64 ≤ strlen (List.replicate 64 97 ++ str ".service") ∧
    (sdw_start (Env.manager (str "249")) 0 World.init
      (some (List.replicate 64 97 ++ str ".service")) 0).1 = some 0 ∧
    (sdw_start (Env.manager (str "249")) 0 World.init
      (some (List.replicate 64 97 ++ str ".service")) 0).2.trace =
      [BusCall.call_method "StartUnit" "ss"
        [Arg.s (some (List.replicate 64 97 ++ str ".service")),
         Arg.s (some (str "replace"))]] := by
  decide

/-- C25, amended: the operations that copy the name into their local `unit_t`
(`sdw_get_mainpid`, `sdw_get_activestate`, `sdw_get_substate`, `sdw_check_pid`,
`sdw_check_controlpid`) return `SDW_EINVAL` without a transport call, with defined
behaviour, for a null name and for a name of 64 bytes or more that holds no '%'. A null
output pointer makes `sdw_get_version`, `sdw_encode` and `sdw_decode` return `SDW_EINVAL`
without a transport call, whatever the name, and `sdw_get_mainpid` too for every name
that is shorter than 64 bytes or holds no '%'. The other operations do not look at the
length of the name: `sdw_start`, `sdw_stop` and `sdw_restart` (here with `wait_sec = 0`),
`sdw_enable`, `sdw_disable` and `sdw_get_unitfilestate` hand every name string to the
manager in their first transport call. -/
theorem validation_before_io (env : Env) (w : World) (unit : unit_t) (beyond : List Nat)
    (n : Option (List Nat))
    (hn : n = none ∨ ∃ s, n = some s ∧ 64 ≤ strlen s ∧ 37 ∉ cstr s) :
    (∀ p, (sdw_get_mainpid env w unit beyond n p).1 = SDW_EINVAL ∧
      (sdw_get_mainpid env w unit beyond n p).2.2.trace = w.trace ∧
      (sdw_get_mainpid env w unit beyond n p).2.2.undefined = w.undefined) ∧
    (∀ r, (sdw_get_activestate env w unit beyond n r).1 = SDW_EINVAL ∧
      (sdw_get_activestate env w unit beyond n r).2.2.trace = w.trace ∧
      (sdw_get_activestate env w unit beyond n r).2.2.undefined = w.undefined) ∧
    (∀ r, (sdw_get_substate env w unit beyond n r).1 = SDW_EINVAL ∧
      (sdw_get_substate env w unit beyond n r).2.2.trace = w.trace ∧
      (sdw_get_substate env w unit beyond n r).2.2.undefined = w.undefined) ∧
    (∀ pid, (sdw_check_pid env w unit beyond n pid).1 = SDW_EINVAL ∧
      (sdw_check_pid env w unit beyond n pid).2.trace = w.trace ∧
      (sdw_check_pid env w unit beyond n pid).2.undefined = w.undefined) ∧
    (∀ pid, (sdw_check_controlpid env w unit beyond n pid).1 = SDW_EINVAL ∧
      (sdw_check_controlpid env w unit beyond n pid).2.trace = w.trace ∧
      (sdw_check_controlpid env w unit beyond n pid).2.undefined = w.undefined) ∧
    (∀ m, (∀ s, m = some s → 64 ≤ strlen s → 37 ∉ cstr s) →
      (sdw_get_mainpid env w unit beyond m false).1 = SDW_EINVAL ∧
      (sdw_get_mainpid env w unit beyond m false).2.2.trace = w.trace ∧
      (sdw_get_mainpid env w unit beyond m false).2.2.undefined = w.undefined) ∧
    (sdw_get_version env w false = (SDW_EINVAL, none, w)) ∧
    (∀ m, sdw_encode w unit beyond m false = (SDW_EINVAL, none, w)) ∧
    (∀ m, sdw_decode w unit beyond m false = (SDW_EINVAL, none, w)) ∧
    (∀ (s : List Nat) (fuel : Nat),
      (∃ ext, (sdw_start env fuel w (some s) 0).2.trace = w.trace ++
        BusCall.call_method "StartUnit" "ss"
          [Arg.s (some s), Arg.s (some (str "replace"))] :: ext) ∧
      (∃ ext, (sdw_stop env fuel w (some s) 0).2.trace = w.trace ++
        BusCall.call_method "StopUnit" "ss"
          [Arg.s (some s), Arg.s (some (str "replace"))] :: ext) ∧
      (∃ ext, (sdw_restart env fuel w (some s) 0).2.trace = w.trace ++
        BusCall.call_method "RestartUnit" "ss"
          [Arg.s (some s), Arg.s (some (str "replace"))] :: ext)) ∧
    (∀ s : List Nat,
      (∃ ext, (sdw_enable env w (some s)).2.trace = w.trace ++
        BusCall.call_method "EnableUnitFiles" "asbb"
          [Arg.s (some s), Arg.b false, Arg.b true] :: ext) ∧
      (∃ ext, (sdw_disable env w (some s)).2.trace = w.trace ++
        BusCall.call_method "DisableUnitFiles" "asb" [Arg.s (some s), Arg.b false] :: ext)) ∧
    (∀ (s : List Nat) (r : Bool),
      ∃ ext, (sdw_get_unitfilestate env w (some s) r).2.2.trace = w.trace ++
        BusCall.call_method "GetUnitFileState" "s" [Arg.s (some s)] :: ext) := by
  have hn1 : n = none ∨ ∃ s, n = some s ∧ 64 ≤ strlen s := by
    rcases hn with h | ⟨s, h1, h2, _⟩
    · exact Or.inl h
    · exact Or.inr ⟨s, h1, h2⟩
  have hn2 : ∀ s, n = some s → 64 ≤ strlen s → 37 ∉ cstr s := by
    intro s hs _
    rcases hn with h | ⟨s1, h1, _, h3⟩
    · rw [h] at hs
      exact absurd hs (by simp)
    · rw [h1] at hs
      rw [← Option.some.inj hs]
      exact h3
  obtain ⟨h1, h2⟩ := sdwi_set_unit_name_invalid w unit n hn1
  have h3 := sdwi_set_unit_name_defined w unit n hn2
  have hne : SDW_EINVAL ≠ 0 := by decide
  refine ⟨?_, ?_, ?_, ?_, ?_, ?_, ?_, ?_, ?_, ?_, ?_, ?_⟩
  · intro p
    unfold sdw_get_mainpid
    dsimp only
    rw [h1, if_pos hne]
    exact ⟨rfl, h2, h3⟩
  · intro r
    unfold sdw_get_activestate
    dsimp only
    rw [h1, if_pos hne]
    exact ⟨rfl, h2, h3⟩
  · intro r
    unfold sdw_get_substate
    dsimp only
    rw [h1, if_pos hne]
    exact ⟨rfl, h2, h3⟩
  · intro pid
    unfold sdw_check_pid
    dsimp only
    rw [h1, if_pos hne]
    exact ⟨rfl, h2, h3⟩
  · intro pid
    unfold sdw_check_controlpid
    dsimp only
    rw [h1, if_pos hne]
    exact ⟨rfl, h2, h3⟩
  · intro m hm
    obtain ⟨hr, ht⟩ := sdwi_set_unit_name_rc w unit m
    have hd := sdwi_set_unit_name_defined w unit m hm
    unfold sdw_get_mainpid
    dsimp only
    rcases hr with hr | hr
    · rw [hr, if_neg (by decide)]
      simp only [sdwi_encode_eq]
      exact ⟨rfl, ht, hd⟩
    · rw [hr, if_pos hne]
      exact ⟨rfl, ht, hd⟩
  · rfl
  · intro m
    rfl
  · intro m
    rcases m with _ | s
    · rfl
    · rfl
  · intro s fuel
    refine ⟨⟨[], ?_⟩, ⟨[], ?_⟩, ⟨[], ?_⟩⟩
    · exact (sdwi_sdbus_cmd_eq env w (some s) false sdbus_cmd_t.SDBUS_START_UNIT).2.1
    · exact (sdwi_sdbus_cmd_eq env w (some s) false sdbus_cmd_t.SDBUS_STOP_UNIT).2.1
    · exact (sdwi_sdbus_cmd_eq env w (some s) false sdbus_cmd_t.SDBUS_RESTART_UNIT).2.1
  · intro s
    constructor
    · obtain ⟨_, ht⟩ := sdwi_enable_eq env w (some s) false true
      unfold sdw_enable
      dsimp only
      split_ifs
      · exact ⟨[], ht⟩
      · refine ⟨[BusCall.call_method "Reload" "" []], ?_⟩
        rw [sdw_reload_trace, ht]
        simp
    · obtain ⟨_, ht⟩ := sdwi_disable_eq env w (some s) false
      unfold sdw_disable
      dsimp only
      split_ifs
      · exact ⟨[], ht⟩
      · refine ⟨[BusCall.call_method "Reload" "" []], ?_⟩
        rw [sdw_reload_trace, ht]
        simp
  · intro s r
    refine ⟨[], ?_⟩
    unfold sdw_get_unitfilestate sdwi_get_unitfilestate sd_bus_call_method
    dsimp only
    split_ifs <;> simp [World.call, LOG_ERROR]

/-- Witness for C25: the name made of 64 letters 'a'. -/
theorem validation_before_io_witness :
    (sdw_check_pid (Env.manager (str "249")) World.init zero_unit []
      (some (List.replicate 64 97)) 4242).1 = SDW_EINVAL ∧
    (sdw_check_pid (Env.manager (str "249")) World.init zero_unit []
      (some (List.replicate 64 97)) 4242).2.trace = World.init.trace ∧
    (sdw_check_pid (Env.manager (str "249")) World.init zero_unit []
      (some (List.replicate 64 97)) 4242).2.undefined = World.init.undefined :=
  (validation_before_io (Env.manager (str "249")) World.init zero_unit []
    (some (List.replicate 64 97))
    (Or.inr ⟨List.replicate 64 97, rfl, by decide, by decide⟩)).2.2.2.1 4242

/-- C26: the name "dbus-org.freedesktop.network1@eth0-vlan-100.service" has 51 bytes and
an escaped form of 65 bytes. When the read of `ControlPID` at the unit path of that
escaped form succeeds with 4242 and no other object exists, `sdw_check_controlpid` of the
name and 4242 returns `SDW_EINVAL`: it reads the property at the path cut to 63 bytes,
".../unit/dbus_2dorg_2efreedesktop_2enetwork1_40eth0_2dvlan_2d100_2eservi". When instead
only the object at the cut path exists, with `ControlPID` 4242, it returns 0. -/
theorem sdw_check_controlpid_truncated :
    strlen (str "dbus-org.freedesktop.network1@eth0-vlan-100.service") = 51 ∧
    bus_label_escape (str "dbus-org.freedesktop.network1@eth0-vlan-100.service") =
      str "dbus_2dorg_2efreedesktop_2enetwork1_40eth0_2dvlan_2d100_2eservice" ∧
    ((Env.control_pid_at
        (unit_path (str "dbus_2dorg_2efreedesktop_2enetwork1_40eth0_2dvlan_2d100_2eservice"))
        4242).get_property 0
      (unit_path (str "dbus_2dorg_2efreedesktop_2enetwork1_40eth0_2dvlan_2d100_2eservice"))
      sdbus_interface_srv "ControlPID" "u").u = 4242 ∧
    (sdw_check_controlpid
      (Env.control_pid_at
        (unit_path (str "dbus_2dorg_2efreedesktop_2enetwork1_40eth0_2dvlan_2d100_2eservice"))
        4242)
      World.init zero_unit []
      (some (str "dbus-org.freedesktop.network1@eth0-vlan-100.service")) 4242).1 = SDW_EINVAL ∧
    (sdw_check_controlpid
      (Env.control_pid_at
        (unit_path (str "dbus_2dorg_2efreedesktop_2enetwork1_40eth0_2dvlan_2d100_2eservice"))
        4242)
      World.init zero_unit []
      (some (str "dbus-org.freedesktop.network1@eth0-vlan-100.service")) 4242).2.trace =
      [BusCall.get_property
        (unit_path (str "dbus_2dorg_2efreedesktop_2enetwork1_40eth0_2dvlan_2d100_2eservi"))
        sdbus_interface_srv "ControlPID" "u"] ∧
    (sdw_check_controlpid
      (Env.control_pid_at
        (unit_path (str "dbus_2dorg_2efreedesktop_2enetwork1_40eth0_2dvlan_2d100_2eservi"))
        4242)
      World.init zero_unit []
      (some (str "dbus-org.freedesktop.network1@eth0-vlan-100.service")) 4242).1 = 0 := by
  decide

/-- C27: for every job and every message, readable or not, for the path of the job or
not, `sdwi_msg_handler` returns 0 and hands back a job with the same command, deadline,
wait time, slot and path; it makes no transport call. Without a job (`userdata` NULL) it
returns 0 as well. -/
theorem sdwi_msg_handler_frame_rule (w : World) (msg : Signal) (job : job_info_t) :
    (sdwi_msg_handler w msg (some job)).1 = 0 ∧
    (∃ job1, (sdwi_msg_handler w msg (some job)).2.1 = some job1 ∧
      job1.path = job.path ∧ job1.ts_end = job.ts_end ∧ job1.cmd = job.cmd ∧
      job1.wait_sec = job.wait_sec ∧ job1.slot = job.slot) ∧
    (sdwi_msg_handler w msg (some job)).2.2.trace = w.trace ∧
    (sdwi_msg_handler w msg none).1 = 0 ∧
    (sdwi_msg_handler w msg none).2.1 = none := by
  obtain ⟨job1, w1, h, h1, h2, h3, h4, h5, _, h7, _⟩ := sdwi_msg_handler_frame w msg job
  rw [h]
  exact ⟨rfl, ⟨job1, rfl, h5, h2, h1, h3, h4⟩, h7, rfl, rfl⟩

/-- C28: the name made of 60 letters 'a' and a dot has 61 bytes and its escaped form,
60 letters 'a' and "_2e", has 63 bytes. With a local `unit_t` whose last byte of
`encoded` holds '.', `sdw_encode` returns 0 and a string of 64 bytes, the escaped form
followed by '.', and `sdw_decode` of that string returns `SDW_EINVAL`. -/
theorem sdw_encode_full_buffer :
    strlen (List.replicate 60 97 ++ [46]) = 61 ∧
    bus_label_escape (List.replicate 60 97 ++ [46]) = List.replicate 60 97 ++ str "_2e" ∧
    (bus_label_escape (List.replicate 60 97 ++ [46])).length = 63 ∧
    sdw_encode World.init ⟨List.replicate 64 0, List.replicate 63 0 ++ [46]⟩ []
        (some (List.replicate 60 97 ++ [46])) true =
      (0, some (List.replicate 60 97 ++ str "_2e" ++ [46]), World.init) ∧
    (sdw_decode World.init zero_unit []
        (some (List.replicate 60 97 ++ str "_2e" ++ [46])) true).1 = SDW_EINVAL := by
  decide

/-- C29: an iteration of the loop of `sdwi_job_wait` entered with the status UNKNOWN, a
clock read `ts_now` before the deadline `ts_end` and `ts_end - ts_now` at most
`2^32 - 1` calls `sd_bus_wait` next, with the timeout `(ts_end - ts_now) * 1000000`
microseconds: the product taken modulo `2^64` is the product itself, it is positive and
below `2^64`. -/
theorem sdwi_job_wait_timeout_usec (env : Env) (fuel : Nat) (w : World) (job : job_info_t)
    (hs : job.status = job_status_t.JOB_UNKNOWN)
    (hd : env.time w.tick < job.ts_end)
    (hb : job.ts_end - env.time w.tick ≤ 2 ^ 32 - 1) :
    (∃ ext, (sdwi_job_wait env (fuel + 1) w job).2.2.trace =
      w.trace ++ BusCall.wait ((job.ts_end - env.time w.tick).toNat * 1000000) :: ext) ∧
    (1000 * 1000 * (job.ts_end - env.time w.tick)) % 2 ^ 64 =
      (job.ts_end - env.time w.tick) * 1000000 ∧
    0 < (job.ts_end - env.time w.tick).toNat * 1000000 ∧
    (job.ts_end - env.time w.tick).toNat * 1000000 < 2 ^ 64 := by
  have hmod : (1000 * 1000 * (job.ts_end - env.time w.tick)) % 2 ^ 64 =
      (job.ts_end - env.time w.tick) * 1000000 := by
    omega
  have hu : ((1000 * 1000 * (job.ts_end - env.time w.tick)) % 2 ^ 64).toNat =
      (job.ts_end - env.time w.tick).toNat * 1000000 := by
    omega
  have hw : (wait_call env w job).2.trace =
      w.trace ++ [BusCall.wait ((job.ts_end - env.time w.tick).toNat * 1000000)] := by
    rw [← hu]
    rfl
  refine ⟨?_, hmod, by omega, by omega⟩
  obtain ⟨_, _, _, _, _, hp6⟩ := process_round_frame env (wait_call env w job).2 job
  rw [sdwi_job_wait_step env fuel w job hs, if_pos hd]
  by_cases h2 : (wait_call env w job).1 < 0
  · rw [if_pos h2]
    exact ⟨[], by simp [hw]⟩
  · rw [if_neg h2]
    by_cases h3 : (process_round env (wait_call env w job).2 job).1 < 0
    · rw [if_pos h3]
      exact ⟨[BusCall.process], by simp [hp6, hw]⟩
    · rw [if_neg h3]
      obtain ⟨_, ext, he, _⟩ := sdwi_job_wait_trace env fuel
        (process_round env (wait_call env w job).2 job).2.2
        (process_round env (wait_call env w job).2 job).2.1
      exact ⟨BusCall.process :: ext, by simp [he, hp6, hw]⟩

/-- Witness for C29: the restart queued as job 8 with the deadline 5, entered at time 0;
the timeout is 5000000 microseconds. -/
theorem sdwi_job_wait_timeout_usec_witness :
    ∃ ext, (sdwi_job_wait (Env.manager (str "249")) 1 World.init job8).2.2.trace =
      World.init.trace ++ BusCall.wait 5000000 :: ext :=
  (sdwi_job_wait_timeout_usec (Env.manager (str "249")) 0 World.init job8 rfl (by decide)
    (by decide)).1

/-- C30: for a transport on which a read of a method reply that succeeds has stored a
string (`sd_bus_message_read` of libsystemd fails on a reply that lacks the field), and
for runs in which no log call has undefined behaviour. When `sdwi_sdbus_cmd`, called
with a response pointer, returns 0, it has stored the path that the manager returned.
`sdw_start`, `sdw_stop` and `sdw_restart` (which are `sdw_job_cmd` at their command) with
`wait_sec > 0` then either do not enter the wait loop, the calls made being the
registration alone or the registration, the command and the release, or run the wait
loop on a job whose path is set. -/
theorem sdwi_sdbus_cmd_stores_path (env : Env) (fuel : Nat) (w : World) (cmd : sdbus_cmd_t)
    (n : Option (List Nat)) (ws : Nat)
    (hlib : ∀ t m ty a, 0 ≤ (env.call_method t m ty a).parse 0 →
      (env.call_method t m ty a).s ≠ none)
    (hws : ws ≠ 0) :
    ((sdwi_sdbus_cmd env w n true cmd).2.2.undefined = false →
      (sdwi_sdbus_cmd env w n true cmd).1 = 0 →
      ∃ p, (env.call_method w.tick (cmd_str cmd) "ss"
          [Arg.s n, Arg.s (some (str "replace"))]).s = some p ∧
        (sdwi_sdbus_cmd env w n true cmd).2.1 = some (cstr p)) ∧
    sdw_start env fuel w n ws = sdw_job_cmd env fuel w sdbus_cmd_t.SDBUS_START_UNIT n ws ∧
    sdw_stop env fuel w n ws = sdw_job_cmd env fuel w sdbus_cmd_t.SDBUS_STOP_UNIT n ws ∧
    sdw_restart env fuel w n ws = sdw_job_cmd env fuel w sdbus_cmd_t.SDBUS_RESTART_UNIT n ws ∧
    ((sdw_job_cmd env fuel w cmd n ws).2.undefined = false →
      (sdw_job_cmd env fuel w cmd n ws).2.trace = w.trace ++ [BusCall.add_match] ∨
      (sdw_job_cmd env fuel w cmd n ws).2.trace = w.trace ++ [BusCall.add_match,
        BusCall.call_method (cmd_str cmd) "ss" [Arg.s n, Arg.s (some (str "replace"))],
        BusCall.slot_unref] ∨
      ∃ (w2 : World) (p : List Nat),
        (env.call_method (w.tick + 2) (cmd_str cmd) "ss"
          [Arg.s n, Arg.s (some (str "replace"))]).s = some p ∧
        sdw_job_cmd env fuel w cmd n ws =
          ((sdwi_job_wait env fuel w2
              ⟨cmd, job_status_t.JOB_UNKNOWN, env.time w.tick + ws, ws, some 1,
                some (cstr p), none⟩).1,
            sd_bus_slot_unref (sdwi_job_wait env fuel w2
              ⟨cmd, job_status_t.JOB_UNKNOWN, env.time w.tick + ws, ws, some 1,
                some (cstr p), none⟩).2.2)) := by
  refine ⟨?_, rfl, rfl, rfl, ?_⟩
  · have hl := hlib w.tick (cmd_str cmd) "ss" [Arg.s n, Arg.s (some (str "replace"))]
    unfold sdwi_sdbus_cmd sd_bus_call_method
    dsimp only
    generalize env.call_method w.tick (cmd_str cmd) "ss"
      [Arg.s n, Arg.s (some (str "replace"))] = reply at hl
    intro _
    by_cases h1 : reply.rc < 0
    · simp [h1, SDW_EINVAL]
    · by_cases h2 : reply.parse 0 < 0
      · simp [h1, h2, SDW_EINVAL]
      · have h3 := hl (by omega)
        obtain ⟨p, hp⟩ := Option.ne_none_iff_exists'.mp h3
        simp [h1, h2, hp, strdup]
  · intro _
    obtain ⟨w1, w2, h1, h2, _, heq⟩ := sdw_job_cmd_sync env fuel w cmd n ws hws
    have hl := hlib (w.tick + 2) (cmd_str cmd) "ss" [Arg.s n, Arg.s (some (str "replace"))]
    rw [heq]
    by_cases ha : env.add_match (w.tick + 1) < 0
    · rw [if_pos ha]
      exact Or.inl h1
    · rw [if_neg ha]
      by_cases hc : (env.call_method (w.tick + 2) (cmd_str cmd) "ss"
            [Arg.s n, Arg.s (some (str "replace"))]).rc < 0 ∨
          (env.call_method (w.tick + 2) (cmd_str cmd) "ss"
            [Arg.s n, Arg.s (some (str "replace"))]).parse 0 < 0
      · rw [if_pos hc]
        right
        left
        simp [sd_bus_slot_unref, World.call, h2]
      · rw [if_neg hc]
        right
        right
        obtain ⟨p, hp⟩ := Option.ne_none_iff_exists'.mp (hl (by omega))
        refine ⟨w2, p, hp, ?_⟩
        rw [hp]
        rfl

/-- Witness for C30: the manager that answers every command with the path of job 1. -/
theorem sdwi_sdbus_cmd_stores_path_witness :
    ∃ p, ((Env.manager (str "249")).call_method World.init.tick
        (cmd_str sdbus_cmd_t.SDBUS_RESTART_UNIT) "ss"
        [Arg.s (some (str "app.service")), Arg.s (some (str "replace"))]).s = some p ∧
      (sdwi_sdbus_cmd (Env.manager (str "249")) World.init (some (str "app.service")) true
        sdbus_cmd_t.SDBUS_RESTART_UNIT).2.1 = some (cstr p) :=
  (sdwi_sdbus_cmd_stores_path (Env.manager (str "249")) 9 World.init
    sdbus_cmd_t.SDBUS_RESTART_UNIT (some (str "app.service")) 5
    (fun _ _ _ _ _ => Option.some_ne_none _) (by decide)).1 (by decide) (by decide)

end Sdw
